import Mathlib

/-!
# CSP minidriver front end (`src/minidriver/minidriver.c`)

A shallow embedding of the translation layer of the SmartCard-HSM minidriver:
the GUID synthesizer, the public-key blob encoders, the container index and
the virtual file system, followed by the properties proved about them.

Conventions of the embedding

* a byte, a `char`, a `WCHAR`, a `WORD` and a `DWORD` are natural numbers; a
  store into a field narrower than the value is written with an explicit
  `% 2 ^ w`;
* a buffer that the C code writes through a pointer is a `Mem`, a map from
  byte offset to byte; a buffer that is only read (an attribute value, a
  file name) is the list of its bytes, and a pointer advanced by `k` is the
  list with `k` elements dropped;
* a `NULL` pointer is `none`;
* a run of the C code that leaves defined behaviour (a read past the end of
  an attribute value, a write through `NULL`, a run-time constraint
  violation of a `_s` function) is the result `none`.
-/

namespace Minidriver

/-! ## Memory -/

/-- Writable byte buffer: offset to byte. -/
abbrev Mem := Nat → Nat

/-- The store `p[a] = v`. -/
def store (m : Mem) (a v : Nat) : Mem := fun i => if i = a then v else m i

/-- The `n` bytes of `m` from offset `off` on, as a list. -/
def Mem.bytes (m : Mem) (off n : Nat) : List Nat := (List.range n).map (fun i => m (off + i))

/-! ## GUID synthesizer (lines 91-197) -/

/-- The macro `bcddigit(x)`: `((x) >= 10 ? 'a' - 10 + (x) : '0' + (x))`. -/
def bcddigit (x : Nat) : Nat := if x ≥ 10 then 97 - 10 + x else 48 + x

/-- The function `decodeBCDString(Inbuff, len, Outbuff)`, `Outbuff` being
`out + pos`: two characters per input byte, then a terminating NUL. A read of
`*Inbuff` is the head of the list. -/
def decodeBCDString : List Nat → Nat → Mem → Nat → Mem
  | _, 0, out, pos => store out pos 0
  | Inbuff, len + 1, out, pos =>
    let out1 := store out pos (bcddigit (Inbuff.headD 0 >>> 4))
    let out2 := store out1 (pos + 1) (bcddigit (Inbuff.headD 0 &&& 15))
    decodeBCDString Inbuff.tail len out2 (pos + 2)

/-- The function `GUIDtoString(guid, outbuff)`: the five groups are written
one after the other, each hyphen overwriting the NUL of the group before. -/
def GUIDtoString (guid : List Nat) (outbuff : Mem) : Mem :=
  let o1 := decodeBCDString guid 4 outbuff 0
  let o1 := store o1 8 45
  let o2 := decodeBCDString (guid.drop 4) 2 o1 9
  let o2 := store o2 13 45
  let o3 := decodeBCDString (guid.drop 6) 2 o2 14
  let o3 := store o3 18 45
  let o4 := decodeBCDString (guid.drop 8) 2 o3 19
  let o4 := store o4 23 45
  decodeBCDString (guid.drop 10) 6 o4 24

/-- The XOR loop of `encodeGUID` (lines 184-188): `*spo = *spo ^ *dpo` with
both pointers advancing, once per identifier byte. `spo` is the offset into
`idscr`. -/
def xorLoop : List Nat → Nat → List Nat → List Nat
  | idscr, _, [] => idscr
  | idscr, spo, d :: dpo => xorLoop (idscr.set spo (idscr.getD spo 0 ^^^ d)) (spo + 1) dpo

/-- The buffer `id` points to in `encodeGUID` (lines 178-192), of which
`GUIDtoString` reads the first 16 bytes: the scratch copy of the serial
number with the identifier XORed into its tail, or the identifier itself. -/
def encodeGUID_id (serialNumber : List Nat) (ckaId : List Nat) : List Nat :=
  if ckaId.length < 16 then
    xorLoop (serialNumber.take 16) (16 - ckaId.length) ckaId
  else
    ckaId

/-! ## Reference encodings used to state the format of the GUID string -/

/-- Lowercase hexadecimal digit of a nibble, read off the digit alphabet. -/
def hexDigit (n : Nat) : Nat := ("0123456789abcdef".toList.getD n '0').toNat

/-- Lowercase hex encoding of a byte string, high nibble first. -/
def hexEncode (g : List Nat) : List Nat := g.flatMap (fun b => [hexDigit (b / 16), hexDigit (b % 16)])

/-- Value of a lowercase hexadecimal digit. -/
def hexVal (c : Nat) : Nat := if c ≤ 57 then c - 48 else c - 87

/-- Hex decoding: two digits per byte, high nibble first. -/
def hexDecode : List Nat → List Nat
  | a :: b :: r => (16 * hexVal a + hexVal b) :: hexDecode r
  | _ => []

/-- A character of `[0-9a-f]`. -/
def isLowerHex (c : Nat) : Prop := (48 ≤ c ∧ c ≤ 57) ∨ (97 ≤ c ∧ c ≤ 102)

/-- The 36 characters of the formatted GUID, as read back from the buffer. -/
def GUIDchars (guid : List Nat) (outbuff : Mem) : List Nat := Mem.bytes (GUIDtoString guid outbuff) 0 36

/-! ## Status codes and the host's view of the card -/

/-- The status values the entry points return (`DWORD` constants of the
smart-card API), by name. -/
inductive Status where
  | SCARD_S_SUCCESS
  | SCARD_E_INVALID_PARAMETER
  | SCARD_E_NO_MEMORY
  | SCARD_E_UNEXPECTED
  | SCARD_E_FILE_NOT_FOUND
  | SCARD_E_DIR_NOT_FOUND
  | SCARD_E_NO_KEY_CONTAINER
  | SCARD_E_UNSUPPORTED_FEATURE
  | ERROR_REVISION_MISMATCH
  | ERROR_INSUFFICIENT_BUFFER
  | SCARD_E_INSUFFICIENT_BUFFER
  | SCARD_E_INVALID_HANDLE
  deriving DecidableEq, Repr

open Status

/-- Modelled from the spec: `struct p11Attribute_t` of the token framework
(`pkcs11/object.h`, outside the minidriver source): an attribute identifier
and the raw value bytes; `attrData.ulValueLen` is the length of `pValue`. -/
structure p11Attribute_t where
  attrType : Nat
  pValue : List Nat

/-- Modelled from the spec: `struct p11Object_t` of the token framework: the
object class, the attribute list and the key size in bits (a C `int`). -/
structure p11Object_t where
  objClass : Nat
  attrList : List p11Attribute_t
  keysize : Int

/-- Modelled from the spec: `struct p11Token_t` of the token framework: the
16-byte serial number of the token info, the list of public objects and the
list of private objects (the private keys), the flags of the token info and
the user currently logged in. -/
structure p11Token_t where
  serialNumber : List Nat
  tokenObjList : List p11Object_t
  tokenPrivObjList : List p11Object_t
  flags : Nat := 0
  user : Nat := 0

/-- The part of `CARD_DATA` the translation layer uses: the host allocator
(`NULL` or a fresh buffer whose contents are unspecified) and the token
reached through `pvVendorSpecific`. -/
structure CARD_DATA where
  pfnCspAlloc : Nat → Option Mem
  token : p11Token_t

/-- Modelled from the spec: attribute identifier `CKA_VALUE` of PKCS#11. -/
def CKA_VALUE : Nat := 0x11
/-- Modelled from the spec: attribute identifier `CKA_ID` of PKCS#11. -/
def CKA_ID : Nat := 0x102
/-- Modelled from the spec: attribute identifier `CKA_MODULUS` of PKCS#11. -/
def CKA_MODULUS : Nat := 0x120
/-- Modelled from the spec: attribute identifier `CKA_EC_PARAMS` of PKCS#11. -/
def CKA_EC_PARAMS : Nat := 0x180
/-- Modelled from the spec: attribute identifier `CKA_EC_POINT` of PKCS#11. -/
def CKA_EC_POINT : Nat := 0x181
/-- Modelled from the spec: object class `CKO_CERTIFICATE` of PKCS#11. -/
def CKO_CERTIFICATE : Nat := 1
/-- Modelled from the spec: object class `CKO_PUBLIC_KEY` of PKCS#11. -/
def CKO_PUBLIC_KEY : Nat := 2
/-- Modelled from the spec: object class `CKO_PRIVATE_KEY` of PKCS#11. -/
def CKO_PRIVATE_KEY : Nat := 3

/-- Modelled from the spec: `findAttribute(obj, type, &attr)` of the token
framework, attribute lookup by identifier reporting presence or absence:
`none` is the negative return value, with `attr` left as it was. -/
def findAttribute (obj : p11Object_t) (type : Nat) : Option p11Attribute_t :=
  obj.attrList.find? (fun a => a.attrType = type)

/-- Modelled from the spec: `enumerateTokenPrivateObjects(token, &obj)` of
the token framework, the ordered and repeatable enumeration of the private
keys: from `NULL` the first object, from an object its successor, `NULL`
after the last. An object pointer is its position in the list. -/
def enumerateTokenPrivateObjects (token : p11Token_t) (obj : Option Nat) : Option Nat :=
  match obj with
  | none => if 0 < token.tokenPrivObjList.length then some 0 else none
  | some i => if i + 1 < token.tokenPrivObjList.length then some (i + 1) else none

/-! ## Library functions -/

/-- The function `memcmp(a, b, n)` read left to right: 0 when the first `n`
bytes agree, 1 (non-zero) at the first difference, `none` when a buffer ends
before the comparison is decided. -/
def memcmp : List Nat → List Nat → Nat → Option Nat
  | _, _, 0 => some 0
  | a :: as, b :: bs, n + 1 => if a = b then memcmp as bs n else some 1
  | _, _, _ + 1 => none

/-- The bytes of `l` written to `m` from offset `off` on. -/
def storeBytes (m : Mem) (off : Nat) (l : List Nat) : Mem :=
  fun i => if off ≤ i ∧ i < off + l.length then l.getD (i - off) 0 else m i

/-- The function `memcpy(dst + doff, src, n)`: `none` when `src` has fewer
than `n` bytes. -/
def memcpy (dst : Mem) (doff : Nat) (src : List Nat) (n : Nat) : Option Mem :=
  if src.length < n then none else some (storeBytes dst doff (src.take n))

/-- The function `strlen(s)` on a buffer of `size` characters, scanning from
`pos`: `none` when the buffer holds no NUL from there on. -/
def strlen (s : Mem) : Nat → Nat → Option Nat
  | 0, _ => none
  | size + 1, pos => if s pos = 0 then some 0 else (strlen s size (pos + 1)).map (fun n => n + 1)

/-- The function `mbstowcs_s(&n, dst, sizeInWords, src, count)` in the C
locale, where a character widens to the wide character of the same value:
`count` characters (the caller passes `strlen(src)`) and a terminating NUL
are written to `dst`; `none` is the run-time constraint violation of a
destination too small for them. -/
def mbstowcs_s (dst : List Nat) (sizeInWords : Nat) (src : Mem) (count : Nat) :
    Option (List Nat) :=
  if sizeInWords < count + 1 then none
  else some (Mem.bytes src 0 count ++ [0] ++ dst.drop (count + 1))

/-- Modelled from the spec: `isprint` of the C library in the C locale, the
printable characters 0x20..0x7e. -/
def isprint (c : Nat) : Bool := decide (0x20 ≤ c ∧ c ≤ 0x7e)

/-- Modelled from the spec: `isspace` of the C library in the C locale. -/
def isspace (c : Nat) : Bool := decide (c = 0x20 ∨ (0x09 ≤ c ∧ c ≤ 0x0d))

/-- Modelled from the spec: the digit loop of `atoi`. -/
def atoi_digits : List Nat → Int → Int
  | [], acc => acc
  | c :: r, acc => if 48 ≤ c ∧ c ≤ 57 then atoi_digits r (acc * 10 + ((c - 48 : Nat) : Int)) else acc

/-- Modelled from the spec: `atoi(s)` of the C library: leading white space,
an optional sign, then the decimal digits up to the first other character. -/
def atoi (s : List Nat) : Int :=
  match s.dropWhile isspace with
  | 45 :: r => - atoi_digits r 0
  | 43 :: r => atoi_digits r 0
  | r => atoi_digits r 0

/-- The conversion `%02i` of a non-negative `int`: its decimal digits, padded
with zeros on the left to two characters. -/
def fmt_02i (i : Nat) : List Nat :=
  let ds := (Nat.toDigits 10 i).map Char.toNat
  List.replicate (2 - ds.length) 48 ++ ds

/-- The call `sprintf_s(buf + po, sizeOfBuffer, "kxc%02i", i)`: the text and
its NUL are written when they fit in `sizeOfBuffer` characters; `none` is the
invalid-parameter handler invoked when they do not. -/
def sprintf_s_kxc (buf : Mem) (po sizeOfBuffer i : Nat) : Option Mem :=
  let text := [107, 120, 99] ++ fmt_02i i
  if sizeOfBuffer < text.length + 1 then none else some (storeBytes buf po (text ++ [0]))

/-- Little-endian store of a `w`-byte integer field at offset `a`; the value
is reduced modulo `2 ^ (8 * w)` by the byte-wise split. -/
def storeLE (m : Mem) (a : Nat) : Nat → Nat → Mem
  | 0, _ => m
  | w + 1, v => store (storeLE m (a + 1) w (v / 256)) a (v % 256)

/-- Little-endian load of a `w`-byte integer field at offset `a`. -/
def loadLE (m : Mem) (a : Nat) : Nat → Nat
  | 0 => 0
  | w + 1 => m a % 256 + 256 * loadLE m (a + 1) w

/-- Conversion of a `size_t` to `int` (32 bits, two's complement). -/
def toInt32 (n : Nat) : Int :=
  if n % 2 ^ 32 < 2 ^ 31 then ((n % 2 ^ 32 : Nat) : Int) else ((n % 2 ^ 32 : Nat) : Int) - 2 ^ 32

/-! ## Public-key blob encoder (lines 605-671) -/

/-- Modelled from the spec: `sizeof(BLOBHEADER)` of the Windows SDK
(`bType`, `bVersion`: 1 byte each, `reserved`: 2, `aiKeyAlg`: 4). -/
def sizeof_BLOBHEADER : Nat := 8
/-- Modelled from the spec: `sizeof(RSAPUBKEY)` of the Windows SDK (`magic`,
`bitlen`, `pubexp`: 4 bytes each). -/
def sizeof_RSAPUBKEY : Nat := 12
/-- Modelled from the spec: `sizeof(BCRYPT_ECCKEY_BLOB)` of the Windows SDK
(`dwMagic`, `cbKey`: 4 bytes each). -/
def sizeof_BCRYPT_ECCKEY_BLOB : Nat := 8
/-- Modelled from the spec: blob type `PUBLICKEYBLOB` of the Windows SDK. -/
def PUBLICKEYBLOB : Nat := 0x6
/-- Modelled from the spec: `CUR_BLOB_VERSION` of the Windows SDK. -/
def CUR_BLOB_VERSION : Nat := 2
/-- Modelled from the spec: algorithm identifier `CALG_RSA_KEYX` of the
Windows SDK. -/
def CALG_RSA_KEYX : Nat := 0xa400
/-- Modelled from the spec: `BCRYPT_ECDH_PUBLIC_P256_MAGIC` of the Windows
SDK. -/
def BCRYPT_ECDH_PUBLIC_P256_MAGIC : Nat := 0x314B4345

/-- The caller's two output variables `*pblob` and `*pbloblen`. -/
structure BlobOut where
  pblob : Option Mem
  pbloblen : Nat

/-- The copy loop of `encodeRSAPublicKey` (lines 631-632):
`for (i = moduluslen; i > 0; i--) *dp++ = *sp--;`, `dp` an offset into the
blob and `sp` an index into the modulus. The first argument is the number of
iterations left. -/
def encodeRSAPublicKey_loop (modulus : List Nat) : Nat → Mem → Nat → Nat → Mem
  | 0, blob, _, _ => blob
  | i + 1, blob, dp, sp =>
    encodeRSAPublicKey_loop modulus i (store blob dp (modulus.getD sp 0)) (dp + 1) (sp - 1)

/-- The header a blob starts with: the stores of lines 617-626 alone. -/
def encodeRSAPublicKey_header (moduluslen : Nat) (blob : Mem) : Mem :=
  let blob := storeLE blob 0 1 PUBLICKEYBLOB
  let blob := storeLE blob 1 1 CUR_BLOB_VERSION
  let blob := storeLE blob 2 2 0
  let blob := storeLE blob 4 4 CALG_RSA_KEYX
  let blob := storeLE blob sizeof_BLOBHEADER 4 0x31415352
  let blob := storeLE blob (sizeof_BLOBHEADER + 4) 4 (moduluslen <<< 3)
  storeLE blob (sizeof_BLOBHEADER + 8) 4 65537

/-- The stores of `encodeRSAPublicKey` into the allocated blob (lines
617-632): the two headers, then the copy loop running `i` times. -/
def encodeRSAPublicKey_fill (modulus : List Nat) (i : Nat) (blob : Mem) : Mem :=
  encodeRSAPublicKey_loop modulus i (encodeRSAPublicKey_header modulus.length blob)
    (sizeof_BLOBHEADER + sizeof_RSAPUBKEY) (modulus.length - 1)

/-- The function `encodeRSAPublicKey`. `bloblen` is a `DWORD`, `i` an `int`
and `bitlen` a `DWORD`; stores past the `bloblen` bytes allocated are
undefined. -/
def encodeRSAPublicKey (pCardData : CARD_DATA) (modulus : List Nat) (out : BlobOut) :
    Option (Status × BlobOut) :=
  let moduluslen := modulus.length
  let bloblen := (sizeof_BLOBHEADER + sizeof_RSAPUBKEY + moduluslen) % 2 ^ 32
  match pCardData.pfnCspAlloc bloblen with
  | none => some (SCARD_E_NO_MEMORY, out)
  | some blob =>
    let i := toInt32 moduluslen
    if bloblen < sizeof_BLOBHEADER + sizeof_RSAPUBKEY + i.toNat then none
    else
      some (SCARD_S_SUCCESS,
        { pblob := some (encodeRSAPublicKey_fill modulus i.toNat blob), pbloblen := bloblen })

/-- The static array `primeP256r1` of `encodeECCPublicKey`. -/
def primeP256r1 : List Nat := [0x06, 0x08, 0x2a, 0x86, 0x48, 0xce, 0x3d, 0x03, 0x01, 0x07]

/-- Lines 654-670 of `encodeECCPublicKey`: what follows the curve check. -/
def encodeECCPublicKey_point (pCardData : CARD_DATA) (p11pubkey : p11Object_t) (out : BlobOut) :
    Option (Status × BlobOut) :=
  match findAttribute p11pubkey CKA_EC_POINT with
  | none => some (SCARD_E_UNEXPECTED, out)
  | some pointattr =>
    let pbloblen := sizeof_BCRYPT_ECCKEY_BLOB + 64
    match pCardData.pfnCspAlloc pbloblen with
    | none => some (SCARD_E_NO_MEMORY, { pblob := none, pbloblen := pbloblen })
    | some blob =>
      let blob := storeLE blob 0 4 BCRYPT_ECDH_PUBLIC_P256_MAGIC
      let blob := storeLE blob 4 4 0x20
      match memcpy blob sizeof_BCRYPT_ECCKEY_BLOB (pointattr.pValue.drop 3) 0x40 with
      | none => none
      | some blob => some (SCARD_S_SUCCESS, { pblob := some blob, pbloblen := pbloblen })

/-- The function `encodeECCPublicKey`: lines 648-652, then the rest. -/
def encodeECCPublicKey (pCardData : CARD_DATA) (p11pubkey : p11Object_t) (out : BlobOut) :
    Option (Status × BlobOut) :=
  match findAttribute p11pubkey CKA_EC_PARAMS with
  | none => some (SCARD_E_UNEXPECTED, out)
  | some curveattr =>
    match memcmp primeP256r1 curveattr.pValue primeP256r1.length with
    | none => none
    | some r =>
      if r ≠ 0 then some (SCARD_E_UNEXPECTED, out)
      else encodeECCPublicKey_point pCardData p11pubkey out

/-- A public key object with the given curve parameter and point values. -/
def ecPublicKey (curve point : List Nat) : p11Object_t :=
  { objClass := CKO_PUBLIC_KEY,
    attrList := [{ attrType := CKA_EC_PARAMS, pValue := curve },
                 { attrType := CKA_EC_POINT, pValue := point }],
    keysize := 256 }

/-- A host whose allocator always succeeds with zeroed memory, over a token
without objects. -/
def zeroHost : CARD_DATA :=
  { pfnCspAlloc := fun _ => some (fun _ => 0),
    token := { serialNumber := [], tokenObjList := [], tokenPrivObjList := [] } }

/-- A host whose allocator always fails, over a token without objects. -/
def nullHost : CARD_DATA :=
  { pfnCspAlloc := fun _ => none,
    token := { serialNumber := [], tokenObjList := [], tokenPrivObjList := [] } }

/-! ## Container index (lines 50-87) -/

/-- The loop of `getNumberOfContainers` (lines 58-63). The first argument
bounds the number of iterations; `cnt` is an `int`, and incrementing it past
`2 ^ 31 - 1` is undefined. -/
def getNumberOfContainers_loop (token : p11Token_t) : Nat → Option Nat → Nat → Option Nat
  | 0, _, _ => none
  | fuel + 1, obj, cnt =>
    match enumerateTokenPrivateObjects token obj with
    | none => some cnt
    | some o =>
      if cnt + 1 < 2 ^ 31 then getNumberOfContainers_loop token fuel (some o) (cnt + 1) else none

/-- The function `getNumberOfContainers`: the enumeration ends after at most
one step per private object and one more. -/
def getNumberOfContainers (pCardData : CARD_DATA) : Option Nat :=
  getNumberOfContainers_loop pCardData.token (pCardData.token.tokenPrivObjList.length + 1) none 0

/-- The loop of `getKeyForIndex` (lines 79-84); the first argument is the
number of iterations `index >= 0` allows, `index + 1`. -/
def getKeyForIndex_loop (token : p11Token_t) : Nat → Option Nat → Option Nat
  | 0, obj => obj
  | k + 1, obj =>
    match enumerateTokenPrivateObjects token obj with
    | none => none
    | some o => getKeyForIndex_loop token k (some o)

/-- The function `getKeyForIndex`: the object pointer stored in `*pobj`. -/
def getKeyForIndex (pCardData : CARD_DATA) (index : Int) : Option Nat :=
  getKeyForIndex_loop pCardData.token (index + 1).toNat none

/-! ## Container map (lines 168-229) -/

/-- Modelled from the spec: `MAX_CONTAINER_NAME_LEN` of `cardmod.h`. -/
def MAX_CONTAINER_NAME_LEN : Nat := 39
/-- Modelled from the spec: flag `CONTAINER_MAP_VALID_CONTAINER` of
`cardmod.h`, bit 0. -/
def CONTAINER_MAP_VALID_CONTAINER : Nat := 1
/-- Modelled from the spec: flag `CONTAINER_MAP_DEFAULT_CONTAINER` of
`cardmod.h`, bit 1. -/
def CONTAINER_MAP_DEFAULT_CONTAINER : Nat := 2

/-- Modelled from the spec: `CONTAINER_MAP_RECORD` of `cardmod.h`: the wide
GUID string of `MAX_CONTAINER_NAME_LEN + 1` characters, the flag byte, a
reserved byte and the two 16-bit key sizes. -/
structure CONTAINER_MAP_RECORD where
  wszGuid : List Nat
  bFlags : Nat
  bReserved : Nat
  wSigKeySizeBits : Nat
  wKeyExchangeKeySizeBits : Nat

/-- Modelled from the spec: `sizeof(CONTAINER_MAP_RECORD)`: 40 wide
characters, two bytes and two words. -/
def sizeof_CONTAINER_MAP_RECORD : Nat := 2 * (MAX_CONTAINER_NAME_LEN + 1) + 1 + 1 + 2 + 2

/-- The record that lies at byte offset `base` of a buffer, as the cast
`(PCONTAINER_MAP_RECORD)` reads it. -/
def recordAt (m : Mem) (base : Nat) : CONTAINER_MAP_RECORD :=
  { wszGuid := (List.range (MAX_CONTAINER_NAME_LEN + 1)).map (fun k => loadLE m (base + 2 * k) 2),
    bFlags := loadLE m (base + 80) 1,
    bReserved := loadLE m (base + 81) 1,
    wSigKeySizeBits := loadLE m (base + 82) 2,
    wKeyExchangeKeySizeBits := loadLE m (base + 84) 2 }

/-- The `n` records a buffer holds. -/
def recordsOf (m : Mem) (n : Nat) : List CONTAINER_MAP_RECORD :=
  (List.range n).map (fun i => recordAt m (sizeof_CONTAINER_MAP_RECORD * i))

/-- The function `encodeGUID`: the record `*cont` after the call. The return
value of `findAttribute` is not looked at, so without a `CKA_ID` the pointer
`attr` is read unset (`none`). The stack buffer `scr` starts zeroed here; the
37 characters read from it are all written by `GUIDtoString`. -/
def encodeGUID (pCardData : CARD_DATA) (obj : p11Object_t) (cont : CONTAINER_MAP_RECORD) :
    Option CONTAINER_MAP_RECORD :=
  match findAttribute obj CKA_ID with
  | none => none
  | some attr =>
    let id := encodeGUID_id pCardData.token.serialNumber attr.pValue
    let scr := GUIDtoString id (fun _ => 0)
    match strlen scr (MAX_CONTAINER_NAME_LEN + 1) 0 with
    | none => none
    | some n =>
      match mbstowcs_s cont.wszGuid (MAX_CONTAINER_NAME_LEN + 1) scr n with
      | none => none
      | some w => some { cont with wszGuid := w }

/-- The body of the loop of `encodeCMapFile` (lines 217-224) for record `i`
and object `obj`. The key size, an `int`, is stored into a `WORD`. -/
def encodeCMapFile_record (pCardData : CARD_DATA) (i : Nat) (obj : p11Object_t)
    (cont : CONTAINER_MAP_RECORD) : Option CONTAINER_MAP_RECORD :=
  match encodeGUID pCardData obj cont with
  | none => none
  | some c1 =>
    let c2 := { c1 with bFlags := CONTAINER_MAP_VALID_CONTAINER }
    let c3 := if i = 0 then { c2 with bFlags := c2.bFlags ||| CONTAINER_MAP_DEFAULT_CONTAINER }
      else c2
    some { c3 with wKeyExchangeKeySizeBits := (obj.keysize % 2 ^ 16).toNat, wSigKeySizeBits := 0 }

/-- The loop of `encodeCMapFile` (lines 212-226): `k` iterations are left,
`i` is the loop counter and the index of the record `cont` points to. A
record outside the buffer cannot be written (`none`). -/
def encodeCMapFile_loop (pCardData : CARD_DATA) :
    Nat → Nat → Option Nat → List CONTAINER_MAP_RECORD → Option (List CONTAINER_MAP_RECORD)
  | 0, _, _, cont => some cont
  | k + 1, i, obj, cont =>
    match enumerateTokenPrivateObjects pCardData.token obj with
    | none => some cont
    | some o =>
      match pCardData.token.tokenPrivObjList[o]?, cont[i]? with
      | some ob, some c =>
        match encodeCMapFile_record pCardData i ob c with
        | none => none
        | some c1 => encodeCMapFile_loop pCardData k (i + 1) (some o) (cont.set i c1)
      | _, _ => none

/-- The function `encodeCMapFile(pCardData, cont, nofc)`: the status and the
records of the buffer after the call. -/
def encodeCMapFile (pCardData : CARD_DATA) (cont : List CONTAINER_MAP_RECORD) (nofc : Int) :
    Option (Status × List CONTAINER_MAP_RECORD) :=
  (encodeCMapFile_loop pCardData nofc.toNat 0 none cont).map (fun c => (SCARD_S_SUCCESS, c))

/-! ## Virtual file system (lines 144-158, 322-543) -/

/-- The loop of `checkFileName` (lines 153-156). -/
def checkFileName_loop : List Nat → Status
  | [] => SCARD_S_SUCCESS
  | c :: r => if !isprint c then SCARD_E_INVALID_PARAMETER else checkFileName_loop r

/-- The function `checkFileName`; a string is the list of its characters
before the NUL. -/
def checkFileName (name : List Nat) : Status :=
  let s := name.length
  if s < 1 ∨ s > 8 then SCARD_E_INVALID_PARAMETER else checkFileName_loop name

/-- Modelled from the spec: `szBASE_CSP_DIR` of `cardmod.h`, `"mscp"`. -/
def szBASE_CSP_DIR : List Nat := "mscp".toList.map Char.toNat
/-- Modelled from the spec: `szCARD_IDENTIFIER_FILE` of `cardmod.h`. -/
def szCARD_IDENTIFIER_FILE : List Nat := "cardid".toList.map Char.toNat
/-- Modelled from the spec: `szCACHE_FILE` of `cardmod.h`. -/
def szCACHE_FILE : List Nat := "cardcf".toList.map Char.toNat
/-- Modelled from the spec: `szCONTAINER_MAP_FILE` of `cardmod.h`. -/
def szCONTAINER_MAP_FILE : List Nat := "cmapfile".toList.map Char.toNat
/-- Modelled from the spec: `szUSER_KEYEXCHANGE_CERT_PREFIX` of `cardmod.h`. -/
def szUSER_KEYEXCHANGE_CERT_PREFIX : List Nat := "kxc".toList.map Char.toNat
/-- Modelled from the spec: `sizeof(CARD_CACHE_FILE_FORMAT)` of `cardmod.h`
(two bytes and two words). -/
def sizeof_CARD_CACHE_FILE_FORMAT : Nat := 6

/-- What a returned data pointer points to: plain bytes, or the records of
the container map. -/
inductive FileData where
  | bytes (m : Mem)
  | records (r : List CONTAINER_MAP_RECORD)

/-- The caller's variables `*ppbData` and `*pcbData`. -/
structure FileOut where
  ppbData : Option FileData
  pcbData : Nat

/-- Modelled from the spec: `findMatchingTokenObjectById(token, class, id,
idlen, &obj)` of the token framework, lookup of an object by class and
identifier: the first object of that class whose `CKA_ID` is `id`; `none` is
a return value other than `CKR_OK`. -/
def findMatchingTokenObjectById (token : p11Token_t) (cls : Nat) (id : List Nat) :
    Option p11Object_t :=
  token.tokenObjList.find? (fun o =>
    decide (o.objClass = cls) &&
      (match findAttribute o CKA_ID with
       | some a => decide (a.pValue = id)
       | none => false))

/-- The function `readCertificate`. The allocation is not checked: copying
into a null buffer is `none`. -/
def readCertificate (pCardData : CARD_DATA) (iContainerIndex : Int) (out : FileOut) :
    Option (Status × FileOut) :=
  match getKeyForIndex pCardData iContainerIndex with
  | none => some (SCARD_E_FILE_NOT_FOUND, out)
  | some o =>
    match pCardData.token.tokenPrivObjList[o]? with
    | none => none
    | some p11prikey =>
      match findAttribute p11prikey CKA_ID with
      | none => some (SCARD_E_UNEXPECTED, out)
      | some attr =>
        match findMatchingTokenObjectById pCardData.token CKO_CERTIFICATE attr.pValue with
        | none => some (SCARD_E_UNEXPECTED, out)
        | some p11cert =>
          match findAttribute p11cert CKA_VALUE with
          | none => some (SCARD_E_UNEXPECTED, out)
          | some value =>
            let pcbData := value.pValue.length
            match pCardData.pfnCspAlloc pcbData with
            | none => none
            | some buf =>
              some (SCARD_S_SUCCESS,
                { ppbData := some (FileData.bytes (storeBytes buf 0 value.pValue)),
                  pcbData := pcbData })

/-- The function `CardReadFile`. A pointer argument is `none` when null; the
two output pointers carry the current values of the caller's variables. The
result is the status and the caller's variables after the call. -/
def CardReadFile (pCardData : Option CARD_DATA) (pszDirectoryName pszFileName : Option (List Nat))
    (dwFlags : Nat) (ppbData : Option (Option FileData)) (pcbData : Option Nat) :
    Option (Status × Option (Option FileData) × Option Nat) :=
  let fails (st : Status) := some (st, ppbData, pcbData)
  match pCardData with
  | none => fails SCARD_E_INVALID_PARAMETER
  | some cd =>
    match pszFileName with
    | none => fails SCARD_E_INVALID_PARAMETER
    | some name =>
      if name = [] then fails SCARD_E_INVALID_PARAMETER
      else
        match ppbData, pcbData with
        | none, _ => fails SCARD_E_INVALID_PARAMETER
        | some _, none => fails SCARD_E_INVALID_PARAMETER
        | some pb, some cb =>
          let dirStatus : Status :=
            match pszDirectoryName with
            | none => SCARD_S_SUCCESS
            | some dir =>
              if checkFileName dir ≠ SCARD_S_SUCCESS then checkFileName dir
              else if dir ≠ szBASE_CSP_DIR then SCARD_E_DIR_NOT_FOUND
              else SCARD_S_SUCCESS
          if dirStatus ≠ SCARD_S_SUCCESS then fails dirStatus
          else if checkFileName name ≠ SCARD_S_SUCCESS then fails (checkFileName name)
          else if dwFlags ≠ 0 then fails SCARD_E_INVALID_PARAMETER
          else
            let done (st : Status) (o : FileOut) := some (st, some o.ppbData, some o.pcbData)
            let plain (content : List Nat) :=
              match cd.pfnCspAlloc content.length with
              | none => none
              | some buf =>
                done SCARD_S_SUCCESS
                  { ppbData := some (FileData.bytes (storeBytes buf 0 content)),
                    pcbData := content.length }
            match pszDirectoryName with
            | none =>
              if name = szCARD_IDENTIFIER_FILE then
                if cd.token.serialNumber.length < 16 then none
                else plain (cd.token.serialNumber.take 16)
              else if name = szCACHE_FILE then
                plain (List.replicate sizeof_CARD_CACHE_FILE_FORMAT 0)
              else if name = "cardapps".toList.map Char.toNat then
                plain [109, 115, 99, 112, 0, 0, 0, 0]
              else fails SCARD_E_FILE_NOT_FOUND
            | some _ =>
              if name = szCONTAINER_MAP_FILE then
                match getNumberOfContainers cd with
                | none => none
                | some containers =>
                  let cbData := (containers * sizeof_CONTAINER_MAP_RECORD) % 2 ^ 32
                  let cont :=
                    match cd.pfnCspAlloc cbData with
                    | none => []
                    | some buf => recordsOf buf (cbData / sizeof_CONTAINER_MAP_RECORD)
                  match encodeCMapFile cd cont containers with
                  | none => none
                  | some (dwret, recs) =>
                    let o : FileOut :=
                      { ppbData := (cd.pfnCspAlloc cbData).map (fun _ => FileData.records recs),
                        pcbData := cbData }
                    done dwret o
              else if name.take 3 = szUSER_KEYEXCHANGE_CERT_PREFIX then
                match readCertificate cd (atoi (name.drop 3)) { ppbData := pb, pcbData := cb } with
                | none => none
                | some (dwret, o) => done dwret o
              else fails SCARD_E_FILE_NOT_FOUND

/-- The static array `rootFiles` of `CardEnumFiles`. -/
def rootFiles : List Nat :=
  ("cardid".toList.map Char.toNat) ++ [0] ++ ("cardcf".toList.map Char.toNat) ++ [0] ++
    ("cardapps".toList.map Char.toNat) ++ [0, 0]

/-- The static array `mscpFiles` of `CardEnumFiles`. -/
def mscpFiles : List Nat := ("cmapfile".toList.map Char.toNat) ++ [0]

/-- The loop of `CardEnumFiles` (lines 535-538): `k` iterations are left;
the result is the buffer and the pointer `po` after the loop. -/
def CardEnumFiles_loop : Nat → Nat → Nat → Mem → Option (Mem × Nat)
  | 0, _, po, buf => some (buf, po)
  | k + 1, i, po, buf =>
    match sprintf_s_kxc buf po 6 i with
    | none => none
    | some buf1 => CardEnumFiles_loop k (i + 1) (po + 6) buf1

/-- The function `CardEnumFiles`. The copy of line 532 takes
`*pdwcbFileName` bytes from the 9-byte array `mscpFiles`; `behind` stands for
the bytes that lie behind the array in the image. The result is the status
and the caller's variables `*pmszFileNames` and `*pdwcbFileName` after the
call. -/
def CardEnumFiles (behind : Mem) (pCardData : Option CARD_DATA)
    (pszDirectoryName : Option (List Nat)) (pmszFileNames : Option (Option Mem))
    (pdwcbFileName : Option Nat) (dwFlags : Nat) :
    Option (Status × Option (Option Mem) × Option Nat) :=
  let fails (st : Status) := some (st, pmszFileNames, pdwcbFileName)
  match pCardData with
  | none => fails SCARD_E_INVALID_PARAMETER
  | some cd =>
    match pmszFileNames, pdwcbFileName with
    | none, _ => fails SCARD_E_INVALID_PARAMETER
    | some _, none => fails SCARD_E_INVALID_PARAMETER
    | some _, some _ =>
      let dirStatus : Status :=
        match pszDirectoryName with
        | none => SCARD_S_SUCCESS
        | some dir =>
          if checkFileName dir ≠ SCARD_S_SUCCESS then checkFileName dir
          else if dir ≠ szBASE_CSP_DIR then SCARD_E_DIR_NOT_FOUND
          else SCARD_S_SUCCESS
      if dirStatus ≠ SCARD_S_SUCCESS then fails dirStatus
      else if dwFlags ≠ 0 then fails SCARD_E_INVALID_PARAMETER
      else
        match pszDirectoryName with
        | none =>
          match cd.pfnCspAlloc rootFiles.length with
          | none => none
          | some buf =>
            some (SCARD_S_SUCCESS, some (some (storeBytes buf 0 rootFiles)),
              some rootFiles.length)
        | some _ =>
          match getNumberOfContainers cd with
          | none => none
          | some containers =>
            let cb := (mscpFiles.length + containers * 6 + 1) % 2 ^ 32
            match cd.pfnCspAlloc cb with
            | none => none
            | some buf =>
              let src := mscpFiles ++ Mem.bytes behind 0 (cb - mscpFiles.length)
              let buf1 := storeBytes buf 0 (src.take cb)
              match CardEnumFiles_loop containers 0 mscpFiles.length buf1 with
              | none => none
              | some (buf2, po) => some (SCARD_S_SUCCESS, some (some (store buf2 po 0)), some cb)

/-- The strings of a multi-string as the host reads it: NUL-terminated
strings one after the other, ended by an empty string. `cur` holds the
characters of the string being read, last first. -/
def parseMultiSz : List Nat → List Nat → List (List Nat)
  | [], _ => []
  | c :: rest, cur =>
    if c = 0 then
      if cur = [] then [] else cur.reverse :: parseMultiSz rest []
    else parseMultiSz rest (c :: cur)

/-- The name `kxcNN` of the certificate file of container `i`. -/
def kxcName (i : Nat) : List Nat := [107, 120, 99, 48 + i / 10, 48 + i % 10]

/-- A private key object with the given identifier and key size. -/
def privateKey (id : List Nat) (keysize : Int) : p11Object_t :=
  { objClass := CKO_PRIVATE_KEY, attrList := [{ attrType := CKA_ID, pValue := id }],
    keysize := keysize }

/-- A host whose allocator always succeeds with zeroed memory, over a token
with the given serial number and private keys. -/
def hostWith (serial : List Nat) (keys : List p11Object_t) : CARD_DATA :=
  { pfnCspAlloc := fun _ => some (fun _ => 0),
    token := { serialNumber := serial, tokenObjList := [], tokenPrivObjList := keys } }

/-- The object pointer after `i` steps of the enumeration: `NULL` before the
first step, then the object at position `i - 1`. -/
def cursor (i : Nat) : Option Nat := if i = 0 then none else some (i - 1)

/-! ## Property and capability queries (lines 233-262, 450-480, 547-601, 675-731, 761-1023) -/

/-- Modelled from the spec: `CARD_FILE_INFO_CURRENT_VERSION` of `cardmod.h`. -/
def CARD_FILE_INFO_CURRENT_VERSION : Nat := 1
/-- Modelled from the spec: `CARD_FREE_SPACE_INFO_CURRENT_VERSION` of
`cardmod.h`. -/
def CARD_FREE_SPACE_INFO_CURRENT_VERSION : Nat := 1
/-- Modelled from the spec: `CARD_CAPABILITIES_CURRENT_VERSION` of
`cardmod.h`. -/
def CARD_CAPABILITIES_CURRENT_VERSION : Nat := 1
/-- Modelled from the spec: `CARD_KEY_SIZES_CURRENT_VERSION` of `cardmod.h`. -/
def CARD_KEY_SIZES_CURRENT_VERSION : Nat := 1
/-- Modelled from the spec: `CONTAINER_INFO_CURRENT_VERSION` of `cardmod.h`. -/
def CONTAINER_INFO_CURRENT_VERSION : Nat := 1
/-- Modelled from the spec: `PIN_INFO_CURRENT_VERSION` of `cardmod.h`. -/
def PIN_INFO_CURRENT_VERSION : Nat := 6
/-- Modelled from the spec: `PIN_CACHE_POLICY_CURRENT_VERSION` of
`cardmod.h`. -/
def PIN_CACHE_POLICY_CURRENT_VERSION : Nat := 6
/-- Modelled from the spec: access condition `EveryoneReadUserWriteAc` of
`cardmod.h`. -/
def EveryoneReadUserWriteAc : Nat := 1
/-- Modelled from the spec: role `ROLE_USER` of `cardmod.h`. -/
def ROLE_USER : Nat := 1
/-- Modelled from the spec: macro `CREATE_PIN_SET(PinId)` of `cardmod.h`,
`1 << PinId`. -/
def CREATE_PIN_SET (PinId : Nat) : Nat := 1 <<< PinId
/-- Modelled from the spec: `PIN_SET_NONE` of `cardmod.h`. -/
def PIN_SET_NONE : Nat := 0
/-- Modelled from the spec: secret type `AlphaNumericPinType` of `cardmod.h`. -/
def AlphaNumericPinType : Nat := 0
/-- Modelled from the spec: secret type `ExternalPinType` of `cardmod.h`. -/
def ExternalPinType : Nat := 1
/-- Modelled from the spec: secret purpose `PrimaryCardPin` of `cardmod.h`. -/
def PrimaryCardPin : Nat := 5
/-- Modelled from the spec: cache policy `PinCacheNormal` of `cardmod.h`. -/
def PinCacheNormal : Nat := 0
/-- Modelled from the spec: `CP_CACHE_MODE_NO_CACHE` of `cardmod.h`. -/
def CP_CACHE_MODE_NO_CACHE : Nat := 3
/-- Modelled from the spec: `CARD_PIN_STRENGTH_PLAINTEXT` of `cardmod.h`. -/
def CARD_PIN_STRENGTH_PLAINTEXT : Nat := 1
/-- Modelled from the spec: token flag `CKF_PROTECTED_AUTHENTICATION_PATH` of
PKCS#11. -/
def CKF_PROTECTED_AUTHENTICATION_PATH : Nat := 0x100
/-- Modelled from the spec: user type `CKU_USER` of PKCS#11. -/
def CKU_USER : Nat := 1
/-- Modelled from the spec: key specification `AT_KEYEXCHANGE` of the Windows
SDK. -/
def AT_KEYEXCHANGE : Nat := 1
/-- Modelled from the spec: key specification `AT_SIGNATURE` of the Windows
SDK. -/
def AT_SIGNATURE : Nat := 2
/-- Modelled from the spec: key specification `AT_ECDSA_P256` of `cardmod.h`. -/
def AT_ECDSA_P256 : Nat := 3
/-- Modelled from the spec: key specification `AT_ECDSA_P384` of `cardmod.h`. -/
def AT_ECDSA_P384 : Nat := 4
/-- Modelled from the spec: key specification `AT_ECDSA_P521` of `cardmod.h`. -/
def AT_ECDSA_P521 : Nat := 5
/-- Modelled from the spec: key specification `AT_ECDHE_P256` of `cardmod.h`. -/
def AT_ECDHE_P256 : Nat := 6
/-- Modelled from the spec: key specification `AT_ECDHE_P384` of `cardmod.h`. -/
def AT_ECDHE_P384 : Nat := 7
/-- Modelled from the spec: key specification `AT_ECDHE_P521` of `cardmod.h`. -/
def AT_ECDHE_P521 : Nat := 8

/-- Modelled from the spec: `sizeof(CARD_FREE_SPACE_INFO)`, four `DWORD`s:
`dwVersion` at offset 0, `dwBytesAvailable` at 4, `dwKeyContainersAvailable`
at 8, `dwMaxKeyContainers` at 12. -/
def sizeof_CARD_FREE_SPACE_INFO : Nat := 16
/-- Modelled from the spec: `sizeof(CARD_CAPABILITIES)`: `dwVersion` at
offset 0, `fCertificateCompression` at 4, `fKeyGen` at 8. -/
def sizeof_CARD_CAPABILITIES : Nat := 12
/-- Modelled from the spec: `sizeof(CARD_KEY_SIZES)`, five `DWORD`s:
`dwVersion` at offset 0, `dwMinimumBitlen` at 4, `dwDefaultBitlen` at 8,
`dwMaximumBitlen` at 12, `dwIncrementalBitlen` at 16. -/
def sizeof_CARD_KEY_SIZES : Nat := 20
/-- Modelled from the spec: `sizeof(PIN_INFO)`: `dwVersion` at offset 0,
`PinType` at 4, `PinPurpose` at 8, `dwChangePermission` at 12,
`dwUnblockPermission` at 16, `PinCachePolicy` at 20 (`dwVersion`,
`PinCachePolicyType`, `dwPinCachePolicyInfo`), `dwFlags` at 32. -/
def sizeof_PIN_INFO : Nat := 36
/-- Modelled from the spec: `sizeof(PIN_SET)`, a `DWORD`. -/
def sizeof_PIN_SET : Nat := 4
/-- Modelled from the spec: `sizeof(PIN_ID)`, a `DWORD`. -/
def sizeof_PIN_ID : Nat := 4
/-- Modelled from the spec: `sizeof(BOOL)`. -/
def sizeof_BOOL : Nat := 4
/-- Modelled from the spec: `sizeof(DWORD)`. -/
def sizeof_DWORD : Nat := 4
/-- Modelled from the spec: `sizeof(CONTAINER_INFO)` in a 64-bit build: three
`DWORD`s, padding, a pointer, a `DWORD`, padding, a pointer. -/
def sizeof_CONTAINER_INFO : Nat := 40

/-- The function `CardQueryPINInfo` on the bytes of the `PIN_INFO` that
`pPINInfo` points to; both pointers are dereferenced unchecked and are
non-null at the only call. -/
def CardQueryPINInfo (pCardData : CARD_DATA) (dwFlags : Nat) (pPINInfo : Mem) : Status × Mem :=
  if loadLE pPINInfo 0 4 > PIN_INFO_CURRENT_VERSION then (ERROR_REVISION_MISMATCH, pPINInfo)
  else
    let p := storeLE pPINInfo 0 4 PIN_INFO_CURRENT_VERSION
    if dwFlags = ROLE_USER then
      let p := storeLE p 4 4
        (if pCardData.token.flags &&& CKF_PROTECTED_AUTHENTICATION_PATH ≠ 0 then ExternalPinType
         else AlphaNumericPinType)
      let p := storeLE p 8 4 PrimaryCardPin
      let p := storeLE p 20 4 PIN_CACHE_POLICY_CURRENT_VERSION
      let p := storeLE p 28 4 0
      let p := storeLE p 24 4 PinCacheNormal
      let p := storeLE p 12 4 (CREATE_PIN_SET ROLE_USER)
      let p := storeLE p 16 4 PIN_SET_NONE
      (SCARD_S_SUCCESS, p)
    else (SCARD_E_INVALID_PARAMETER, p)

/-- The function `CardQueryFreeSpace` on the bytes of the
`CARD_FREE_SPACE_INFO`: the status and the structure after the call. -/
def CardQueryFreeSpace (pCardData : Option CARD_DATA) (dwFlags : Nat)
    (pCardFreeSpaceInfo : Option Mem) : Option (Status × Option Mem) :=
  match pCardData, pCardFreeSpaceInfo with
  | none, _ => some (SCARD_E_INVALID_PARAMETER, pCardFreeSpaceInfo)
  | some _, none => some (SCARD_E_INVALID_PARAMETER, none)
  | some cd, some p =>
    if dwFlags ≠ 0 then some (SCARD_E_INVALID_PARAMETER, some p)
    else if loadLE p 0 4 > CARD_FREE_SPACE_INFO_CURRENT_VERSION then
      some (ERROR_REVISION_MISMATCH, some p)
    else
      let p := storeLE p 0 4 CARD_FREE_SPACE_INFO_CURRENT_VERSION
      let p := storeLE p 4 4 0
      let p := storeLE p 8 4 0
      match getNumberOfContainers cd with
      | none => none
      | some n => some (SCARD_S_SUCCESS, some (storeLE p 12 4 n))

/-- The function `CardQueryCapabilities` on the bytes of the
`CARD_CAPABILITIES`. -/
def CardQueryCapabilities (pCardData : Option CARD_DATA) (pCardCapabilities : Option Mem) :
    Status × Option Mem :=
  match pCardData, pCardCapabilities with
  | none, _ => (SCARD_E_INVALID_PARAMETER, pCardCapabilities)
  | some _, none => (SCARD_E_INVALID_PARAMETER, none)
  | some _, some p =>
    if loadLE p 0 4 > CARD_CAPABILITIES_CURRENT_VERSION then (ERROR_REVISION_MISMATCH, some p)
    else
      let p := storeLE p 0 4 CARD_CAPABILITIES_CURRENT_VERSION
      let p := storeLE p 4 4 1
      let p := storeLE p 8 4 0
      (SCARD_S_SUCCESS, some p)

/-- The function `CardQueryKeySizes` on the bytes of the `CARD_KEY_SIZES`. -/
def CardQueryKeySizes (pCardData : Option CARD_DATA) (dwKeySpec dwFlags : Nat)
    (pKeySizes : Option Mem) : Status × Option Mem :=
  match pCardData, pKeySizes with
  | none, _ => (SCARD_E_INVALID_PARAMETER, pKeySizes)
  | some _, none => (SCARD_E_INVALID_PARAMETER, none)
  | some _, some p =>
    if dwKeySpec ≠ 0 ∧ dwKeySpec ≠ AT_SIGNATURE ∧ dwKeySpec ≠ AT_KEYEXCHANGE ∧
        dwKeySpec ≠ AT_ECDHE_P256 ∧ dwKeySpec ≠ AT_ECDHE_P384 ∧ dwKeySpec ≠ AT_ECDHE_P521 ∧
        dwKeySpec ≠ AT_ECDSA_P256 ∧ dwKeySpec ≠ AT_ECDSA_P384 ∧ dwKeySpec ≠ AT_ECDSA_P521 then
      (SCARD_E_INVALID_PARAMETER, some p)
    else if dwFlags ≠ 0 then (SCARD_E_INVALID_PARAMETER, some p)
    else if loadLE p 0 4 > CARD_KEY_SIZES_CURRENT_VERSION then (ERROR_REVISION_MISMATCH, some p)
    else
      let p := storeLE p 0 4 CARD_KEY_SIZES_CURRENT_VERSION
      if dwKeySpec = 0 ∨ dwKeySpec = AT_KEYEXCHANGE ∨ dwKeySpec = AT_SIGNATURE then
        let p := storeLE p 4 4 1024
        let p := storeLE p 12 4 2048
        let p := storeLE p 8 4 2048
        let p := storeLE p 16 4 8
        (SCARD_S_SUCCESS, some p)
      else if dwKeySpec = AT_ECDSA_P256 ∨ dwKeySpec = AT_ECDHE_P256 then
        let p := storeLE p 4 4 256
        let p := storeLE p 12 4 256
        let p := storeLE p 8 4 256
        let p := storeLE p 16 4 0
        (SCARD_S_SUCCESS, some p)
      else (SCARD_E_UNSUPPORTED_FEATURE, some p)

/-- Modelled from the spec: `CARD_FILE_INFO` of `cardmod.h`. -/
structure CARD_FILE_INFO where
  dwVersion : Nat
  cbFileSize : Nat
  AccessCondition : Nat

/-- The function `CardGetFileInfo`: the status and the caller's structure
after the call. The locals `bp` and `bplen` are handed to `CardReadFile`
unset, here as a null pointer and 0. -/
def CardGetFileInfo (pCardData : Option CARD_DATA)
    (pszDirectoryName pszFileName : Option (List Nat)) (pCardFileInfo : Option CARD_FILE_INFO) :
    Option (Status × Option CARD_FILE_INFO) :=
  match pCardFileInfo with
  | none => some (SCARD_E_INVALID_PARAMETER, none)
  | some info =>
    if info.dwVersion > CARD_FILE_INFO_CURRENT_VERSION then
      some (ERROR_REVISION_MISMATCH, some info)
    else
      let info1 := { info with dwVersion := CARD_FILE_INFO_CURRENT_VERSION }
      match CardReadFile pCardData pszDirectoryName pszFileName 0 (some none) (some 0) with
      | none => none
      | some (dwret, _, bplen) =>
        if dwret ≠ SCARD_S_SUCCESS then some (dwret, some info1)
        else
          some (SCARD_S_SUCCESS,
            some { info1 with cbFileSize := bplen.getD 0,
                              AccessCondition := EveryoneReadUserWriteAc })

/-- Modelled from the spec: `CONTAINER_INFO` of `cardmod.h`; a pointer field
is the blob it points to, or `none` when null. -/
structure CONTAINER_INFO where
  dwVersion : Nat
  dwReserved : Nat
  cbSigPublicKey : Nat
  pbSigPublicKey : Option Mem
  cbKeyExPublicKey : Nat
  pbKeyExPublicKey : Option Mem

/-- The function `CardGetContainerInfo`: the status and the caller's
structure after the call; `bContainerIndex` is a `BYTE`. -/
def CardGetContainerInfo (pCardData : Option CARD_DATA) (bContainerIndex dwFlags : Nat)
    (pContainerInfo : Option CONTAINER_INFO) : Option (Status × Option CONTAINER_INFO) :=
  match pCardData, pContainerInfo with
  | none, _ => some (SCARD_E_INVALID_PARAMETER, pContainerInfo)
  | some _, none => some (SCARD_E_INVALID_PARAMETER, none)
  | some cd, some info =>
    if dwFlags ≠ 0 then some (SCARD_E_INVALID_PARAMETER, some info)
    else if info.dwVersion > CONTAINER_INFO_CURRENT_VERSION then
      some (ERROR_REVISION_MISMATCH, some info)
    else
      match getKeyForIndex cd (bContainerIndex : Int) with
      | none => some (SCARD_E_NO_KEY_CONTAINER, some info)
      | some o =>
        match cd.token.tokenPrivObjList[o]? with
        | none => none
        | some p11prikey =>
          let info1 : CONTAINER_INFO :=
            { dwVersion := CONTAINER_INFO_CURRENT_VERSION,
              dwReserved := 0,
              pbSigPublicKey := none,
              cbSigPublicKey := 0,
              pbKeyExPublicKey := none,
              cbKeyExPublicKey := 0 }
          match findAttribute p11prikey CKA_ID with
          | none => some (SCARD_E_UNEXPECTED, some info1)
          | some attr =>
            match findMatchingTokenObjectById cd.token CKO_PUBLIC_KEY attr.pValue with
            | none => some (SCARD_E_UNEXPECTED, some info1)
            | some p11pubkey =>
              let out : BlobOut :=
                { pblob := info1.pbKeyExPublicKey, pbloblen := info1.cbKeyExPublicKey }
              let encoded :=
                match findAttribute p11pubkey CKA_MODULUS with
                | some modulus => encodeRSAPublicKey cd modulus.pValue out
                | none => encodeECCPublicKey cd p11pubkey out
              match encoded with
              | none => none
              | some (dwret, o2) =>
                some (dwret,
                  some { info1 with pbKeyExPublicKey := o2.pblob,
                                    cbKeyExPublicKey := o2.pbloblen })

/-- A wide string constant, as the list of its characters before the NUL. -/
def wide (s : String) : List Nat := s.toList.map Char.toNat

/-- Modelled from the spec: property name `CP_CARD_FREE_SPACE` of `cardmod.h`. -/
def CP_CARD_FREE_SPACE : List Nat := wide "Free Space"
/-- Modelled from the spec: property name `CP_CARD_CAPABILITIES` of
`cardmod.h`. -/
def CP_CARD_CAPABILITIES : List Nat := wide "Capabilities"
/-- Modelled from the spec: property name `CP_CARD_KEYSIZES` of `cardmod.h`. -/
def CP_CARD_KEYSIZES : List Nat := wide "Key Sizes"
/-- Modelled from the spec: property name `CP_CARD_READ_ONLY` of `cardmod.h`. -/
def CP_CARD_READ_ONLY : List Nat := wide "Read Only Mode"
/-- Modelled from the spec: property name `CP_CARD_CACHE_MODE` of `cardmod.h`. -/
def CP_CARD_CACHE_MODE : List Nat := wide "Cache Mode"
/-- Modelled from the spec: property name `CP_SUPPORTS_WIN_X509_ENROLLMENT` of
`cardmod.h`. -/
def CP_SUPPORTS_WIN_X509_ENROLLMENT : List Nat := wide "Supports Windows x.509 Enrollment"
/-- Modelled from the spec: property name `CP_CARD_GUID` of `cardmod.h`. -/
def CP_CARD_GUID : List Nat := wide "Card Identifier"
/-- Modelled from the spec: property name `CP_CARD_SERIAL_NO` of `cardmod.h`. -/
def CP_CARD_SERIAL_NO : List Nat := wide "Card Serial Number"
/-- Modelled from the spec: property name `CP_CARD_PIN_INFO` of `cardmod.h`. -/
def CP_CARD_PIN_INFO : List Nat := wide "PIN Information"
/-- Modelled from the spec: property name `CP_CARD_LIST_PINS` of `cardmod.h`. -/
def CP_CARD_LIST_PINS : List Nat := wide "PIN List"
/-- Modelled from the spec: property name `CP_CARD_AUTHENTICATED_STATE` of
`cardmod.h`. -/
def CP_CARD_AUTHENTICATED_STATE : List Nat := wide "Authenticated State"
/-- Modelled from the spec: property name `CP_CARD_PIN_STRENGTH_VERIFY` of
`cardmod.h`. -/
def CP_CARD_PIN_STRENGTH_VERIFY : List Nat := wide "PIN Strength Verify"
/-- Modelled from the spec: property name `CP_KEY_IMPORT_SUPPORT` of
`cardmod.h`. -/
def CP_KEY_IMPORT_SUPPORT : List Nat := wide "Key Import Support"
/-- Modelled from the spec: container property name `CCP_CONTAINER_INFO` of
`cardmod.h`. -/
def CCP_CONTAINER_INFO : List Nat := wide "Container Info"
/-- Modelled from the spec: container property name `CCP_PIN_IDENTIFIER` of
`cardmod.h`. -/
def CCP_PIN_IDENTIFIER : List Nat := wide "PIN Identifier"

/-- What the destination pointer of `CardGetContainerProperty` points to:
plain bytes, or a `CONTAINER_INFO` object. -/
inductive PropBuf where
  | raw (m : Mem)
  | info (c : CONTAINER_INFO)

/-- The function `CardGetContainerProperty`: the status and the caller's
buffer and `*pdwDataLen` after the call. The cast `(PCONTAINER_INFO)pbData`
of a buffer of plain bytes has no reading here (`none`); the store
`*(PPIN_ID)pbData` into a `CONTAINER_INFO` hits its first field. -/
def CardGetContainerProperty (pCardData : Option CARD_DATA) (bContainerIndex : Nat)
    (wszProperty : Option (List Nat)) (pbData : Option PropBuf) (cbData : Nat)
    (pdwDataLen : Option Nat) (dwFlags : Nat) :
    Option (Status × Option PropBuf × Option Nat) :=
  let fails (st : Status) := some (st, pbData, pdwDataLen)
  match pCardData, wszProperty, pbData, pdwDataLen with
  | none, _, _, _ => fails SCARD_E_INVALID_PARAMETER
  | some _, none, _, _ => fails SCARD_E_INVALID_PARAMETER
  | some _, some _, none, _ => fails SCARD_E_INVALID_PARAMETER
  | some _, some _, some _, none => fails SCARD_E_INVALID_PARAMETER
  | some cd, some prop, some buf, some _ =>
    if CCP_CONTAINER_INFO = prop then
      if cbData < sizeof_CONTAINER_INFO then
        some (SCARD_E_INSUFFICIENT_BUFFER, some buf, some sizeof_CONTAINER_INFO)
      else
        match buf with
        | PropBuf.raw _ => none
        | PropBuf.info c =>
          match CardGetContainerInfo (some cd) bContainerIndex dwFlags (some c) with
          | none => none
          | some (dwret, c2) =>
            some (dwret, some (PropBuf.info (c2.getD c)), some sizeof_CONTAINER_INFO)
    else if CCP_PIN_IDENTIFIER = prop then
      if cbData < sizeof_PIN_ID then
        some (SCARD_E_INSUFFICIENT_BUFFER, some buf, some sizeof_PIN_ID)
      else
        let buf2 :=
          match buf with
          | PropBuf.raw m => PropBuf.raw (storeLE m 0 4 ROLE_USER)
          | PropBuf.info c => PropBuf.info { c with dwVersion := ROLE_USER }
        some (SCARD_S_SUCCESS, some buf2, some sizeof_PIN_ID)
    else fails SCARD_E_INVALID_PARAMETER

/-- The loop of line 971: `while ((i > 0) && (serialNumber[i - 1] == ' ')) i--;`
started at `i`. -/
def stripBlanks (serialNumber : List Nat) : Nat → Nat
  | 0 => 0
  | i + 1 => if serialNumber.getD i 0 = 0x20 then stripBlanks serialNumber i else i + 1

/-- The pattern every branch of `CardGetProperty` follows: `*pdwDataLen` is
set to `size`, a smaller `cbData` fails, otherwise `fill` writes the value
into the buffer and gives the status. -/
def CardGetProperty_branch (pbData : Mem) (cbData size : Nat)
    (fill : Mem → Option (Status × Mem)) : Option (Status × Option Mem × Option Nat) :=
  if cbData < size then some (SCARD_E_INSUFFICIENT_BUFFER, some pbData, some size)
  else
    match fill pbData with
    | none => none
    | some (dwret, p) => some (dwret, some p, some size)

/-- The function `CardGetProperty`: the status and the caller's buffer and
`*pdwDataLen` after the call. -/
def CardGetProperty (pCardData : Option CARD_DATA) (wszProperty : Option (List Nat))
    (pbData : Option Mem) (cbData : Nat) (pdwDataLen : Option Nat) (dwFlags : Nat) :
    Option (Status × Option Mem × Option Nat) :=
  let fails (st : Status) := some (st, pbData, pdwDataLen)
  match pCardData, wszProperty, pbData, pdwDataLen with
  | none, _, _, _ => fails SCARD_E_INVALID_PARAMETER
  | some _, none, _, _ => fails SCARD_E_INVALID_PARAMETER
  | some _, some _, none, _ => fails SCARD_E_INVALID_PARAMETER
  | some _, some _, some _, none => fails SCARD_E_INVALID_PARAMETER
  | some cd, some prop, some buf, some _ =>
    let scalar (v : Nat) (m : Mem) : Option (Status × Mem) := some (SCARD_S_SUCCESS, storeLE m 0 4 v)
    if CP_CARD_FREE_SPACE = prop then
      CardGetProperty_branch buf cbData sizeof_CARD_FREE_SPACE_INFO (fun m =>
        (CardQueryFreeSpace (some cd) dwFlags (some m)).map (fun r => (r.1, r.2.getD m)))
    else if CP_CARD_CAPABILITIES = prop then
      CardGetProperty_branch buf cbData sizeof_CARD_CAPABILITIES (fun m =>
        let r := CardQueryCapabilities (some cd) (some m)
        some (r.1, r.2.getD m))
    else if CP_CARD_KEYSIZES = prop then
      CardGetProperty_branch buf cbData sizeof_CARD_KEY_SIZES (fun m =>
        let r := CardQueryKeySizes (some cd) dwFlags 0 (some m)
        some (r.1, r.2.getD m))
    else if CP_CARD_READ_ONLY = prop then
      CardGetProperty_branch buf cbData sizeof_BOOL (scalar 1)
    else if CP_CARD_CACHE_MODE = prop then
      CardGetProperty_branch buf cbData sizeof_DWORD (scalar CP_CACHE_MODE_NO_CACHE)
    else if CP_SUPPORTS_WIN_X509_ENROLLMENT = prop then
      CardGetProperty_branch buf cbData sizeof_BOOL (scalar 0)
    else if CP_CARD_GUID = prop then
      CardGetProperty_branch buf cbData 16 (fun m =>
        (memcpy m 0 cd.token.serialNumber 16).map (fun p => (SCARD_S_SUCCESS, p)))
    else if CP_CARD_SERIAL_NO = prop then
      let i := stripBlanks cd.token.serialNumber 16
      CardGetProperty_branch buf cbData i (fun m =>
        (memcpy m 0 cd.token.serialNumber i).map (fun p => (SCARD_S_SUCCESS, p)))
    else if CP_CARD_PIN_INFO = prop then
      CardGetProperty_branch buf cbData sizeof_PIN_INFO (fun m =>
        some (CardQueryPINInfo cd dwFlags m))
    else if CP_CARD_LIST_PINS = prop then
      CardGetProperty_branch buf cbData sizeof_PIN_SET (scalar (CREATE_PIN_SET ROLE_USER))
    else if CP_CARD_AUTHENTICATED_STATE = prop then
      CardGetProperty_branch buf cbData sizeof_PIN_SET
        (scalar (if cd.token.user = CKU_USER then CREATE_PIN_SET ROLE_USER else 0))
    else if CP_CARD_PIN_STRENGTH_VERIFY = prop then
      CardGetProperty_branch buf cbData sizeof_DWORD (scalar CARD_PIN_STRENGTH_PLAINTEXT)
    else if CP_KEY_IMPORT_SUPPORT = prop then
      CardGetProperty_branch buf cbData sizeof_DWORD (scalar 0)
    else fails SCARD_E_INVALID_PARAMETER

/-- The names `CardGetProperty` knows, in the order it tests them. -/
def propertyCatalogue : List (List Nat) :=
  [CP_CARD_FREE_SPACE, CP_CARD_CAPABILITIES, CP_CARD_KEYSIZES, CP_CARD_READ_ONLY,
   CP_CARD_CACHE_MODE, CP_SUPPORTS_WIN_X509_ENROLLMENT, CP_CARD_GUID, CP_CARD_SERIAL_NO,
   CP_CARD_PIN_INFO, CP_CARD_LIST_PINS, CP_CARD_AUTHENTICATED_STATE,
   CP_CARD_PIN_STRENGTH_VERIFY, CP_KEY_IMPORT_SUPPORT]

/-- The required size of a catalogue property, as the claim words it: the
size of its structure or scalar, 16 for the card identifier, and for the
serial number the length of the serial without its trailing blanks. -/
def propertySize (serialNumber : List Nat) (prop : List Nat) : Nat :=
  if prop = CP_CARD_FREE_SPACE then sizeof_CARD_FREE_SPACE_INFO
  else if prop = CP_CARD_CAPABILITIES then sizeof_CARD_CAPABILITIES
  else if prop = CP_CARD_KEYSIZES then sizeof_CARD_KEY_SIZES
  else if prop = CP_CARD_PIN_INFO then sizeof_PIN_INFO
  else if prop = CP_CARD_LIST_PINS ∨ prop = CP_CARD_AUTHENTICATED_STATE then sizeof_PIN_SET
  else if prop = CP_CARD_READ_ONLY ∨ prop = CP_SUPPORTS_WIN_X509_ENROLLMENT then sizeof_BOOL
  else if prop = CP_CARD_GUID then 16
  else if prop = CP_CARD_SERIAL_NO then
    ((serialNumber.take 16).reverse.dropWhile (fun c => c = 0x20)).length
  else sizeof_DWORD

/-! ## Context acquisition (lines 44-45, 1063-1232) -/

/-- The macro `MINIMUM_SUPPORTED_VERSION` (line 44). -/
def MINIMUM_SUPPORTED_VERSION : Nat := 4
/-- The macro `MAXIMUM_SUPPORTED_VERSION` (line 45). -/
def MAXIMUM_SUPPORTED_VERSION : Nat := 7
/-- Modelled from the spec: `CARD_DATA_VERSION_FIVE` of `cardmod.h`. -/
def CARD_DATA_VERSION_FIVE : Nat := 5
/-- Modelled from the spec: `CARD_DATA_VERSION_SIX` of `cardmod.h`. -/
def CARD_DATA_VERSION_SIX : Nat := 6
/-- Modelled from the spec: `CARD_DATA_VERSION_SEVEN` of `cardmod.h`. -/
def CARD_DATA_VERSION_SEVEN : Nat := 7
/-- Modelled from the spec: return value `CKR_OK` of PKCS#11. -/
def CKR_OK : Nat := 0

/-- The function `UnsupportedFeature` (lines 1063-1072). -/
def UnsupportedFeature (pCardData : Option CARD_DATA) : Status :=
  match pCardData with
  | none => SCARD_E_INVALID_PARAMETER
  | some _ => SCARD_E_UNSUPPORTED_FEATURE

/-- What a pointer member of the operation table holds: `NULL`, one of the
functions of this file that `CardAcquireContext` installs, or a pointer to
something else (what the host left there). -/
inductive Entry where
  | null
  | CardDeleteContext
  | CardQueryCapabilities
  | CardGetContainerInfo
  | CardAuthenticatePin
  | CardDeauthenticate
  | CardReadFile
  | CardEnumFiles
  | CardGetFileInfo
  | CardQueryFreeSpace
  | CardQueryKeySizes
  | CardSignData
  | CardRSADecrypt
  | CardGetContainerProperty
  | CardGetProperty
  | UnsupportedFeature
  | other (address : Nat)
  deriving DecidableEq

/-- The pointer members of `CARD_DATA` that `CardAcquireContext` assigns
(lines 1152-1209), by name. -/
inductive Field where
  | pfnCardDeleteContext
  | pfnCardQueryCapabilities
  | pfnCardDeleteContainer
  | pfnCardCreateContainer
  | pfnCardGetContainerInfo
  | pfnCardAuthenticatePin
  | pfnCardGetChallenge
  | pfnCardAuthenticateChallenge
  | pfnCardUnblockPin
  | pfnCardChangeAuthenticator
  | pfnCardDeauthenticate
  | pfnCardCreateDirectory
  | pfnCardDeleteDirectory
  | pvUnused3
  | pvUnused4
  | pfnCardCreateFile
  | pfnCardReadFile
  | pfnCardWriteFile
  | pfnCardDeleteFile
  | pfnCardEnumFiles
  | pfnCardGetFileInfo
  | pfnCardQueryFreeSpace
  | pfnCardQueryKeySizes
  | pfnCardSignData
  | pfnCardRSADecrypt
  | pfnCardConstructDHAgreement
  | pfnCardDeriveKey
  | pfnCardDestroyDHAgreement
  | pfnCspGetDHAgreement
  | pfnCardGetChallengeEx
  | pfnCardAuthenticateEx
  | pfnCardChangeAuthenticatorEx
  | pfnCardDeauthenticateEx
  | pfnCardGetContainerProperty
  | pfnCardSetContainerProperty
  | pfnCardGetProperty
  | pfnCardSetProperty
  | pfnCspUnpadData
  | pfnMDImportSessionKey
  | pfnMDEncryptData
  | pfnCardImportSessionKey
  | pfnCardGetSharedKeyHandle
  | pfnCardGetAlgorithmProperty
  | pfnCardGetKeyProperty
  | pfnCardSetKeyProperty
  | pfnCardDestroyKey
  | pfnCardProcessEncryptedData
  | pfnCardCreateContainerEx
  deriving DecidableEq

/-- Modelled from the spec: the members of `CARD_DATA` (`cardmod.h`) that
`CardAcquireContext` reads or writes, as the host hands the structure over.
A pointer member is `none` when null; the allocator maps a size to the
address of a block or to null; `table` holds the pointer members named by
`Field`. -/
structure CARD_DATA_FIELDS where
  dwVersion : Nat
  pbAtr : Option (List Nat)
  cbAtr : Nat
  pwszCardName : Option (List Nat)
  pfnCspAlloc : Option (Nat → Option Nat)
  pfnCspReAlloc : Option Nat
  pfnCspFree : Option Nat
  hSCardCtx : Nat
  hScard : Nat
  pvVendorSpecific : Option Nat
  table : Field → Entry

/-- Modelled from the spec: the members of `struct p11Slot_t` (token
framework) that `CardAcquireContext` sets after zeroing the block. -/
structure p11Slot_t where
  card : Nat
  context : Nat
  maxCAPDU : Nat
  maxRAPDU : Nat
  deriving DecidableEq

/-- Modelled from the spec: what the token framework supplies to
`CardAcquireContext`: the size of `struct p11Slot_t`, the macros `MAX_CAPDU`
and `MAX_RAPDU`, and `newToken(slot, atr, atrLen, &token)`, which opens the
token session and returns `CKR_OK` or an error code. -/
structure TokenFramework where
  sizeof_p11Slot_t : Nat
  MAX_CAPDU : Nat
  MAX_RAPDU : Nat
  newToken : p11Slot_t → List Nat → Nat → Nat

/-- A call that leaves `CardAcquireContext`: to the host's allocator, to
`newToken`, or to the host's free callback. -/
inductive HostCall where
  | pfnCspAlloc (size : Nat)
  | newToken (slot : p11Slot_t) (atr : List Nat) (atrLen : Nat)
  | pfnCspFree (p : Nat)
  deriving DecidableEq

/-- The outcome of `CardAcquireContext`: the status, the caller's structure
after the call, and the outgoing calls in the order they were made. -/
structure Acquired where
  status : Status
  pCardData : Option CARD_DATA_FIELDS
  calls : List HostCall

/-- The assignments of lines 1152-1209 in source order, for the value
`dwVersion` has after line 1150. -/
def tableStores (dwVersion : Nat) : List (Field × Entry) :=
  [(Field.pfnCardDeleteContext, Entry.CardDeleteContext),
   (Field.pfnCardQueryCapabilities, Entry.CardQueryCapabilities),
   (Field.pfnCardDeleteContainer, Entry.UnsupportedFeature),
   (Field.pfnCardCreateContainer, Entry.UnsupportedFeature),
   (Field.pfnCardGetContainerInfo, Entry.CardGetContainerInfo),
   (Field.pfnCardAuthenticatePin, Entry.CardAuthenticatePin),
   (Field.pfnCardGetChallenge, Entry.UnsupportedFeature),
   (Field.pfnCardAuthenticateChallenge, Entry.UnsupportedFeature),
   (Field.pfnCardUnblockPin, Entry.UnsupportedFeature),
   (Field.pfnCardChangeAuthenticator, Entry.UnsupportedFeature),
   (Field.pfnCardDeauthenticate, Entry.CardDeauthenticate),
   (Field.pfnCardCreateDirectory, Entry.UnsupportedFeature),
   (Field.pfnCardDeleteDirectory, Entry.UnsupportedFeature),
   (Field.pvUnused3, Entry.null),
   (Field.pvUnused4, Entry.null),
   (Field.pfnCardCreateFile, Entry.UnsupportedFeature),
   (Field.pfnCardReadFile, Entry.CardReadFile),
   (Field.pfnCardWriteFile, Entry.UnsupportedFeature),
   (Field.pfnCardDeleteFile, Entry.UnsupportedFeature),
   (Field.pfnCardEnumFiles, Entry.CardEnumFiles),
   (Field.pfnCardGetFileInfo, Entry.CardGetFileInfo),
   (Field.pfnCardQueryFreeSpace, Entry.CardQueryFreeSpace),
   (Field.pfnCardQueryKeySizes, Entry.CardQueryKeySizes),
   (Field.pfnCardSignData, Entry.CardSignData),
   (Field.pfnCardRSADecrypt, Entry.CardRSADecrypt),
   (Field.pfnCardConstructDHAgreement, Entry.null)] ++
  (if dwVersion ≥ CARD_DATA_VERSION_FIVE then
    [(Field.pfnCardDeriveKey, Entry.null),
     (Field.pfnCardDestroyDHAgreement, Entry.null),
     (Field.pfnCspGetDHAgreement, Entry.null)]
   else []) ++
  (if dwVersion ≥ CARD_DATA_VERSION_SIX then
    [(Field.pfnCardGetChallengeEx, Entry.UnsupportedFeature),
     (Field.pfnCardAuthenticateEx, Entry.UnsupportedFeature),
     (Field.pfnCardChangeAuthenticatorEx, Entry.UnsupportedFeature),
     (Field.pfnCardDeauthenticateEx, Entry.UnsupportedFeature),
     (Field.pfnCardGetContainerProperty, Entry.CardGetContainerProperty),
     (Field.pfnCardSetContainerProperty, Entry.UnsupportedFeature),
     (Field.pfnCardGetProperty, Entry.CardGetProperty),
     (Field.pfnCardSetProperty, Entry.UnsupportedFeature)]
   else []) ++
  (if dwVersion ≥ CARD_DATA_VERSION_SEVEN then
    [(Field.pfnCspUnpadData, Entry.UnsupportedFeature),
     (Field.pfnMDImportSessionKey, Entry.UnsupportedFeature),
     (Field.pfnMDEncryptData, Entry.UnsupportedFeature),
     (Field.pfnCardImportSessionKey, Entry.UnsupportedFeature),
     (Field.pfnCardGetSharedKeyHandle, Entry.UnsupportedFeature),
     (Field.pfnCardGetAlgorithmProperty, Entry.UnsupportedFeature),
     (Field.pfnCardGetKeyProperty, Entry.UnsupportedFeature),
     (Field.pfnCardSetKeyProperty, Entry.UnsupportedFeature),
     (Field.pfnCardDestroyKey, Entry.UnsupportedFeature),
     (Field.pfnCardProcessEncryptedData, Entry.UnsupportedFeature),
     (Field.pfnCardCreateContainerEx, Entry.UnsupportedFeature)]
   else [])

/-- One assignment `pCardData->field = entry`. -/
def storeEntry (table : Field → Entry) (s : Field × Entry) : Field → Entry :=
  fun f => if f = s.1 then s.2 else table f

/-- The slot after lines 1215-1220: the block zeroed by `memset`, then the
four members set. -/
def initSlot (fw : TokenFramework) (d : CARD_DATA_FIELDS) : p11Slot_t :=
  { card := d.hScard, context := d.hSCardCtx, maxCAPDU := fw.MAX_CAPDU, maxRAPDU := fw.MAX_RAPDU }

/-- The function `CardAcquireContext` (lines 1104-1232). -/
def CardAcquireContext (fw : TokenFramework) (pCardData : Option CARD_DATA_FIELDS)
    (dwFlags : Nat) : Acquired :=
  let fails (st : Status) : Acquired := { status := st, pCardData := pCardData, calls := [] }
  match pCardData with
  | none => fails SCARD_E_INVALID_PARAMETER
  | some d =>
    if dwFlags ≠ 0 then fails SCARD_E_INVALID_PARAMETER
    else if d.dwVersion < MINIMUM_SUPPORTED_VERSION then fails ERROR_REVISION_MISMATCH
    else
      match d.pbAtr with
      | none => fails SCARD_E_INVALID_PARAMETER
      | some atr =>
        if d.cbAtr < 4 then fails SCARD_E_INVALID_PARAMETER
        else if d.pwszCardName.isNone then fails SCARD_E_INVALID_PARAMETER
        else
          match d.pfnCspAlloc, d.pfnCspReAlloc, d.pfnCspFree with
          | some alloc, some _, some _ =>
            if d.hScard = 0 then fails SCARD_E_INVALID_HANDLE
            else
              let v :=
                if d.dwVersion > MAXIMUM_SUPPORTED_VERSION then MAXIMUM_SUPPORTED_VERSION
                else d.dwVersion
              let d1 : CARD_DATA_FIELDS :=
                { d with dwVersion := v, table := (tableStores v).foldl storeEntry d.table }
              match alloc fw.sizeof_p11Slot_t with
              | none =>
                { status := SCARD_E_NO_MEMORY,
                  pCardData := some { d1 with pvVendorSpecific := none },
                  calls := [HostCall.pfnCspAlloc fw.sizeof_p11Slot_t] }
              | some p =>
                let slot := initSlot fw d
                let rc := fw.newToken slot atr d.cbAtr
                if rc ≠ CKR_OK then
                  { status := SCARD_E_UNEXPECTED,
                    pCardData := some { d1 with pvVendorSpecific := none },
                    calls := [HostCall.pfnCspAlloc fw.sizeof_p11Slot_t,
                              HostCall.newToken slot atr d.cbAtr, HostCall.pfnCspFree p] }
                else
                  { status := SCARD_S_SUCCESS,
                    pCardData := some { d1 with pvVendorSpecific := some p },
                    calls := [HostCall.pfnCspAlloc fw.sizeof_p11Slot_t,
                              HostCall.newToken slot atr d.cbAtr] }
          | _, _, _ => fails SCARD_E_INVALID_PARAMETER

/-- The failure conditions of `CardAcquireContext` in the order the claim
lists them, each with its status; a condition on a member of a null
descriptor does not hold. -/
def acquireFailures (pCardData : Option CARD_DATA_FIELDS) (dwFlags : Nat) :
    List (Bool × Status) :=
  [(pCardData.isNone, SCARD_E_INVALID_PARAMETER),
   (decide (dwFlags ≠ 0), SCARD_E_INVALID_PARAMETER),
   (pCardData.any (fun d => decide (d.dwVersion < 4)), ERROR_REVISION_MISMATCH),
   (pCardData.any (fun d => d.pbAtr.isNone || decide (d.cbAtr < 4)), SCARD_E_INVALID_PARAMETER),
   (pCardData.any (fun d => d.pwszCardName.isNone), SCARD_E_INVALID_PARAMETER),
   (pCardData.any (fun d => d.pfnCspAlloc.isNone || d.pfnCspReAlloc.isNone ||
      d.pfnCspFree.isNone), SCARD_E_INVALID_PARAMETER),
   (pCardData.any (fun d => decide (d.hScard = 0)), SCARD_E_INVALID_HANDLE)]

/-- The entries of the table that `cardmod.h` introduces with version 5. -/
def version5Fields : List Field :=
  [Field.pfnCardDeriveKey, Field.pfnCardDestroyDHAgreement, Field.pfnCspGetDHAgreement]

/-- The entries of the table that `cardmod.h` introduces with version 6. -/
def version6Fields : List Field :=
  [Field.pfnCardGetChallengeEx, Field.pfnCardAuthenticateEx, Field.pfnCardChangeAuthenticatorEx,
   Field.pfnCardDeauthenticateEx, Field.pfnCardGetContainerProperty,
   Field.pfnCardSetContainerProperty, Field.pfnCardGetProperty, Field.pfnCardSetProperty]

/-- The entries of the table that `cardmod.h` introduces with version 7. -/
def version7Fields : List Field :=
  [Field.pfnCspUnpadData, Field.pfnMDImportSessionKey, Field.pfnMDEncryptData,
   Field.pfnCardImportSessionKey, Field.pfnCardGetSharedKeyHandle,
   Field.pfnCardGetAlgorithmProperty, Field.pfnCardGetKeyProperty, Field.pfnCardSetKeyProperty,
   Field.pfnCardDestroyKey, Field.pfnCardProcessEncryptedData, Field.pfnCardCreateContainerEx]

/-- The operations of every version that the adapter does not implement, as
the claim lists them, without those for DH agreement and key derivation:
container create and delete, challenge, unblock, change authenticator,
directory and file create, write and delete. -/
def unimplementedBase : List Field :=
  [Field.pfnCardDeleteContainer, Field.pfnCardCreateContainer, Field.pfnCardGetChallenge,
   Field.pfnCardAuthenticateChallenge, Field.pfnCardUnblockPin, Field.pfnCardChangeAuthenticator,
   Field.pfnCardCreateDirectory, Field.pfnCardDeleteDirectory, Field.pfnCardCreateFile,
   Field.pfnCardWriteFile, Field.pfnCardDeleteFile]

/-- The unimplemented operations of version 6: the Ex authentication calls
and the set-property calls. -/
def unimplementedSix : List Field :=
  [Field.pfnCardGetChallengeEx, Field.pfnCardAuthenticateEx, Field.pfnCardChangeAuthenticatorEx,
   Field.pfnCardDeauthenticateEx, Field.pfnCardSetContainerProperty, Field.pfnCardSetProperty]

/-- The identifier of length below 16 aligned to the right of 16 bytes, with
zero bytes in front, as the claim words it. -/
def rightAlign (id : List Nat) : List Nat := List.replicate (16 - id.length) 0 ++ id

/-! ## Sample inputs -/

/-- A 16-byte serial number, the characters `0123456789:;<=>?`. -/
def sampleSerial : List Nat := (List.range 16).map (fun i => 0x30 + i)

/-- A host over a token with two private keys: a 2048-bit key with a 4-byte
identifier and a 256-bit key with a 20-byte identifier. -/
def sampleHost : CARD_DATA :=
  hostWith sampleSerial [privateKey [1, 2, 3, 4] 2048, privateKey (List.replicate 20 0xaa) 256]

/-- A well-formed P-256 public key: the OID and a 67-byte point. -/
def sampleECKey : p11Object_t :=
  ecPublicKey primeP256r1 (0x04 :: 0x41 :: 0x04 :: List.replicate 64 7)

/-- A private key object without any attribute, so without `CKA_ID`. -/
def bareKey : p11Object_t := { objClass := CKO_PRIVATE_KEY, attrList := [], keysize := 2048 }

/-- A certificate object with the given identifier and value. -/
def certificate (id value : List Nat) : p11Object_t :=
  { objClass := CKO_CERTIFICATE,
    attrList := [{ attrType := CKA_ID, pValue := id }, { attrType := CKA_VALUE, pValue := value }],
    keysize := 0 }

/-- A host over a token with two private keys and one certificate, which
carries the identifier of the first key. -/
def certHost : CARD_DATA :=
  { pfnCspAlloc := fun _ => some (fun _ => 0),
    token := { serialNumber := sampleSerial,
               tokenObjList := [certificate [1, 2, 3, 4] [0x30, 0x03, 0x02, 0x01, 0x05]],
               tokenPrivObjList := [privateKey [1, 2, 3, 4] 2048, privateKey [9] 256] } }

/-- A token framework whose `newToken` succeeds. -/
def sampleFramework : TokenFramework :=
  { sizeof_p11Slot_t := 512, MAX_CAPDU := 1024, MAX_RAPDU := 1024,
    newToken := fun _ _ _ => CKR_OK }

/-- A token framework whose `newToken` fails with the code 5. -/
def failingFramework : TokenFramework :=
  { sizeof_p11Slot_t := 512, MAX_CAPDU := 1024, MAX_RAPDU := 1024,
    newToken := fun _ _ _ => 5 }

/-- A descriptor that passes the checks of `CardAcquireContext`, with the
requested version `r`; every table member holds the foreign pointer 99 and the
allocator hands out the block at address 4096. -/
def sampleDescriptor (r : Nat) : CARD_DATA_FIELDS :=
  { dwVersion := r,
    pbAtr := some [0x3b, 0xfe, 0x18, 0x00],
    cbAtr := 4,
    pwszCardName := some (wide "SmartCard-HSM"),
    pfnCspAlloc := some (fun _ => some 4096),
    pfnCspReAlloc := some 1,
    pfnCspFree := some 2,
    hSCardCtx := 7,
    hScard := 8,
    pvVendorSpecific := some 12345,
    table := fun _ => Entry.other 99 }

/-! ## Theorems -/

theorem xorLoop_length (dpo : List Nat) : ∀ (idscr : List Nat) (spo : Nat),
    (xorLoop idscr spo dpo).length = idscr.length := by
  induction dpo with
  | nil => intro idscr spo; rfl
  | cons d dpo ih => intro idscr spo; simp [xorLoop, ih]

theorem xorLoop_below (dpo : List Nat) : ∀ (idscr : List Nat) (spo k : Nat), k < spo →
    (xorLoop idscr spo dpo).getD k 0 = idscr.getD k 0 := by
  induction dpo with
  | nil => intro idscr spo k _; rfl
  | cons d dpo ih =>
    intro idscr spo k hk
    simp only [xorLoop]
    rw [ih _ _ _ (Nat.lt_succ_of_lt hk)]
    have hne : ¬ spo = k := by omega
    simp [List.getD_eq_getElem?_getD, List.getElem?_set, hne]

theorem xorLoop_at (dpo : List Nat) : ∀ (idscr : List Nat) (spo j : Nat), j < dpo.length →
    spo + j < idscr.length →
    (xorLoop idscr spo dpo).getD (spo + j) 0 = idscr.getD (spo + j) 0 ^^^ dpo.getD j 0 := by
  induction dpo with
  | nil => intro idscr spo j hj; simp at hj
  | cons d dpo ih =>
    intro idscr spo j hj hlen
    simp only [xorLoop]
    cases j with
    | zero =>
      have hlt : spo < idscr.length := by omega
      simp only [Nat.add_zero]
      rw [xorLoop_below _ _ _ _ (Nat.lt_succ_self spo)]
      simp [List.getD_eq_getElem?_getD, List.getElem?_set, hlt]
    | succ j =>
      have h1 : spo + (j + 1) = (spo + 1) + j := by omega
      rw [h1, ih _ _ _ (by simpa using hj) (by simpa [← h1] using hlen)]
      simp [List.getD_eq_getElem?_getD, List.getElem?_set]
      have : ¬ spo = spo + 1 + j := by omega
      simp [this]

theorem GUIDtoString_reads_sixteen (l : List Nat) (buf : Mem) (h : 16 ≤ l.length) :
    GUIDtoString l buf = GUIDtoString (l.take 16) buf := by
  match l, h with
  | a0 :: a1 :: a2 :: a3 :: a4 :: a5 :: a6 :: a7 :: a8 :: a9 :: a10 :: a11 :: a12 :: a13 :: a14
      :: a15 :: rest, _ =>
    simp [GUIDtoString, decodeBCDString]

/-- C1: the raw GUID that `encodeGUID` formats. With a 16-byte serial `S`
and identifier `I`, `GUIDtoString` reads the first 16 bytes of the buffer
`id` points to. If `|I| >= 16` these are `I[0..15]`; if `|I| = n < 16` the
buffer has 16 bytes `G` with `G[k] = S[k]` for `k < 16-n` and
`G[16-n+j] = S[16-n+j] XOR I[j]` for `j < n`. -/
theorem encodeGUID_id_spec (S I : List Nat) (hS : S.length = 16) :
    (∀ buf : Mem, GUIDtoString (encodeGUID_id S I) buf
      = GUIDtoString ((encodeGUID_id S I).take 16) buf) ∧
    (16 ≤ I.length → ∀ k, k < 16 → (encodeGUID_id S I).getD k 0 = I.getD k 0) ∧
    (I.length < 16 →
      (encodeGUID_id S I).length = 16 ∧
      (∀ k, k < 16 - I.length → (encodeGUID_id S I).getD k 0 = S.getD k 0) ∧
      (∀ j, j < I.length →
        (encodeGUID_id S I).getD (16 - I.length + j) 0
          = S.getD (16 - I.length + j) 0 ^^^ I.getD j 0)) := by
  have hT : S.take 16 = S := List.take_of_length_le (by omega)
  refine ⟨?_, ?_, ?_⟩
  · intro buf
    apply GUIDtoString_reads_sixteen
    unfold encodeGUID_id
    split
    · rw [xorLoop_length, hT, hS]
    · omega
  · intro h k _
    have : ¬ I.length < 16 := by omega
    simp [encodeGUID_id, this]
  · intro h
    simp only [encodeGUID_id, h, if_true, hT]
    refine ⟨?_, ?_, ?_⟩
    · rw [xorLoop_length, hS]
    · intro k hk
      exact xorLoop_below _ _ _ _ hk
    · intro j hj
      exact xorLoop_at _ _ _ _ hj (by omega)

theorem length_sixteen (g : List Nat) (h : g.length = 16) :
    ∃ a0 a1 a2 a3 a4 a5 a6 a7 a8 a9 a10 a11 a12 a13 a14 a15,
      g = [a0, a1, a2, a3, a4, a5, a6, a7, a8, a9, a10, a11, a12, a13, a14, a15] := by
  match g, h with
  | [a0, a1, a2, a3, a4, a5, a6, a7, a8, a9, a10, a11, a12, a13, a14, a15], _ =>
    exact ⟨a0, a1, a2, a3, a4, a5, a6, a7, a8, a9, a10, a11, a12, a13, a14, a15, rfl⟩

theorem bcddigit_hi (b : Nat) (hb : b < 256) :
    bcddigit (b >>> 4) = hexDigit (b / 16) ∧ isLowerHex (bcddigit (b >>> 4)) ∧
      hexVal (bcddigit (b >>> 4)) = b / 16 := by
  have h1 : b >>> 4 = b / 16 := by simp [Nat.shiftRight_eq_div_pow]
  have h2 : b / 16 < 16 := by omega
  rw [h1]
  generalize b / 16 = n at h2
  interval_cases n <;> exact ⟨by decide, by simp [isLowerHex, bcddigit], by decide⟩

theorem bcddigit_lo (b : Nat) :
    bcddigit (b &&& 15) = hexDigit (b % 16) ∧ isLowerHex (bcddigit (b &&& 15)) ∧
      hexVal (bcddigit (b &&& 15)) = b % 16 := by
  have h1 : b &&& 15 = b % 16 := Nat.and_pow_two_sub_one_eq_mod b 4
  have h2 : b % 16 < 16 := by omega
  rw [h1]
  generalize b % 16 = n at h2
  interval_cases n <;> exact ⟨by decide, by simp [isLowerHex, bcddigit], by decide⟩

theorem GUIDchars_eq (a0 a1 a2 a3 a4 a5 a6 a7 a8 a9 a10 a11 a12 a13 a14 a15 : Nat) (buf : Mem) :
    GUIDchars [a0, a1, a2, a3, a4, a5, a6, a7, a8, a9, a10, a11, a12, a13, a14, a15] buf =
      [bcddigit (a0 >>> 4), bcddigit (a0 &&& 15), bcddigit (a1 >>> 4), bcddigit (a1 &&& 15),
       bcddigit (a2 >>> 4), bcddigit (a2 &&& 15), bcddigit (a3 >>> 4), bcddigit (a3 &&& 15), 45,
       bcddigit (a4 >>> 4), bcddigit (a4 &&& 15), bcddigit (a5 >>> 4), bcddigit (a5 &&& 15), 45,
       bcddigit (a6 >>> 4), bcddigit (a6 &&& 15), bcddigit (a7 >>> 4), bcddigit (a7 &&& 15), 45,
       bcddigit (a8 >>> 4), bcddigit (a8 &&& 15), bcddigit (a9 >>> 4), bcddigit (a9 &&& 15), 45,
       bcddigit (a10 >>> 4), bcddigit (a10 &&& 15), bcddigit (a11 >>> 4), bcddigit (a11 &&& 15),
       bcddigit (a12 >>> 4), bcddigit (a12 &&& 15), bcddigit (a13 >>> 4), bcddigit (a13 &&& 15),
       bcddigit (a14 >>> 4), bcddigit (a14 &&& 15), bcddigit (a15 >>> 4), bcddigit (a15 &&& 15)] := by
  simp [GUIDchars, Mem.bytes, GUIDtoString, decodeBCDString, store, List.range_succ]

theorem GUIDtoString_nul (g : List Nat) (buf : Mem) : GUIDtoString g buf 36 = 0 := by
  simp [GUIDtoString, decodeBCDString, store]

theorem bcddigit_ne_hyphen (x : Nat) : bcddigit x ≠ 45 := by
  unfold bcddigit; split <;> omega

theorem GUIDchars_getD (g : List Nat) (buf : Mem) (i : Nat) (hi : i < 36) :
    (GUIDchars g buf).getD i 0 = GUIDtoString g buf i := by
  simp [GUIDchars, Mem.bytes, List.getD_eq_getElem?_getD, List.getElem?_map, List.getElem?_range hi]

/-- C2: format of `GUIDtoString`. For a 16-byte input the buffer holds 36
characters followed by NUL, a hyphen at 8, 13, 18 and 23 and a character of
`[0-9a-f]` elsewhere; without the hyphens it is the lowercase hex encoding
of the input, high nibble first, so that hex decoding gives the input back;
and none of the 37 characters depends on what the buffer held before. -/
theorem GUIDtoString_format (g : List Nat) (buf : Mem) (hlen : g.length = 16)
    (hbyte : ∀ b ∈ g, b < 256) :
    (GUIDchars g buf).length = 36 ∧ GUIDtoString g buf 36 = 0 ∧
    GUIDtoString g buf 8 = 45 ∧ GUIDtoString g buf 13 = 45 ∧
    GUIDtoString g buf 18 = 45 ∧ GUIDtoString g buf 23 = 45 ∧
    (∀ i, i < 36 → i ≠ 8 → i ≠ 13 → i ≠ 18 → i ≠ 23 → isLowerHex (GUIDtoString g buf i)) ∧
    ((GUIDchars g buf).filter (fun c => c ≠ 45)).length = 32 ∧
    (GUIDchars g buf).filter (fun c => c ≠ 45) = hexEncode g ∧
    hexDecode ((GUIDchars g buf).filter (fun c => c ≠ 45)) = g ∧
    (∀ buf2 : Mem, ∀ i, i ≤ 36 → GUIDtoString g buf2 i = GUIDtoString g buf i) := by
  obtain ⟨a0, a1, a2, a3, a4, a5, a6, a7, a8, a9, a10, a11, a12, a13, a14, a15, rfl⟩ :=
    length_sixteen g hlen
  simp only [List.mem_cons, List.mem_singleton, forall_eq_or_imp, forall_eq, List.not_mem_nil,
    false_implies, implies_true, and_true] at hbyte
  obtain ⟨h0, h1, h2, h3, h4, h5, h6, h7, h8, h9, h10, h11, h12, h13, h14, h15⟩ := hbyte
  have hchars := GUIDchars_eq a0 a1 a2 a3 a4 a5 a6 a7 a8 a9 a10 a11 a12 a13 a14 a15
  have hfilter : ∀ b : Mem,
      (GUIDchars [a0, a1, a2, a3, a4, a5, a6, a7, a8, a9, a10, a11, a12, a13, a14, a15] b).filter
        (fun c => c ≠ 45) =
      hexEncode [a0, a1, a2, a3, a4, a5, a6, a7, a8, a9, a10, a11, a12, a13, a14, a15] := by
    intro b
    rw [hchars b]
    have hne : ∀ x, decide (bcddigit x ≠ 45) = true := fun x => by simp [bcddigit_ne_hyphen]
    simp only [List.filter_cons, hne, if_true, List.filter_nil]
    simp [hexEncode, bcddigit_hi _ h0, bcddigit_hi _ h1,
      bcddigit_hi _ h2, bcddigit_hi _ h3, bcddigit_hi _ h4, bcddigit_hi _ h5, bcddigit_hi _ h6,
      bcddigit_hi _ h7, bcddigit_hi _ h8, bcddigit_hi _ h9, bcddigit_hi _ h10, bcddigit_hi _ h11,
      bcddigit_hi _ h12, bcddigit_hi _ h13, bcddigit_hi _ h14, bcddigit_hi _ h15, bcddigit_lo]
  refine ⟨by simp [GUIDchars, Mem.bytes], GUIDtoString_nul _ _, ?_, ?_, ?_, ?_, ?_, ?_, hfilter buf,
    ?_, ?_⟩
  · rw [← GUIDchars_getD _ _ 8 (by omega), hchars]; rfl
  · rw [← GUIDchars_getD _ _ 13 (by omega), hchars]; rfl
  · rw [← GUIDchars_getD _ _ 18 (by omega), hchars]; rfl
  · rw [← GUIDchars_getD _ _ 23 (by omega), hchars]; rfl
  · intro i hi i8 i13 i18 i23
    rw [← GUIDchars_getD _ _ i hi, hchars]
    interval_cases i <;>
      first
      | exact absurd rfl i8 | exact absurd rfl i13 | exact absurd rfl i18 | exact absurd rfl i23
      | exact (bcddigit_lo _).2.1
      | exact (bcddigit_hi _ (by assumption)).2.1
  · rw [hfilter buf]; simp [hexEncode]
  · rw [hfilter buf]
    simp only [hexEncode, List.flatMap_cons, List.flatMap_nil, List.cons_append, List.nil_append,
      List.append_nil, hexDecode]
    rw [← (bcddigit_hi _ h0).1, ← (bcddigit_hi _ h1).1, ← (bcddigit_hi _ h2).1,
      ← (bcddigit_hi _ h3).1, ← (bcddigit_hi _ h4).1, ← (bcddigit_hi _ h5).1,
      ← (bcddigit_hi _ h6).1, ← (bcddigit_hi _ h7).1, ← (bcddigit_hi _ h8).1,
      ← (bcddigit_hi _ h9).1, ← (bcddigit_hi _ h10).1, ← (bcddigit_hi _ h11).1,
      ← (bcddigit_hi _ h12).1, ← (bcddigit_hi _ h13).1, ← (bcddigit_hi _ h14).1,
      ← (bcddigit_hi _ h15).1]
    simp only [← (bcddigit_lo _).1, (bcddigit_hi _ h0).2.2, (bcddigit_hi _ h1).2.2,
      (bcddigit_hi _ h2).2.2, (bcddigit_hi _ h3).2.2, (bcddigit_hi _ h4).2.2,
      (bcddigit_hi _ h5).2.2, (bcddigit_hi _ h6).2.2, (bcddigit_hi _ h7).2.2,
      (bcddigit_hi _ h8).2.2, (bcddigit_hi _ h9).2.2, (bcddigit_hi _ h10).2.2,
      (bcddigit_hi _ h11).2.2, (bcddigit_hi _ h12).2.2, (bcddigit_hi _ h13).2.2,
      (bcddigit_hi _ h14).2.2, (bcddigit_hi _ h15).2.2, (bcddigit_lo _).2.2, Nat.div_add_mod]
  · intro buf2 i hi
    rcases Nat.lt_or_eq_of_le hi with hlt | rfl
    · rw [← GUIDchars_getD _ _ i hlt, ← GUIDchars_getD _ _ i hlt, hchars, hchars]
    · rw [GUIDtoString_nul, GUIDtoString_nul]

theorem encodeRSAPublicKey_loop_other (M : List Nat) : ∀ (n : Nat) (blob : Mem) (dp sp j : Nat),
    (j < dp ∨ dp + n ≤ j) → encodeRSAPublicKey_loop M n blob dp sp j = blob j := by
  intro n
  induction n with
  | zero => intro blob dp sp j _; rfl
  | succ n ih =>
    intro blob dp sp j hj
    simp only [encodeRSAPublicKey_loop]
    rw [ih _ _ _ _ (by omega)]
    have : ¬ j = dp := by omega
    simp [store, this]

theorem encodeRSAPublicKey_loop_at (M : List Nat) : ∀ (n : Nat) (blob : Mem) (dp sp k : Nat),
    k < n → n ≤ sp + 1 → encodeRSAPublicKey_loop M n blob dp sp (dp + k) = M.getD (sp - k) 0 := by
  intro n
  induction n with
  | zero => intro blob dp sp k hk; omega
  | succ n ih =>
    intro blob dp sp k hk hsp
    simp only [encodeRSAPublicKey_loop]
    cases k with
    | zero =>
      rw [Nat.add_zero, encodeRSAPublicKey_loop_other _ _ _ _ _ _ (by omega)]
      simp [store]
    | succ k =>
      have h1 : dp + (k + 1) = (dp + 1) + k := by omega
      have h2 : sp - (k + 1) = (sp - 1) - k := by omega
      rw [h1, h2]
      exact ih _ _ _ _ (by omega) (by omega)

theorem toInt32_small (n : Nat) (h : n < 2 ^ 31) : (toInt32 n).toNat = n := by
  have h1 : n % 2 ^ 32 = n := Nat.mod_eq_of_lt (by omega)
  unfold toInt32
  rw [if_pos (by omega)]
  omega

theorem toInt32_large (n : Nat) (h1 : 2 ^ 31 ≤ n) (h2 : n < 2 ^ 32) : (toInt32 n).toNat = 0 := by
  have h3 : n % 2 ^ 32 = n := Nat.mod_eq_of_lt h2
  have h4 : ¬ n < 2 ^ 31 := by omega
  simp only [toInt32, h3, h4, if_false]
  omega

theorem toInt32_toNat_le (n : Nat) : (toInt32 n).toNat ≤ n := by
  have h3 : n % 2 ^ 32 ≤ n := Nat.mod_le _ _
  unfold toInt32
  split <;> omega

theorem Mem.bytes_drop (m : Mem) (k n : Nat) : (Mem.bytes m 0 (k + n)).drop k = Mem.bytes m k n := by
  apply List.ext_getElem?
  intro i
  simp only [Mem.bytes, List.getElem?_drop, List.getElem?_map]
  by_cases hi : i < n
  · rw [List.getElem?_range (by omega), List.getElem?_range hi]; simp
  · rw [List.getElem?_eq_none (by simp; omega), List.getElem?_eq_none (by simp; omega)]
    rfl

theorem Mem.bytes_length (m : Mem) (off n : Nat) : (Mem.bytes m off n).length = n := by
  simp [Mem.bytes]

theorem encodeRSAPublicKey_small (pCardData : CARD_DATA) (M : List Nat) (out : BlobOut) (buf : Mem)
    (hL : M.length < 2 ^ 31) (halloc : pCardData.pfnCspAlloc (20 + M.length) = some buf) :
    encodeRSAPublicKey pCardData M out = some (SCARD_S_SUCCESS,
      { pblob := some (encodeRSAPublicKey_fill M M.length buf), pbloblen := 20 + M.length }) := by
  have hmod : (8 + 12 + M.length) % 2 ^ 32 = 20 + M.length := by omega
  simp only [encodeRSAPublicKey, sizeof_BLOBHEADER, sizeof_RSAPUBKEY, hmod, halloc,
    toInt32_small _ hL]
  rw [if_neg (by omega)]

/-- C3 (amended): RSA blob round trip for a modulus shorter than `2 ^ 31`
bytes. When the allocation succeeds, `encodeRSAPublicKey` returns Success
with a blob of `20 + L` bytes, and dropping the 20 header bytes and reversing
the rest gives the modulus back; `L = 0` included. -/
theorem encodeRSAPublicKey_roundtrip (pCardData : CARD_DATA) (M : List Nat) (out : BlobOut)
    (buf : Mem) (hL : M.length < 2 ^ 31)
    (halloc : pCardData.pfnCspAlloc (20 + M.length) = some buf) :
    ∃ blob, encodeRSAPublicKey pCardData M out
        = some (SCARD_S_SUCCESS, { pblob := some blob, pbloblen := 20 + M.length }) ∧
      ((Mem.bytes blob 0 (20 + M.length)).drop 20).reverse = M := by
  refine ⟨encodeRSAPublicKey_fill M M.length buf, ?_, ?_⟩
  · exact encodeRSAPublicKey_small pCardData M out buf hL halloc
  · rw [Mem.bytes_drop]
    simp only [encodeRSAPublicKey_fill, sizeof_BLOBHEADER, sizeof_RSAPUBKEY]
    apply List.ext_getElem?
    intro i
    by_cases hi : i < M.length
    · rw [List.getElem?_reverse (by simpa [Mem.bytes] using hi)]
      simp only [Mem.bytes_length]
      have h3 : M.length - 1 - i < M.length := by omega
      simp only [Mem.bytes, List.getElem?_map, List.getElem?_range h3, Option.map_some',
        Nat.reduceAdd]
      rw [encodeRSAPublicKey_loop_at M M.length _ 20 (M.length - 1) _ h3 (by omega)]
      have h4 : M.length - 1 - (M.length - 1 - i) = i := by omega
      rw [h4, List.getD_eq_getElem?_getD, List.getElem?_eq_getElem hi]
      rfl
    · rw [List.getElem?_eq_none (by simpa [Mem.bytes] using hi),
        List.getElem?_eq_none (by omega)]

theorem storeLE_other (w : Nat) : ∀ (m : Mem) (a v j : Nat), (j < a ∨ a + w ≤ j) →
    storeLE m a w v j = m j := by
  induction w with
  | zero => intro m a v j _; rfl
  | succ w ih =>
    intro m a v j hj
    have hne : ¬ j = a := by omega
    simp only [storeLE, store, hne, if_false]
    exact ih _ _ _ _ (by omega)

theorem encodeRSAPublicKey_fill_tail (M : List Nat) (buf : Mem) (j : Nat) (hj : 20 ≤ j) :
    encodeRSAPublicKey_fill M 0 buf j = buf j := by
  simp only [encodeRSAPublicKey_fill, encodeRSAPublicKey_header, encodeRSAPublicKey_loop,
    sizeof_BLOBHEADER]
  rw [storeLE_other _ _ _ _ _ (by omega), storeLE_other _ _ _ _ _ (by omega),
    storeLE_other _ _ _ _ _ (by omega), storeLE_other _ _ _ _ _ (by omega),
    storeLE_other _ _ _ _ _ (by omega), storeLE_other _ _ _ _ _ (by omega),
    storeLE_other _ _ _ _ _ (by omega)]

theorem encodeRSAPublicKey_large (pCardData : CARD_DATA) (M : List Nat) (out : BlobOut) (buf : Mem)
    (h1 : 2 ^ 31 ≤ M.length) (h2 : M.length < 2 ^ 32 - 20)
    (halloc : pCardData.pfnCspAlloc (20 + M.length) = some buf) :
    encodeRSAPublicKey pCardData M out = some (SCARD_S_SUCCESS,
      { pblob := some (encodeRSAPublicKey_fill M 0 buf), pbloblen := 20 + M.length }) := by
  have hmod : (8 + 12 + M.length) % 2 ^ 32 = 20 + M.length := by omega
  simp only [encodeRSAPublicKey, sizeof_BLOBHEADER, sizeof_RSAPUBKEY, hmod, halloc,
    toInt32_large _ h1 (by omega)]
  rw [if_neg (by omega)]

/-- C3 (counterexample): with a modulus of `2 ^ 31` bytes, all of them 1, and
an allocator that hands out zeroed memory, `encodeRSAPublicKey` returns
Success without copying a byte (`i`, an `int`, is negative), and the blob
does not decode to the modulus. -/
theorem encodeRSAPublicKey_roundtrip_fails_two_gib :
    encodeRSAPublicKey
        { pfnCspAlloc := fun _ => some (fun _ => 0),
          token := { serialNumber := [], tokenObjList := [], tokenPrivObjList := [] } }
        (List.replicate (2 ^ 31) 1) { pblob := none, pbloblen := 0 }
      = some (SCARD_S_SUCCESS,
          { pblob := some (encodeRSAPublicKey_fill (List.replicate (2 ^ 31) 1) 0 (fun _ => 0)),
            pbloblen := 20 + 2 ^ 31 }) ∧
    ((Mem.bytes (encodeRSAPublicKey_fill (List.replicate (2 ^ 31) 1) 0 (fun _ => 0)) 0
        (20 + 2 ^ 31)).drop 20).reverse ≠ List.replicate (2 ^ 31) 1 := by
  have hlen : (List.replicate (2 ^ 31) 1).length = 2 ^ 31 := List.length_replicate _ _
  constructor
  · have h := encodeRSAPublicKey_large
      { pfnCspAlloc := fun _ => some (fun _ => 0),
        token := { serialNumber := [], tokenObjList := [], tokenPrivObjList := [] } }
      (List.replicate (2 ^ 31) 1) { pblob := none, pbloblen := 0 } (fun _ => 0)
      (by rw [hlen]) (by rw [hlen]; norm_num) rfl
    rw [hlen] at h
    exact h
  · intro h
    rw [Mem.bytes_drop] at h
    have hmem : encodeRSAPublicKey_fill (List.replicate (2 ^ 31) 1) 0 (fun _ => 0) 20 ∈
        (Mem.bytes (encodeRSAPublicKey_fill (List.replicate (2 ^ 31) 1) 0 (fun _ => 0)) 20
          (2 ^ 31)).reverse := by
      rw [List.mem_reverse]
      exact List.mem_map.mpr ⟨0, List.mem_range.mpr (by norm_num), rfl⟩
    rw [h] at hmem
    have h1 := List.eq_of_mem_replicate hmem
    rw [encodeRSAPublicKey_fill_tail _ _ _ (le_refl 20)] at h1
    exact absurd h1 (by decide)

theorem encodeRSAPublicKey_fill_head (M : List Nat) (n : Nat) (buf : Mem) (j : Nat) (hj : j < 20) :
    encodeRSAPublicKey_fill M n buf j = encodeRSAPublicKey_header M.length buf j := by
  simp only [encodeRSAPublicKey_fill, sizeof_BLOBHEADER, sizeof_RSAPUBKEY]
  rw [encodeRSAPublicKey_loop_other _ _ _ _ _ _ (by omega)]

theorem loadLE_congr (w : Nat) : ∀ (m1 m2 : Mem) (a : Nat),
    (∀ j, a ≤ j → j < a + w → m1 j = m2 j) → loadLE m1 a w = loadLE m2 a w := by
  induction w with
  | zero => intro m1 m2 a _; rfl
  | succ w ih =>
    intro m1 m2 a h
    simp only [loadLE]
    rw [h a (le_refl a) (by omega), ih m1 m2 (a + 1) (fun j h1 h2 => h j (by omega) (by omega))]

theorem encodeRSAPublicKey_header_fields (L : Nat) (buf : Mem) :
    loadLE (encodeRSAPublicKey_header L buf) 0 1 = PUBLICKEYBLOB ∧
    loadLE (encodeRSAPublicKey_header L buf) 1 1 = CUR_BLOB_VERSION ∧
    loadLE (encodeRSAPublicKey_header L buf) 2 2 = 0 ∧
    loadLE (encodeRSAPublicKey_header L buf) 4 4 = CALG_RSA_KEYX ∧
    loadLE (encodeRSAPublicKey_header L buf) 8 4 = 0x31415352 ∧
    loadLE (encodeRSAPublicKey_header L buf) 12 4 = (8 * L) % 2 ^ 32 ∧
    loadLE (encodeRSAPublicKey_header L buf) 16 4 = 65537 := by
  have hs : L <<< 3 = 8 * L := by rw [Nat.shiftLeft_eq]; omega
  refine ⟨?_, ?_, ?_, ?_, ?_, ?_, ?_⟩ <;>
    simp [encodeRSAPublicKey_header, sizeof_BLOBHEADER, loadLE, storeLE, store, PUBLICKEYBLOB,
      CUR_BLOB_VERSION, CALG_RSA_KEYX, hs]
  omega

/-- C4 (amended): header of the RSA blob. When the allocator returns null,
`encodeRSAPublicKey` returns NoMemory and leaves both outputs as they were.
For a modulus of `L < 2 ^ 32 - 20` bytes and a successful allocation it
returns Success with reported length `20 + L` and header fields
`bType = PUBLICKEYBLOB`, `bVersion = CUR_BLOB_VERSION`, `reserved = 0`,
`aiKeyAlg = CALG_RSA_KEYX`, magic `0x31415352`, `pubexp = 65537` and
`bitlen = 8 * L` reduced modulo `2 ^ 32`, which is `8 * L` when
`L < 2 ^ 29`. -/
theorem encodeRSAPublicKey_header_spec (pCardData : CARD_DATA) (M : List Nat) (out : BlobOut) :
    (pCardData.pfnCspAlloc ((sizeof_BLOBHEADER + sizeof_RSAPUBKEY + M.length) % 2 ^ 32) = none →
      encodeRSAPublicKey pCardData M out = some (SCARD_E_NO_MEMORY, out)) ∧
    (∀ buf : Mem, M.length < 2 ^ 32 - 20 →
      pCardData.pfnCspAlloc (sizeof_BLOBHEADER + sizeof_RSAPUBKEY + M.length) = some buf →
      ∃ blob, encodeRSAPublicKey pCardData M out = some (SCARD_S_SUCCESS,
          { pblob := some blob, pbloblen := sizeof_BLOBHEADER + sizeof_RSAPUBKEY + M.length }) ∧
        loadLE blob 0 1 = PUBLICKEYBLOB ∧
        loadLE blob 1 1 = CUR_BLOB_VERSION ∧
        loadLE blob 2 2 = 0 ∧
        loadLE blob 4 4 = CALG_RSA_KEYX ∧
        loadLE blob sizeof_BLOBHEADER 4 = 0x31415352 ∧
        loadLE blob (sizeof_BLOBHEADER + 4) 4 = (8 * M.length) % 2 ^ 32 ∧
        (M.length < 2 ^ 29 → loadLE blob (sizeof_BLOBHEADER + 4) 4 = 8 * M.length) ∧
        loadLE blob (sizeof_BLOBHEADER + 8) 4 = 65537) := by
  constructor
  · intro h
    simp only [encodeRSAPublicKey, h]
  · intro buf hL halloc
    simp only [sizeof_BLOBHEADER, sizeof_RSAPUBKEY] at halloc ⊢
    have hmod : (8 + 12 + M.length) % 2 ^ 32 = 8 + 12 + M.length := by omega
    have hi := toInt32_toNat_le M.length
    refine ⟨encodeRSAPublicKey_fill M (toInt32 M.length).toNat buf, ?_, ?_⟩
    · simp only [encodeRSAPublicKey, sizeof_BLOBHEADER, sizeof_RSAPUBKEY, hmod, halloc]
      rw [if_neg (by omega)]
    · have hc : ∀ a w, a + w ≤ 20 →
          loadLE (encodeRSAPublicKey_fill M (toInt32 M.length).toNat buf) a w
            = loadLE (encodeRSAPublicKey_header M.length buf) a w := fun a w haw =>
        loadLE_congr w _ _ a (fun j _ h2 => encodeRSAPublicKey_fill_head M _ buf j (by omega))
      obtain ⟨f1, f2, f3, f4, f5, f6, f7⟩ := encodeRSAPublicKey_header_fields M.length buf
      rw [hc 0 1 (by omega), hc 1 1 (by omega), hc 2 2 (by omega), hc 4 4 (by omega),
        hc 8 4 (by omega), hc (8 + 4) 4 (by omega), hc (8 + 8) 4 (by omega)]
      refine ⟨f1, f2, f3, f4, f5, f6, ?_, f7⟩
      intro h29
      change loadLE (encodeRSAPublicKey_header M.length buf) 12 4 = 8 * M.length
      rw [f6]
      omega

/-- C4 (counterexample): for a modulus of `2 ^ 29` bytes the `bitlen` field
of the blob is 0, not `8 * L = 2 ^ 32`. -/
theorem encodeRSAPublicKey_bitlen_wraps :
    encodeRSAPublicKey
        { pfnCspAlloc := fun _ => some (fun _ => 0),
          token := { serialNumber := [], tokenObjList := [], tokenPrivObjList := [] } }
        (List.replicate (2 ^ 29) 0) { pblob := none, pbloblen := 0 }
      = some (SCARD_S_SUCCESS,
          { pblob := some (encodeRSAPublicKey_fill (List.replicate (2 ^ 29) 0) (2 ^ 29)
              (fun _ => 0)),
            pbloblen := 20 + 2 ^ 29 }) ∧
    loadLE (encodeRSAPublicKey_fill (List.replicate (2 ^ 29) 0) (2 ^ 29) (fun _ => 0))
        (sizeof_BLOBHEADER + 4) 4 = 0 ∧
    loadLE (encodeRSAPublicKey_fill (List.replicate (2 ^ 29) 0) (2 ^ 29) (fun _ => 0))
        (sizeof_BLOBHEADER + 4) 4 ≠ 8 * (List.replicate (2 ^ 29) 0).length := by
  have hlen : (List.replicate (2 ^ 29) 0).length = 2 ^ 29 := List.length_replicate _ _
  have hbit : loadLE (encodeRSAPublicKey_fill (List.replicate (2 ^ 29) 0) (2 ^ 29) (fun _ => 0))
      (sizeof_BLOBHEADER + 4) 4 = 0 := by
    rw [loadLE_congr 4 _ (encodeRSAPublicKey_header (2 ^ 29) (fun _ => 0)) _
      (fun j _ h2 => by
        rw [encodeRSAPublicKey_fill_head _ _ _ j (by simp only [sizeof_BLOBHEADER] at h2; omega),
          hlen])]
    exact (encodeRSAPublicKey_header_fields (2 ^ 29) (fun _ => 0)).2.2.2.2.2.1
  refine ⟨?_, hbit, ?_⟩
  · have h := encodeRSAPublicKey_small
      { pfnCspAlloc := fun _ => some (fun _ => 0),
        token := { serialNumber := [], tokenObjList := [], tokenPrivObjList := [] } }
      (List.replicate (2 ^ 29) 0) { pblob := none, pbloblen := 0 } (fun _ => 0)
      (by rw [hlen]; norm_num) rfl
    rw [hlen] at h
    exact h
  · rw [hbit, hlen]
    norm_num

theorem memcmp_append (a : List Nat) : ∀ (extra : List Nat),
    memcmp a (a ++ extra) a.length = some 0 := by
  induction a with
  | nil => intro extra; rfl
  | cons x a ih => intro extra; simp [memcmp, ih]

theorem memcmp_take (a : List Nat) : ∀ (b : List Nat), b.take a.length = a →
    memcmp a b a.length = some 0 := by
  intro b h
  have hb : b = a ++ b.drop a.length := by
    conv_lhs => rw [← List.take_append_drop a.length b, h]
  rw [hb]
  exact memcmp_append a _

theorem memcmp_diff (a : List Nat) : ∀ (b : List Nat) (n k : Nat), k < n → k < a.length →
    k < b.length → a.getD k 0 ≠ b.getD k 0 → memcmp a b n = some 1 := by
  induction a with
  | nil => intro b n k _ hk; simp at hk
  | cons x a ih =>
    intro b n k hn hka hkb hne
    cases b with
    | nil => simp at hkb
    | cons y b =>
      cases n with
      | zero => omega
      | succ n =>
        simp only [memcmp]
        by_cases hxy : x = y
        · rw [if_pos hxy]
          cases k with
          | zero => simp [hxy] at hne
          | succ k =>
            exact ih b n k (by omega) (by simpa using hka) (by simpa using hkb)
              (by simpa using hne)
        · rw [if_neg hxy]

theorem storeBytes_other (m : Mem) (off : Nat) (l : List Nat) (j : Nat)
    (hj : j < off ∨ off + l.length ≤ j) : storeBytes m off l j = m j := by
  have : ¬ (off ≤ j ∧ j < off + l.length) := by omega
  simp [storeBytes, this]

theorem storeBytes_at (m : Mem) (off : Nat) (l : List Nat) (k : Nat) (hk : k < l.length) :
    storeBytes m off l (off + k) = l.getD k 0 := by
  have : off ≤ off + k ∧ off + k < off + l.length := by omega
  simp [storeBytes, this]

theorem storeBytes_bytes (m : Mem) (off : Nat) (l : List Nat) :
    Mem.bytes (storeBytes m off l) off l.length = l := by
  apply List.ext_getElem?
  intro i
  by_cases hi : i < l.length
  · simp only [Mem.bytes, List.getElem?_map, List.getElem?_range hi, Option.map_some',
      storeBytes_at m off l i hi]
    rw [List.getD_eq_getElem?_getD, List.getElem?_eq_getElem hi]
    rfl
  · rw [List.getElem?_eq_none (by simp [Mem.bytes]; omega), List.getElem?_eq_none (by omega)]

theorem memcpy_bytes (dst : Mem) (doff : Nat) (src : List Nat) (n : Nat) (h : n ≤ src.length) :
    ∃ m, memcpy dst doff src n = some m ∧ Mem.bytes m doff n = src.take n ∧
      ∀ j, j < doff → m j = dst j := by
  refine ⟨_, by simp only [memcpy]; rw [if_neg (by omega)], ?_, ?_⟩
  · have h1 := storeBytes_bytes dst doff (src.take n)
    rw [List.length_take, Nat.min_eq_left h] at h1
    exact h1
  · intro j hj
    exact storeBytes_other _ _ _ _ (Or.inl hj)

theorem encodeECCPublicKey_point_ok (pCardData : CARD_DATA) (key : p11Object_t) (out : BlobOut)
    (point : p11Attribute_t) (buf : Mem)
    (hpoint : findAttribute key CKA_EC_POINT = some point) (hlen : 67 ≤ point.pValue.length)
    (halloc : pCardData.pfnCspAlloc (sizeof_BCRYPT_ECCKEY_BLOB + 64) = some buf) :
    ∃ blob, encodeECCPublicKey_point pCardData key out = some (SCARD_S_SUCCESS,
        { pblob := some blob, pbloblen := sizeof_BCRYPT_ECCKEY_BLOB + 64 }) ∧
      loadLE blob 0 4 = BCRYPT_ECDH_PUBLIC_P256_MAGIC ∧ loadLE blob 4 4 = 32 ∧
      Mem.bytes blob sizeof_BCRYPT_ECCKEY_BLOB 64 = (point.pValue.drop 3).take 64 := by
  obtain ⟨m, hm, hbytes, hhead⟩ := memcpy_bytes
    (storeLE (storeLE buf 0 4 BCRYPT_ECDH_PUBLIC_P256_MAGIC) 4 4 0x20) sizeof_BCRYPT_ECCKEY_BLOB
    (point.pValue.drop 3) 0x40 (by simp; omega)
  refine ⟨m, ?_, ?_, ?_, hbytes⟩
  · simp only [encodeECCPublicKey_point, hpoint, halloc, hm]
  · rw [loadLE_congr 4 m _ 0 (fun j _ h2 => hhead j (by simp only [sizeof_BCRYPT_ECCKEY_BLOB]; omega))]
    simp [loadLE, storeLE, store, BCRYPT_ECDH_PUBLIC_P256_MAGIC]
  · rw [loadLE_congr 4 m _ 4 (fun j _ h2 => hhead j (by simp only [sizeof_BCRYPT_ECCKEY_BLOB]; omega))]
    simp [loadLE, storeLE, store]

theorem encodeECCPublicKey_accepts (pCardData : CARD_DATA) (key : p11Object_t) (out : BlobOut)
    (curve : p11Attribute_t) (hcurve : findAttribute key CKA_EC_PARAMS = some curve)
    (hoid : curve.pValue.take 10 = primeP256r1) :
    encodeECCPublicKey pCardData key out = encodeECCPublicKey_point pCardData key out := by
  have h := memcmp_take primeP256r1 curve.pValue hoid
  simp only [encodeECCPublicKey, hcurve, h]
  simp

/-- C5 (amended): EC blob, success case. For a public key whose curve
parameter is the 10-byte P-256 OID and whose point attribute has 67 bytes:
when the host allocator returns a buffer, `encodeECCPublicKey` returns
Success with a blob of `sizeof(BCRYPT_ECCKEY_BLOB) + 64` bytes, magic
`BCRYPT_ECDH_PUBLIC_P256_MAGIC`, `cbKey = 32`, followed by bytes 3..66 of the
point; when the allocator returns null it returns NoMemory. -/
theorem encodeECCPublicKey_p256_blob (pCardData : CARD_DATA) (key : p11Object_t) (out : BlobOut)
    (curve point : p11Attribute_t)
    (hcurve : findAttribute key CKA_EC_PARAMS = some curve) (hoid : curve.pValue = primeP256r1)
    (hpoint : findAttribute key CKA_EC_POINT = some point) (hlen : point.pValue.length = 67) :
    (∀ buf : Mem, pCardData.pfnCspAlloc (sizeof_BCRYPT_ECCKEY_BLOB + 64) = some buf →
      ∃ blob, encodeECCPublicKey pCardData key out = some (SCARD_S_SUCCESS,
          { pblob := some blob, pbloblen := sizeof_BCRYPT_ECCKEY_BLOB + 64 }) ∧
        loadLE blob 0 4 = BCRYPT_ECDH_PUBLIC_P256_MAGIC ∧ loadLE blob 4 4 = 32 ∧
        Mem.bytes blob sizeof_BCRYPT_ECCKEY_BLOB 64 = point.pValue.drop 3) ∧
    (pCardData.pfnCspAlloc (sizeof_BCRYPT_ECCKEY_BLOB + 64) = none →
      encodeECCPublicKey pCardData key out = some (SCARD_E_NO_MEMORY,
        { pblob := none, pbloblen := sizeof_BCRYPT_ECCKEY_BLOB + 64 })) := by
  have hacc := encodeECCPublicKey_accepts pCardData key out curve hcurve
    (by rw [hoid]; rfl)
  constructor
  · intro buf halloc
    obtain ⟨blob, h1, h2, h3, h4⟩ :=
      encodeECCPublicKey_point_ok pCardData key out point buf hpoint (by omega) halloc
    refine ⟨blob, by rw [hacc, h1], h2, h3, ?_⟩
    rw [h4, List.take_of_length_le (by simp; omega)]
  · intro halloc
    rw [hacc]
    simp only [encodeECCPublicKey_point, hpoint, halloc]

/-- C5 (counterexample): a key with the P-256 OID and a 67-byte point, on a
host whose allocator returns null: the result is NoMemory, not Success. -/
theorem encodeECCPublicKey_p256_no_memory :
    encodeECCPublicKey nullHost
        (ecPublicKey primeP256r1 (0x04 :: 0x41 :: 0x04 :: List.replicate 64 7))
        { pblob := none, pbloblen := 0 }
      = some (SCARD_E_NO_MEMORY, { pblob := none, pbloblen := 72 }) := by
  rfl

/-- C6 (amended): the curve check compares the first 10 bytes. A key whose
curve parameter differs from the P-256 OID at a position below 10 that the
value has is rejected with `SCARD_E_UNEXPECTED` and both outputs are left as
they were; a value whose first 10 bytes are the P-256 OID passes the check
whatever follows them, and the call goes on as for the OID itself. -/
theorem encodeECCPublicKey_curve_check (pCardData : CARD_DATA) (key : p11Object_t)
    (out : BlobOut) (curve : p11Attribute_t)
    (hcurve : findAttribute key CKA_EC_PARAMS = some curve) :
    ((∃ k, k < 10 ∧ k < curve.pValue.length ∧ curve.pValue.getD k 0 ≠ primeP256r1.getD k 0) →
      encodeECCPublicKey pCardData key out = some (SCARD_E_UNEXPECTED, out)) ∧
    (curve.pValue.take 10 = primeP256r1 →
      encodeECCPublicKey pCardData key out = encodeECCPublicKey_point pCardData key out) := by
  constructor
  · rintro ⟨k, hk, hkl, hne⟩
    have h := memcmp_diff primeP256r1 curve.pValue primeP256r1.length k hk hk hkl (Ne.symm hne)
    simp only [encodeECCPublicKey, hcurve, h]
    simp
  · exact encodeECCPublicKey_accepts pCardData key out curve hcurve

/-- C6 (counterexample): a curve parameter of 11 bytes, the P-256 OID
followed by a zero byte, is accepted: Success, a blob and the length 72 are
returned. -/
theorem encodeECCPublicKey_accepts_longer_curve :
    (encodeECCPublicKey zeroHost
        (ecPublicKey (primeP256r1 ++ [0]) (0x04 :: 0x41 :: 0x04 :: List.replicate 64 7))
        { pblob := none, pbloblen := 0 }).map
      (fun r => (r.1, r.2.pblob.isSome, r.2.pbloblen)) = some (SCARD_S_SUCCESS, true, 72) := by
  rfl

/-- C7 (amended): the layout of the point attribute is not examined. For a
key whose curve parameter starts with the P-256 OID: without a point
attribute the call fails with `SCARD_E_UNEXPECTED` and leaves the outputs;
with a point attribute of at least 67 bytes, whatever its first three bytes
and whatever its length, the call returns NoMemory when the allocator
returns null and otherwise Success with bytes 3..66 of the value as the 64
coordinate bytes. -/
theorem encodeECCPublicKey_point_layout (pCardData : CARD_DATA) (key : p11Object_t)
    (out : BlobOut) (curve : p11Attribute_t)
    (hcurve : findAttribute key CKA_EC_PARAMS = some curve)
    (hoid : curve.pValue.take 10 = primeP256r1) :
    (findAttribute key CKA_EC_POINT = none →
      encodeECCPublicKey pCardData key out = some (SCARD_E_UNEXPECTED, out)) ∧
    (∀ point : p11Attribute_t, findAttribute key CKA_EC_POINT = some point →
      67 ≤ point.pValue.length →
      (pCardData.pfnCspAlloc (sizeof_BCRYPT_ECCKEY_BLOB + 64) = none →
        encodeECCPublicKey pCardData key out = some (SCARD_E_NO_MEMORY,
          { pblob := none, pbloblen := sizeof_BCRYPT_ECCKEY_BLOB + 64 })) ∧
      (∀ buf : Mem, pCardData.pfnCspAlloc (sizeof_BCRYPT_ECCKEY_BLOB + 64) = some buf →
        ∃ blob, encodeECCPublicKey pCardData key out = some (SCARD_S_SUCCESS,
            { pblob := some blob, pbloblen := sizeof_BCRYPT_ECCKEY_BLOB + 64 }) ∧
          Mem.bytes blob sizeof_BCRYPT_ECCKEY_BLOB 64 = (point.pValue.drop 3).take 64)) := by
  have hacc := encodeECCPublicKey_accepts pCardData key out curve hcurve hoid
  refine ⟨?_, ?_⟩
  · intro hnone
    rw [hacc]
    simp only [encodeECCPublicKey_point, hnone]
  · intro point hpoint hlen
    refine ⟨?_, ?_⟩
    · intro halloc
      rw [hacc]
      simp only [encodeECCPublicKey_point, hpoint, halloc]
    · intro buf halloc
      obtain ⟨blob, h1, _, _, h4⟩ :=
        encodeECCPublicKey_point_ok pCardData key out point buf hpoint hlen halloc
      exact ⟨blob, by rw [hacc, h1], h4⟩

/-- C7 (counterexample): a point attribute of 70 bytes that starts with
`00 00 00` instead of `04 41 04` is not rejected: Success, a blob and the
length 72 are returned. -/
theorem encodeECCPublicKey_accepts_malformed_point :
    (encodeECCPublicKey zeroHost (ecPublicKey primeP256r1 (List.replicate 70 0))
        { pblob := none, pbloblen := 0 }).map
      (fun r => (r.1, r.2.pblob.isSome, r.2.pbloblen)) = some (SCARD_S_SUCCESS, true, 72) := by
  rfl

theorem enumerate_cursor (token : p11Token_t) (i : Nat) :
    enumerateTokenPrivateObjects token (cursor i)
      = if i < token.tokenPrivObjList.length then some i else none := by
  cases i with
  | zero => simp [cursor, enumerateTokenPrivateObjects]
  | succ i => simp [cursor, enumerateTokenPrivateObjects]

theorem cursor_succ (i : Nat) : some i = cursor (i + 1) := by simp [cursor]

theorem getNumberOfContainers_loop_eq (token : p11Token_t)
    (hN : token.tokenPrivObjList.length < 2 ^ 31) : ∀ (fuel i : Nat),
    i ≤ token.tokenPrivObjList.length → token.tokenPrivObjList.length - i < fuel →
    getNumberOfContainers_loop token fuel (cursor i) i = some token.tokenPrivObjList.length := by
  intro fuel
  induction fuel with
  | zero => intro i _ h; omega
  | succ fuel ih =>
    intro i hi hfuel
    simp only [getNumberOfContainers_loop, enumerate_cursor]
    by_cases hlt : i < token.tokenPrivObjList.length
    · simp only [hlt, if_true]
      rw [if_pos (by omega), cursor_succ]
      exact ih (i + 1) (by omega) (by omega)
    · simp only [hlt, if_false]
      congr 1
      omega

theorem getNumberOfContainers_eq (pCardData : CARD_DATA)
    (hN : pCardData.token.tokenPrivObjList.length < 2 ^ 31) :
    getNumberOfContainers pCardData = some pCardData.token.tokenPrivObjList.length := by
  have h := getNumberOfContainers_loop_eq pCardData.token hN
    (pCardData.token.tokenPrivObjList.length + 1) 0 (by omega) (by omega)
  simpa [getNumberOfContainers, cursor] using h

theorem getKeyForIndex_loop_eq (token : p11Token_t) : ∀ (k i : Nat),
    i + k ≤ token.tokenPrivObjList.length →
    getKeyForIndex_loop token k (cursor i) = cursor (i + k) := by
  intro k
  induction k with
  | zero => intro i _; rfl
  | succ k ih =>
    intro i h
    have hlt : i < token.tokenPrivObjList.length := by omega
    simp only [getKeyForIndex_loop, enumerate_cursor, if_pos hlt]
    rw [cursor_succ i, ih (i + 1) (by omega)]
    congr 1
    omega

theorem getKeyForIndex_eq (pCardData : CARD_DATA) (i : Nat)
    (hi : i < pCardData.token.tokenPrivObjList.length) :
    getKeyForIndex pCardData (i : Int) = some i := by
  have h := getKeyForIndex_loop_eq pCardData.token (i + 1) 0 (by omega)
  have h2 : ((i : Int) + 1).toNat = i + 1 := by omega
  simp only [getKeyForIndex, h2]
  rw [show (none : Option Nat) = cursor 0 from rfl, h]
  simp [cursor]

theorem bcddigit_ne_zero (x : Nat) : bcddigit x ≠ 0 := by
  unfold bcddigit; split <;> omega

theorem strlen_eq (s : Mem) : ∀ (n size pos : Nat), n < size → (∀ j, j < n → s (pos + j) ≠ 0) →
    s (pos + n) = 0 → strlen s size pos = some n := by
  intro n
  induction n with
  | zero =>
    intro size pos hsize _ hz
    cases size with
    | zero => omega
    | succ size => simp only [strlen]; rw [if_pos (by simpa using hz)]
  | succ n ih =>
    intro size pos hsize hnz hz
    cases size with
    | zero => omega
    | succ size =>
      simp only [strlen]
      rw [if_neg (by simpa using hnz 0 (by omega))]
      rw [ih size (pos + 1) (by omega)
        (fun j hj => by have := hnz (j + 1) (by omega); rwa [show pos + 1 + j = pos + (j + 1) by omega])
        (by rwa [show pos + 1 + n = pos + (n + 1) by omega])]
      rfl

theorem GUIDtoString_ne_zero (g : List Nat) (buf : Mem) (j : Nat) (hj : j < 36) :
    GUIDtoString g buf j ≠ 0 := by
  interval_cases j <;> simp [GUIDtoString, decodeBCDString, store, bcddigit_ne_zero]

theorem strlen_GUIDtoString (g : List Nat) (buf : Mem) :
    strlen (GUIDtoString g buf) (MAX_CONTAINER_NAME_LEN + 1) 0 = some 36 := by
  apply strlen_eq _ 36 _ 0 (by simp [MAX_CONTAINER_NAME_LEN])
  · intro j hj
    rw [Nat.zero_add]
    exact GUIDtoString_ne_zero g buf j hj
  · exact GUIDtoString_nul g buf

theorem encodeGUID_eq (pCardData : CARD_DATA) (obj : p11Object_t) (cont : CONTAINER_MAP_RECORD)
    (attr : p11Attribute_t) (hattr : findAttribute obj CKA_ID = some attr) :
    encodeGUID pCardData obj cont = some { cont with
      wszGuid := GUIDchars (encodeGUID_id pCardData.token.serialNumber attr.pValue) (fun _ => 0)
        ++ [0] ++ cont.wszGuid.drop 37 } := by
  have h := strlen_GUIDtoString (encodeGUID_id pCardData.token.serialNumber attr.pValue)
    (fun _ => 0)
  simp only [MAX_CONTAINER_NAME_LEN] at h
  simp only [encodeGUID, hattr, MAX_CONTAINER_NAME_LEN, h, mbstowcs_s]
  rw [if_neg (by omega)]
  rfl

theorem encodeCMapFile_record_eq (pCardData : CARD_DATA) (i : Nat) (obj : p11Object_t)
    (cont : CONTAINER_MAP_RECORD) (attr : p11Attribute_t)
    (hattr : findAttribute obj CKA_ID = some attr) :
    encodeCMapFile_record pCardData i obj cont = some
      { wszGuid := GUIDchars (encodeGUID_id pCardData.token.serialNumber attr.pValue) (fun _ => 0)
          ++ [0] ++ cont.wszGuid.drop 37,
        bFlags := if i = 0 then CONTAINER_MAP_VALID_CONTAINER ||| CONTAINER_MAP_DEFAULT_CONTAINER
          else CONTAINER_MAP_VALID_CONTAINER,
        bReserved := cont.bReserved,
        wSigKeySizeBits := 0,
        wKeyExchangeKeySizeBits := (obj.keysize % 2 ^ 16).toNat } := by
  simp only [encodeCMapFile_record, encodeGUID_eq pCardData obj cont attr hattr]
  by_cases hi : i = 0 <;> simp [hi]

theorem encodeCMapFile_loop_spec (pCardData : CARD_DATA)
    (hid : ∀ o ∈ pCardData.token.tokenPrivObjList, findAttribute o CKA_ID ≠ none) :
    ∀ (k i : Nat) (cont : List CONTAINER_MAP_RECORD),
    i + k ≤ pCardData.token.tokenPrivObjList.length → i + k ≤ cont.length →
    ∃ res, encodeCMapFile_loop pCardData k i (cursor i) cont = some res ∧
      res.length = cont.length ∧
      (∀ j, (j < i ∨ i + k ≤ j) → res[j]? = cont[j]?) ∧
      (∀ j, i ≤ j → j < i + k → ∃ obj old,
        pCardData.token.tokenPrivObjList[j]? = some obj ∧ cont[j]? = some old ∧
        res[j]? = encodeCMapFile_record pCardData j obj old ∧ res[j]? ≠ none) := by
  intro k
  induction k with
  | zero =>
    intro i cont _ _
    exact ⟨cont, rfl, rfl, fun _ _ => rfl, fun j h1 h2 => by omega⟩
  | succ k ih =>
    intro i cont hN hC
    have hiN : i < pCardData.token.tokenPrivObjList.length := by omega
    have hiC : i < cont.length := by omega
    have hob : pCardData.token.tokenPrivObjList[i]? = some pCardData.token.tokenPrivObjList[i] :=
      List.getElem?_eq_getElem hiN
    have hc : cont[i]? = some cont[i] := List.getElem?_eq_getElem hiC
    obtain ⟨attr, hattr⟩ := Option.ne_none_iff_exists'.mp
      (hid pCardData.token.tokenPrivObjList[i] (List.getElem_mem hiN))
    obtain ⟨c1, hrec⟩ : ∃ c1, encodeCMapFile_record pCardData i
        pCardData.token.tokenPrivObjList[i] cont[i] = some c1 :=
      ⟨_, encodeCMapFile_record_eq pCardData i pCardData.token.tokenPrivObjList[i] cont[i]
        attr hattr⟩
    obtain ⟨res, hres, hlen, hout, hin⟩ := ih (i + 1) (cont.set i c1) (by omega)
      (by rw [List.length_set]; omega)
    refine ⟨res, ?_, ?_, ?_, ?_⟩
    · simp only [encodeCMapFile_loop, enumerate_cursor, if_pos hiN, hob, hc, hrec]
      rw [cursor_succ i]
      exact hres
    · rw [hlen, List.length_set]
    · intro j hj
      rw [hout j (by omega), List.getElem?_set_ne (by omega)]
    · intro j hj1 hj2
      by_cases hji : j = i
      · subst hji
        refine ⟨_, _, hob, hc, ?_, ?_⟩
        · rw [hout j (by omega), List.getElem?_set_self hiC, hrec]
        · rw [hout j (by omega), List.getElem?_set_self hiC]
          simp
      · obtain ⟨obj, old, h1, h2, h3, h4⟩ := hin j (by omega) (by omega)
        rw [List.getElem?_set_ne (by omega)] at h2
        exact ⟨obj, old, h1, h2, h3, h4⟩

theorem encodeCMapFile_spec (pCardData : CARD_DATA) (cont : List CONTAINER_MAP_RECORD)
    (hcont : cont.length = pCardData.token.tokenPrivObjList.length)
    (hid : ∀ o ∈ pCardData.token.tokenPrivObjList, findAttribute o CKA_ID ≠ none) :
    ∃ recs, encodeCMapFile pCardData cont (pCardData.token.tokenPrivObjList.length : Int)
        = some (SCARD_S_SUCCESS, recs) ∧ recs.length = cont.length ∧
      ∀ j, j < pCardData.token.tokenPrivObjList.length → ∃ obj attr old,
        pCardData.token.tokenPrivObjList[j]? = some obj ∧
        findAttribute obj CKA_ID = some attr ∧ cont[j]? = some old ∧
        recs[j]? = some
          { wszGuid := GUIDchars (encodeGUID_id pCardData.token.serialNumber attr.pValue)
              (fun _ => 0) ++ [0] ++ old.wszGuid.drop 37,
            bFlags := if j = 0 then CONTAINER_MAP_VALID_CONTAINER ||| CONTAINER_MAP_DEFAULT_CONTAINER
              else CONTAINER_MAP_VALID_CONTAINER,
            bReserved := old.bReserved,
            wSigKeySizeBits := 0,
            wKeyExchangeKeySizeBits := (obj.keysize % 2 ^ 16).toNat } := by
  obtain ⟨res, hres, hlen, _, hin⟩ := encodeCMapFile_loop_spec pCardData hid
    pCardData.token.tokenPrivObjList.length 0 cont (by omega) (by omega)
  refine ⟨res, ?_, hlen, ?_⟩
  · have h0 : (none : Option Nat) = cursor 0 := rfl
    simp only [encodeCMapFile, Int.toNat_ofNat, h0, hres, Option.map_some']
  · intro j hj
    obtain ⟨obj, old, h1, h2, h3, _⟩ := hin j (by omega) (by omega)
    obtain ⟨attr, hattr⟩ := Option.ne_none_iff_exists'.mp
      (hid obj (List.getElem?_mem h1))
    exact ⟨obj, attr, old, h1, hattr, h2, by
      rw [h3, encodeCMapFile_record_eq pCardData j obj old attr hattr]⟩

/-- C9 (amended): flags of the container map. For a token with `n >= 1`
private keys, each with an identifier, `encodeCMapFile` called with `n` on a
buffer of `n` records, as `CardReadFile` passes it, returns Success; record 0
has `bFlags = VALID | DEFAULT` (bits 0 and 1 set) and every record `i` with
`1 <= i < n` has `bFlags = VALID` (bit 0 set, bit 1 clear). -/
theorem encodeCMapFile_flags (pCardData : CARD_DATA) (cont : List CONTAINER_MAP_RECORD)
    (hn : 1 ≤ pCardData.token.tokenPrivObjList.length)
    (hcont : cont.length = pCardData.token.tokenPrivObjList.length)
    (hid : ∀ o ∈ pCardData.token.tokenPrivObjList, findAttribute o CKA_ID ≠ none) :
    ∃ recs, encodeCMapFile pCardData cont (pCardData.token.tokenPrivObjList.length : Int)
        = some (SCARD_S_SUCCESS, recs) ∧
      recs.length = pCardData.token.tokenPrivObjList.length ∧
      (∃ r0, recs[0]? = some r0 ∧
        r0.bFlags = CONTAINER_MAP_VALID_CONTAINER ||| CONTAINER_MAP_DEFAULT_CONTAINER ∧
        r0.bFlags.testBit 0 = true ∧ r0.bFlags.testBit 1 = true) ∧
      (∀ i, 1 ≤ i → i < pCardData.token.tokenPrivObjList.length →
        ∃ r, recs[i]? = some r ∧ r.bFlags = CONTAINER_MAP_VALID_CONTAINER ∧
          r.bFlags.testBit 0 = true ∧ r.bFlags.testBit 1 = false) := by
  obtain ⟨recs, hrecs, hlen, hall⟩ := encodeCMapFile_spec pCardData cont hcont hid
  refine ⟨recs, hrecs, by rw [hlen, hcont], ?_, ?_⟩
  · obtain ⟨obj, attr, old, _, _, _, h⟩ := hall 0 (by omega)
    have hv : (if 0 = 0 then CONTAINER_MAP_VALID_CONTAINER ||| CONTAINER_MAP_DEFAULT_CONTAINER
        else CONTAINER_MAP_VALID_CONTAINER) = 3 := rfl
    rw [hv] at h
    exact ⟨_, h, rfl, (by decide : Nat.testBit 3 0 = true), (by decide : Nat.testBit 3 1 = true)⟩
  · intro i hi1 hi2
    obtain ⟨obj, attr, old, _, _, _, h⟩ := hall i hi2
    have hne : ¬ i = 0 := by omega
    rw [if_neg hne, show CONTAINER_MAP_VALID_CONTAINER = 1 from rfl] at h
    exact ⟨_, h, rfl, (by decide : Nat.testBit 1 0 = true), (by decide : Nat.testBit 1 1 = false)⟩

/-- C9 (counterexample): on a token whose only private key has no `CKA_ID`,
`encodeGUID` reads the attribute pointer that `findAttribute` left unset, so
`encodeCMapFile` has no defined result and no record 0 with its flags exists;
neither has `CardReadFile` for `cmapfile`. -/
theorem encodeCMapFile_key_without_identifier :
    (hostWith sampleSerial [bareKey]).token.tokenPrivObjList.length = 1 ∧
    (findAttribute bareKey CKA_ID).isNone = true ∧
    (encodeGUID (hostWith sampleSerial [bareKey]) bareKey
      (recordAt (fun _ => 0) 0)).isNone = true ∧
    (encodeCMapFile (hostWith sampleSerial [bareKey]) (recordsOf (fun _ => 0) 1) 1).isNone
      = true ∧
    (CardReadFile (some (hostWith sampleSerial [bareKey])) (some szBASE_CSP_DIR)
      (some szCONTAINER_MAP_FILE) 0 (some none) (some 0)).isNone = true := by
  decide

/-- C10 (amended): content and order of the container map. For a token with
`n` private keys, each with an identifier, and every `i < n`: record `i`
written by `encodeCMapFile` belongs to the `i`-th private key of the
enumeration, the object `getKeyForIndex(i)` returns; it carries the GUID
string `encodeGUID` derives for that key, the 36 characters that
`GUIDtoString` makes of the raw GUID followed by NUL; `wSigKeySizeBits = 0`;
and `wKeyExchangeKeySizeBits` is the key size reduced modulo `2 ^ 16`, which
is the key size itself when it lies in `0 .. 65535`. -/
theorem encodeCMapFile_record_content (pCardData : CARD_DATA) (cont : List CONTAINER_MAP_RECORD)
    (hcont : cont.length = pCardData.token.tokenPrivObjList.length)
    (hid : ∀ o ∈ pCardData.token.tokenPrivObjList, findAttribute o CKA_ID ≠ none) :
    ∃ recs, encodeCMapFile pCardData cont (pCardData.token.tokenPrivObjList.length : Int)
        = some (SCARD_S_SUCCESS, recs) ∧
      ∀ i, i < pCardData.token.tokenPrivObjList.length → ∃ obj attr old r g,
        getKeyForIndex pCardData (i : Int) = some i ∧
        pCardData.token.tokenPrivObjList[i]? = some obj ∧
        findAttribute obj CKA_ID = some attr ∧
        cont[i]? = some old ∧ recs[i]? = some r ∧
        encodeGUID pCardData obj old = some g ∧ r.wszGuid = g.wszGuid ∧
        r.wszGuid.take 37 =
          GUIDchars (encodeGUID_id pCardData.token.serialNumber attr.pValue) (fun _ => 0) ++ [0] ∧
        r.wSigKeySizeBits = 0 ∧
        r.wKeyExchangeKeySizeBits = (obj.keysize % 2 ^ 16).toNat ∧
        (0 ≤ obj.keysize → obj.keysize < 2 ^ 16 →
          (r.wKeyExchangeKeySizeBits : Int) = obj.keysize) := by
  obtain ⟨recs, hrecs, _, hall⟩ := encodeCMapFile_spec pCardData cont hcont hid
  refine ⟨recs, hrecs, ?_⟩
  intro i hi
  obtain ⟨obj, attr, old, h1, h2, h3, h4⟩ := hall i hi
  refine ⟨obj, attr, old, _, _, getKeyForIndex_eq pCardData i hi, h1, h2, h3, h4,
    encodeGUID_eq pCardData obj old attr h2, rfl, ?_, rfl, rfl, ?_⟩
  · have hl : (GUIDchars (encodeGUID_id pCardData.token.serialNumber attr.pValue)
        (fun _ => 0) ++ [0]).length = 37 := by simp [GUIDchars, Mem.bytes]
    simp only []
    rw [List.take_append_of_le_length (by omega), List.take_of_length_le (by omega)]
  · intro h0 h16
    simp only []
    omega

/-- C10 (counterexample): a private key whose key size is 65536 gets
`wKeyExchangeKeySizeBits = 0` in its record, not 65536. -/
theorem encodeCMapFile_keysize_truncated :
    (encodeCMapFile (hostWith (List.replicate 16 0x30) [privateKey [1, 2, 3, 4] 65536])
        (recordsOf (fun _ => 0) 1) 1).map
      (fun r => (r.1, r.2.map (fun c => c.wKeyExchangeKeySizeBits)))
      = some (SCARD_S_SUCCESS, [0]) := by
  decide

theorem fmt_02i_two_digits : ∀ i, i < 100 → fmt_02i i = [48 + i / 10, 48 + i % 10] := by
  decide

theorem sprintf_s_kxc_fits (buf : Mem) (po i : Nat) (hi : i < 100) :
    sprintf_s_kxc buf po 6 i = some (storeBytes buf po (kxcName i ++ [0])) := by
  simp [sprintf_s_kxc, fmt_02i_two_digits i hi, kxcName]

theorem Mem.bytes_append (m : Mem) (off a b : Nat) :
    Mem.bytes m off (a + b) = Mem.bytes m off a ++ Mem.bytes m (off + a) b := by
  simp only [Mem.bytes, List.range_add, List.map_append, List.map_map]
  congr 1
  apply List.map_congr_left
  intro x _
  simp [Nat.add_assoc]

theorem Mem.bytes_congr (m1 m2 : Mem) (off n : Nat) (h : ∀ j, off ≤ j → j < off + n → m1 j = m2 j) :
    Mem.bytes m1 off n = Mem.bytes m2 off n := by
  apply List.map_congr_left
  intro x hx
  exact h _ (by omega) (by have := List.mem_range.mp hx; omega)

theorem CardEnumFiles_loop_spec : ∀ (k i po : Nat) (buf : Mem), i + k ≤ 100 →
    ∃ buf2, CardEnumFiles_loop k i po buf = some (buf2, po + 6 * k) ∧
      (∀ j, j < po → buf2 j = buf j) ∧
      Mem.bytes buf2 po (6 * k) = (List.range k).flatMap (fun t => kxcName (i + t) ++ [0]) := by
  intro k
  induction k with
  | zero =>
    intro i po buf _
    exact ⟨buf, rfl, fun _ _ => rfl, rfl⟩
  | succ k ih =>
    intro i po buf hik
    obtain ⟨buf2, h1, h2, h3⟩ := ih (i + 1) (po + 6) (storeBytes buf po (kxcName i ++ [0]))
      (by omega)
    refine ⟨buf2, ?_, ?_, ?_⟩
    · simp only [CardEnumFiles_loop, sprintf_s_kxc_fits buf po i (by omega), h1]
      rw [show po + 6 + 6 * k = po + 6 * (k + 1) by omega]
    · intro j hj
      rw [h2 j (by omega), storeBytes_other _ _ _ _ (Or.inl hj)]
    · have hsplit : 6 * (k + 1) = 6 + 6 * k := by omega
      rw [hsplit, Mem.bytes_append, h3, List.range_succ_eq_map, List.flatMap_cons,
        List.flatMap_map]
      congr 1
      · rw [Mem.bytes_congr buf2 (storeBytes buf po (kxcName i ++ [0])) po 6
          (fun j _ hj2 => h2 j hj2)]
        exact storeBytes_bytes buf po (kxcName i ++ [0])
      · apply List.flatMap_congr
        intro t _
        simp only [Function.comp, Nat.succ_eq_add_one]
        congr 2
        omega

theorem parseMultiSz_cons (c : Nat) (rest cur : List Nat) :
    parseMultiSz (c :: rest) cur =
      if c = 0 then (if cur = [] then [] else cur.reverse :: parseMultiSz rest [])
      else parseMultiSz rest (c :: cur) := rfl

theorem parseMultiSz_word (w : List Nat) : ∀ (cur rest : List Nat), (∀ c ∈ w, c ≠ 0) →
    (cur ≠ [] ∨ w ≠ []) →
    parseMultiSz (w ++ 0 :: rest) cur = (cur.reverse ++ w) :: parseMultiSz rest [] := by
  induction w with
  | nil =>
    intro cur rest _ hne
    have hc : cur ≠ [] := by
      rcases hne with h | h
      · exact h
      · exact absurd rfl h
    simp [parseMultiSz_cons, hc]
  | cons c w ih =>
    intro cur rest hnz _
    have hc : c ≠ 0 := hnz c (List.mem_cons_self _ _)
    rw [List.cons_append, parseMultiSz_cons, if_neg hc]
    rw [ih (c :: cur) rest (fun x hx => hnz x (List.mem_cons_of_mem _ hx)) (Or.inl (by simp))]
    simp

theorem parseMultiSz_words (names : List (List Nat))
    (h : ∀ w ∈ names, w ≠ [] ∧ ∀ c ∈ w, c ≠ 0) :
    parseMultiSz (names.flatMap (fun w => w ++ [0]) ++ [0]) [] = names := by
  induction names with
  | nil => simp [parseMultiSz]
  | cons w names ih =>
    have hw := h w (List.mem_cons_self _ _)
    simp only [List.flatMap_cons, List.append_assoc, List.singleton_append, List.cons_append]
    rw [parseMultiSz_word w [] _ hw.2 (Or.inr hw.1)]
    simp only [List.reverse_nil, List.nil_append]
    rw [ih (fun x hx => h x (List.mem_cons_of_mem _ hx))]

theorem kxcName_wellformed (i : Nat) : kxcName i ≠ [] ∧ ∀ c ∈ kxcName i, c ≠ 0 := by
  refine ⟨by simp [kxcName], ?_⟩
  intro c hc
  simp only [kxcName, List.mem_cons, List.mem_singleton, List.not_mem_nil, or_false] at hc
  omega

theorem CardEnumFiles_mscp (behind : Mem) (pCardData : CARD_DATA) (pm : Option Mem) (pc : Nat)
    (buf : Mem) (hN : pCardData.token.tokenPrivObjList.length ≤ 100)
    (halloc : pCardData.pfnCspAlloc (10 + 6 * pCardData.token.tokenPrivObjList.length) = some buf) :
    ∃ m, CardEnumFiles behind (some pCardData) (some szBASE_CSP_DIR) (some pm) (some pc) 0
        = some (SCARD_S_SUCCESS, some (some m),
            some (10 + 6 * pCardData.token.tokenPrivObjList.length)) ∧
      Mem.bytes m 0 (10 + 6 * pCardData.token.tokenPrivObjList.length)
        = (szCONTAINER_MAP_FILE ::
            (List.range pCardData.token.tokenPrivObjList.length).map kxcName).flatMap
              (fun w => w ++ [0]) ++ [0] := by
  have hcnt := getNumberOfContainers_eq pCardData (by omega)
  have hdir : checkFileName szBASE_CSP_DIR = SCARD_S_SUCCESS := by decide
  have hml : mscpFiles.length = 9 := by decide
  have hcb : (9 + pCardData.token.tokenPrivObjList.length * 6 + 1) % 2 ^ 32
      = 10 + 6 * pCardData.token.tokenPrivObjList.length := by omega
  obtain ⟨buf2, h1, h2, h3⟩ := CardEnumFiles_loop_spec pCardData.token.tokenPrivObjList.length 0 9
    (storeBytes buf 0 ((mscpFiles ++ Mem.bytes behind 0
      (10 + 6 * pCardData.token.tokenPrivObjList.length - 9)).take
        (10 + 6 * pCardData.token.tokenPrivObjList.length))) (by omega)
  refine ⟨store buf2 (9 + 6 * pCardData.token.tokenPrivObjList.length) 0, ?_, ?_⟩
  · simp only [CardEnumFiles, hdir, hcnt, hcb, halloc, hml, h1, ne_eq, not_true_eq_false,
      if_false]
  · have hsplit : 10 + 6 * pCardData.token.tokenPrivObjList.length
        = 9 + (6 * pCardData.token.tokenPrivObjList.length + 1) := by omega
    have hA : Mem.bytes (store buf2 (9 + 6 * pCardData.token.tokenPrivObjList.length) 0) 0 9
        = mscpFiles := by
      rw [Mem.bytes_congr _ (storeBytes buf 0 mscpFiles) 0 9 (fun j _ hj => by
        rw [Nat.zero_add] at hj
        have hne : ¬ j = 9 + 6 * pCardData.token.tokenPrivObjList.length := by omega
        simp only [store, hne, if_false]
        rw [h2 j hj]
        have hj2 : 0 ≤ j ∧ j < 0 + mscpFiles.length := by rw [hml]; omega
        have hj3 : 0 ≤ j ∧ j < 0 + (List.take (10 + 6 * pCardData.token.tokenPrivObjList.length)
            (mscpFiles ++ Mem.bytes behind 0
              (10 + 6 * pCardData.token.tokenPrivObjList.length - 9))).length := by
          simp [hml, Mem.bytes]; omega
        simp only [storeBytes, hj2, hj3, if_true, and_self]
        rw [List.getD_eq_getElem?_getD, List.getD_eq_getElem?_getD,
          List.getElem?_take_of_lt (by omega), List.getElem?_append_left (by rw [hml]; omega)])]
      have h := storeBytes_bytes buf 0 mscpFiles
      rwa [hml] at h
    have hB : Mem.bytes (store buf2 (9 + 6 * pCardData.token.tokenPrivObjList.length) 0) 9
        (6 * pCardData.token.tokenPrivObjList.length)
        = (List.range pCardData.token.tokenPrivObjList.length).flatMap
            (fun t => kxcName (0 + t) ++ [0]) := by
      rw [Mem.bytes_congr _ buf2 9 _ (fun j _ hj => by
        have hne : ¬ j = 9 + 6 * pCardData.token.tokenPrivObjList.length := by omega
        simp only [store, hne, if_false])]
      exact h3
    have hC : Mem.bytes (store buf2 (9 + 6 * pCardData.token.tokenPrivObjList.length) 0)
        (9 + 6 * pCardData.token.tokenPrivObjList.length) 1 = [0] := by
      simp [Mem.bytes, store, List.range_succ]
    rw [hsplit, Mem.bytes_append, Mem.bytes_append]
    simp only [Nat.zero_add]
    rw [hA, hB, hC]
    simp [mscpFiles, szCONTAINER_MAP_FILE, List.flatMap_map]

theorem recordsOf_length (m : Mem) (n : Nat) : (recordsOf m n).length = n := by
  simp [recordsOf]

theorem CardReadFile_cmapfile (pCardData : CARD_DATA) (pb : Option FileData) (cb : Nat) (buf : Mem)
    (hN : pCardData.token.tokenPrivObjList.length ≤ 100)
    (hid : ∀ o ∈ pCardData.token.tokenPrivObjList, findAttribute o CKA_ID ≠ none)
    (halloc : pCardData.pfnCspAlloc
      (pCardData.token.tokenPrivObjList.length * sizeof_CONTAINER_MAP_RECORD) = some buf) :
    ∃ recs, CardReadFile (some pCardData) (some szBASE_CSP_DIR) (some szCONTAINER_MAP_FILE) 0
        (some pb) (some cb)
        = some (SCARD_S_SUCCESS, some (some (FileData.records recs)),
            some (pCardData.token.tokenPrivObjList.length * sizeof_CONTAINER_MAP_RECORD)) ∧
      encodeCMapFile pCardData (recordsOf buf pCardData.token.tokenPrivObjList.length)
        (pCardData.token.tokenPrivObjList.length : Int) = some (SCARD_S_SUCCESS, recs) ∧
      recs.length = pCardData.token.tokenPrivObjList.length := by
  have hcnt := getNumberOfContainers_eq pCardData (by omega)
  have hdir : checkFileName szBASE_CSP_DIR = SCARD_S_SUCCESS := by decide
  have hname : checkFileName szCONTAINER_MAP_FILE = SCARD_S_SUCCESS := by decide
  have hne : ¬ szCONTAINER_MAP_FILE = [] := by decide
  have hsz : sizeof_CONTAINER_MAP_RECORD = 86 := by decide
  have hcb : (pCardData.token.tokenPrivObjList.length * sizeof_CONTAINER_MAP_RECORD) % 2 ^ 32
      = pCardData.token.tokenPrivObjList.length * sizeof_CONTAINER_MAP_RECORD := by
    rw [hsz]; omega
  have hdiv : pCardData.token.tokenPrivObjList.length * sizeof_CONTAINER_MAP_RECORD
      / sizeof_CONTAINER_MAP_RECORD = pCardData.token.tokenPrivObjList.length := by
    rw [hsz]; omega
  obtain ⟨recs, hrecs, hlen, _⟩ := encodeCMapFile_spec pCardData
    (recordsOf buf pCardData.token.tokenPrivObjList.length) (recordsOf_length _ _) hid
  refine ⟨recs, ?_, hrecs, by rw [hlen, recordsOf_length]⟩
  simp only [CardReadFile, hdir, hname, hne, hcnt, hcb, hdiv, halloc, hrecs, ne_eq,
    not_true_eq_false, if_false, if_true, Option.map_some']

/-- C8 (amended): container count consistency for a token with `n <= 100`
private keys, each with an identifier, on a host whose allocator returns a
buffer. `getNumberOfContainers` returns `n`; `CardEnumFiles` for `"mscp"`
returns Success and a multi-string of `10 + 6 * n` bytes whose entries are
`cmapfile` followed by the `n` names `kxc00`, `kxc01`, ...; and `CardReadFile`
for `"mscp"`/`"cmapfile"` returns Success, `n` records and the byte length
`n * sizeof(CONTAINER_MAP_RECORD)`. -/
theorem container_count_consistency (behind : Mem) (pCardData : CARD_DATA)
    (pm : Option Mem) (pc : Nat) (pb : Option FileData) (cb : Nat)
    (hN : pCardData.token.tokenPrivObjList.length ≤ 100)
    (hid : ∀ o ∈ pCardData.token.tokenPrivObjList, findAttribute o CKA_ID ≠ none)
    (halloc : ∀ size, pCardData.pfnCspAlloc size ≠ none) :
    getNumberOfContainers pCardData = some pCardData.token.tokenPrivObjList.length ∧
    (∃ m, CardEnumFiles behind (some pCardData) (some szBASE_CSP_DIR) (some pm) (some pc) 0
        = some (SCARD_S_SUCCESS, some (some m),
            some (10 + 6 * pCardData.token.tokenPrivObjList.length)) ∧
      parseMultiSz (Mem.bytes m 0 (10 + 6 * pCardData.token.tokenPrivObjList.length)) []
        = szCONTAINER_MAP_FILE :: (List.range pCardData.token.tokenPrivObjList.length).map kxcName ∧
      ((List.range pCardData.token.tokenPrivObjList.length).map kxcName).length
        = pCardData.token.tokenPrivObjList.length) ∧
    (∃ recs, CardReadFile (some pCardData) (some szBASE_CSP_DIR) (some szCONTAINER_MAP_FILE) 0
        (some pb) (some cb)
        = some (SCARD_S_SUCCESS, some (some (FileData.records recs)),
            some (pCardData.token.tokenPrivObjList.length * sizeof_CONTAINER_MAP_RECORD)) ∧
      recs.length = pCardData.token.tokenPrivObjList.length) := by
  refine ⟨getNumberOfContainers_eq pCardData (by omega), ?_, ?_⟩
  · obtain ⟨buf, hbuf⟩ := Option.ne_none_iff_exists'.mp
      (halloc (10 + 6 * pCardData.token.tokenPrivObjList.length))
    obtain ⟨m, hm, hbytes⟩ := CardEnumFiles_mscp behind pCardData pm pc buf hN hbuf
    refine ⟨m, hm, ?_, by simp⟩
    rw [hbytes]
    apply parseMultiSz_words
    intro w hw
    rcases List.mem_cons.mp hw with rfl | hw
    · exact ⟨by decide, by decide⟩
    · obtain ⟨i, _, rfl⟩ := List.mem_map.mp hw
      exact kxcName_wellformed i
  · obtain ⟨buf, hbuf⟩ := Option.ne_none_iff_exists'.mp
      (halloc (pCardData.token.tokenPrivObjList.length * sizeof_CONTAINER_MAP_RECORD))
    obtain ⟨recs, h1, _, h3⟩ := CardReadFile_cmapfile pCardData pb cb buf hN hid hbuf
    exact ⟨recs, h1, h3⟩

/-- C8 (counterexample): with 101 private keys `CardEnumFiles` for `"mscp"`
returns no multi-string: the name of container 100, `kxc100`, does not fit
the 6 characters given to `sprintf_s`. -/
theorem CardEnumFiles_fails_101_keys :
    (CardEnumFiles (fun _ => 0)
      (some (hostWith (List.replicate 16 0x30) (List.replicate 101 (privateKey [1] 2048))))
      (some szBASE_CSP_DIR) (some none) (some 0) 0).isNone = true ∧
    getNumberOfContainers
      (hostWith (List.replicate 16 0x30) (List.replicate 101 (privateKey [1] 2048))) = some 101 := by
  decide

/-! ## Property and capability queries -/

theorem CardQueryKeySizes_rsa (cd : CARD_DATA) (p : Mem) (dwKeySpec : Nat)
    (hver : loadLE p 0 4 ≤ CARD_KEY_SIZES_CURRENT_VERSION)
    (hspec : dwKeySpec = 0 ∨ dwKeySpec = AT_KEYEXCHANGE ∨ dwKeySpec = AT_SIGNATURE) :
    CardQueryKeySizes (some cd) dwKeySpec 0 (some p) = (SCARD_S_SUCCESS,
      some (storeLE (storeLE (storeLE (storeLE
        (storeLE p 0 4 CARD_KEY_SIZES_CURRENT_VERSION) 4 4 1024) 12 4 2048) 8 4 2048) 16 4 8)) := by
  have hv : ¬ loadLE p 0 4 > CARD_KEY_SIZES_CURRENT_VERSION := Nat.not_lt.mpr hver
  rcases hspec with h | h | h <;> subst h <;>
    simp +decide only [CardQueryKeySizes, hv, if_false, if_true, ne_eq, not_true_eq_false,
      false_and, and_false, true_or, or_true]

theorem CardQueryKeySizes_p256 (cd : CARD_DATA) (p : Mem) (dwKeySpec : Nat)
    (hver : loadLE p 0 4 ≤ CARD_KEY_SIZES_CURRENT_VERSION)
    (hspec : dwKeySpec = AT_ECDSA_P256 ∨ dwKeySpec = AT_ECDHE_P256) :
    CardQueryKeySizes (some cd) dwKeySpec 0 (some p) = (SCARD_S_SUCCESS,
      some (storeLE (storeLE (storeLE (storeLE
        (storeLE p 0 4 CARD_KEY_SIZES_CURRENT_VERSION) 4 4 256) 12 4 256) 8 4 256) 16 4 0)) := by
  have hv : ¬ loadLE p 0 4 > CARD_KEY_SIZES_CURRENT_VERSION := Nat.not_lt.mpr hver
  rcases hspec with h | h <;> subst h <;>
    simp +decide only [CardQueryKeySizes, hv, if_false, if_true, ne_eq, not_true_eq_false,
      false_and, and_false, true_or, or_true]

theorem CardQueryKeySizes_other_curves (cd : CARD_DATA) (p : Mem) (dwKeySpec : Nat)
    (hver : loadLE p 0 4 ≤ CARD_KEY_SIZES_CURRENT_VERSION)
    (hspec : dwKeySpec = AT_ECDSA_P384 ∨ dwKeySpec = AT_ECDSA_P521 ∨
      dwKeySpec = AT_ECDHE_P384 ∨ dwKeySpec = AT_ECDHE_P521) :
    CardQueryKeySizes (some cd) dwKeySpec 0 (some p) = (SCARD_E_UNSUPPORTED_FEATURE,
      some (storeLE p 0 4 CARD_KEY_SIZES_CURRENT_VERSION)) := by
  have hv : ¬ loadLE p 0 4 > CARD_KEY_SIZES_CURRENT_VERSION := Nat.not_lt.mpr hver
  rcases hspec with h | h | h | h <;> subst h <;>
    simp +decide only [CardQueryKeySizes, hv, if_false, if_true, ne_eq, not_true_eq_false,
      false_and, and_false, true_or, or_true]

/-- C19 (amended): key-size ranges. With a non-null context and structure,
flags 0 and a structure version not above the current one,
`CardQueryKeySizes` returns Success with minimum 1024, default and maximum
2048 and increment 8 for the identifiers 0, `AT_KEYEXCHANGE` and
`AT_SIGNATURE`; Success with minimum = default = maximum = 256 for
`AT_ECDSA_P256` and `AT_ECDHE_P256`; `SCARD_E_UNSUPPORTED_FEATURE` for the
P-384 and P-521 identifiers; and `SCARD_E_INVALID_PARAMETER`, with the
structure left as it was, for every value outside the enumerated set. -/
theorem CardQueryKeySizes_catalogue (cd : CARD_DATA) (p : Mem) (dwKeySpec : Nat)
    (hver : loadLE p 0 4 ≤ CARD_KEY_SIZES_CURRENT_VERSION) :
    ((dwKeySpec = 0 ∨ dwKeySpec = AT_KEYEXCHANGE ∨ dwKeySpec = AT_SIGNATURE) →
      ∃ q, CardQueryKeySizes (some cd) dwKeySpec 0 (some p) = (SCARD_S_SUCCESS, some q) ∧
        loadLE q 0 4 = CARD_KEY_SIZES_CURRENT_VERSION ∧ loadLE q 4 4 = 1024 ∧
        loadLE q 8 4 = 2048 ∧ loadLE q 12 4 = 2048 ∧ loadLE q 16 4 = 8) ∧
    ((dwKeySpec = AT_ECDSA_P256 ∨ dwKeySpec = AT_ECDHE_P256) →
      ∃ q, CardQueryKeySizes (some cd) dwKeySpec 0 (some p) = (SCARD_S_SUCCESS, some q) ∧
        loadLE q 0 4 = CARD_KEY_SIZES_CURRENT_VERSION ∧ loadLE q 4 4 = 256 ∧
        loadLE q 8 4 = 256 ∧ loadLE q 12 4 = 256 ∧ loadLE q 16 4 = 0) ∧
    ((dwKeySpec = AT_ECDSA_P384 ∨ dwKeySpec = AT_ECDSA_P521 ∨
        dwKeySpec = AT_ECDHE_P384 ∨ dwKeySpec = AT_ECDHE_P521) →
      (CardQueryKeySizes (some cd) dwKeySpec 0 (some p)).1 = SCARD_E_UNSUPPORTED_FEATURE) ∧
    (dwKeySpec ∉ [0, AT_KEYEXCHANGE, AT_SIGNATURE, AT_ECDSA_P256, AT_ECDSA_P384, AT_ECDSA_P521,
        AT_ECDHE_P256, AT_ECDHE_P384, AT_ECDHE_P521] →
      CardQueryKeySizes (some cd) dwKeySpec 0 (some p) = (SCARD_E_INVALID_PARAMETER, some p)) := by
  refine ⟨?_, ?_, ?_, ?_⟩
  · intro h
    refine ⟨_, CardQueryKeySizes_rsa cd p dwKeySpec hver h, ?_⟩
    simp [loadLE, storeLE, store, CARD_KEY_SIZES_CURRENT_VERSION]
  · intro h
    refine ⟨_, CardQueryKeySizes_p256 cd p dwKeySpec hver h, ?_⟩
    simp [loadLE, storeLE, store, CARD_KEY_SIZES_CURRENT_VERSION]
  · intro h
    rw [CardQueryKeySizes_other_curves cd p dwKeySpec hver h]
  · intro h
    simp only [List.mem_cons, List.mem_singleton, List.not_mem_nil, or_false, not_or] at h
    obtain ⟨h0, h1, h2, h3, h4, h5, h6, h7, h8⟩ := h
    have hall : dwKeySpec ≠ 0 ∧ dwKeySpec ≠ AT_SIGNATURE ∧ dwKeySpec ≠ AT_KEYEXCHANGE ∧
        dwKeySpec ≠ AT_ECDHE_P256 ∧ dwKeySpec ≠ AT_ECDHE_P384 ∧ dwKeySpec ≠ AT_ECDHE_P521 ∧
        dwKeySpec ≠ AT_ECDSA_P256 ∧ dwKeySpec ≠ AT_ECDSA_P384 ∧ dwKeySpec ≠ AT_ECDSA_P521 :=
      ⟨h0, h2, h1, h6, h7, h8, h3, h4, h5⟩
    unfold CardQueryKeySizes
    exact if_pos hall

/-- C19 (counterexample): the identifier 9, outside the enumerated set, is
answered with `SCARD_E_INVALID_PARAMETER`, not with UnsupportedFeature. -/
theorem CardQueryKeySizes_unknown_identifier :
    (CardQueryKeySizes (some zeroHost) 9 0 (some (fun _ => 0))).1 = SCARD_E_INVALID_PARAMETER ∧
    (CardQueryKeySizes (some zeroHost) 9 0 (some (fun _ => 0))).1 ≠ SCARD_E_UNSUPPORTED_FEATURE := by
  decide

theorem stripBlanks_le (S : List Nat) : ∀ i, stripBlanks S i ≤ i := by
  intro i
  induction i with
  | zero => simp [stripBlanks]
  | succ i ih =>
    simp only [stripBlanks]
    split <;> omega

theorem stripBlanks_tail (S : List Nat) : ∀ i k, stripBlanks S i ≤ k → k < i →
    S.getD k 0 = 0x20 := by
  intro i
  induction i with
  | zero => intro k _ hk; omega
  | succ i ih =>
    intro k h1 h2
    simp only [stripBlanks] at h1
    by_cases hb : S.getD i 0 = 0x20
    · rw [if_pos hb] at h1
      by_cases hki : k = i
      · rw [hki]; exact hb
      · exact ih k h1 (by omega)
    · rw [if_neg hb] at h1
      omega

theorem stripBlanks_least (S : List Nat) : ∀ i n, n ≤ i →
    (∀ k, n ≤ k → k < i → S.getD k 0 = 0x20) → stripBlanks S i ≤ n := by
  intro i
  induction i with
  | zero => intro n _ _; simp [stripBlanks]
  | succ i ih =>
    intro n hn hall
    simp only [stripBlanks]
    by_cases hb : S.getD i 0 = 0x20
    · rw [if_pos hb]
      by_cases hni : n = i + 1
      · have := stripBlanks_le S i
        omega
      · exact ih n (by omega) (fun k h1 h2 => hall k h1 (by omega))
    · rw [if_neg hb]
      by_cases hni : n = i + 1
      · omega
      · exact absurd (hall i (by omega) (by omega)) hb

theorem stripBlanks_eq_dropWhile (S : List Nat) : ∀ i, i ≤ S.length →
    stripBlanks S i = ((S.take i).reverse.dropWhile (fun c => c = 0x20)).length := by
  intro i
  induction i with
  | zero => intro _; simp [stripBlanks]
  | succ i ih =>
    intro hi
    have hlt : i < S.length := by omega
    have htake : S.take (i + 1) = S.take i ++ [S.getD i 0] := by
      rw [List.take_succ, List.getD_eq_getElem?_getD, List.getElem?_eq_getElem hlt]
      rfl
    simp only [stripBlanks, htake, List.reverse_append, List.reverse_singleton,
      List.singleton_append, List.dropWhile_cons]
    by_cases hb : S.getD i 0 = 0x20
    · simp only [hb, if_true, decide_True]
      exact ih (by omega)
    · simp only [hb, if_false, decide_False]
      simp
      omega

theorem CardGetProperty_branch_small (m : Mem) (cbData size : Nat)
    (fill : Mem → Option (Status × Mem)) (h : cbData < size) :
    CardGetProperty_branch m cbData size fill
      = some (SCARD_E_INSUFFICIENT_BUFFER, some m, some size) := by
  simp [CardGetProperty_branch, h]

theorem CardGetProperty_branch_large (m : Mem) (cbData size : Nat)
    (fill : Mem → Option (Status × Mem)) (h : size ≤ cbData) (st : Status) (q : Mem)
    (hfill : fill m = some (st, q)) :
    CardGetProperty_branch m cbData size fill = some (st, some q, some size) := by
  simp [CardGetProperty_branch, Nat.not_lt.mpr h, hfill]

theorem CardGetProperty_serial (cd : CARD_DATA) (m : Mem) (cbData l dwFlags : Nat) :
    CardGetProperty (some cd) (some CP_CARD_SERIAL_NO) (some m) cbData (some l) dwFlags
      = CardGetProperty_branch m cbData (stripBlanks cd.token.serialNumber 16) (fun x =>
          (memcpy x 0 cd.token.serialNumber (stripBlanks cd.token.serialNumber 16)).map
            (fun p => (SCARD_S_SUCCESS, p))) := by
  simp +decide only [CardGetProperty, if_false, if_true]

/-- C20: the serial-number property. For a 16-byte serial `S` and a buffer of
at least `n` bytes, where `n` is what the loop of line 971 leaves in `i`,
`CardGetProperty` returns Success, reports the length `n` and writes
`S[0..n-1]` to the start of the buffer, leaving the rest of it alone; `n` is
the least value with `S[k] = 0x20` for every `n <= k < 16`. -/
theorem CardGetProperty_serial_number (cd : CARD_DATA) (m : Mem) (cbData l dwFlags : Nat)
    (hS : cd.token.serialNumber.length = 16)
    (hcb : stripBlanks cd.token.serialNumber 16 ≤ cbData) :
    ∃ q, CardGetProperty (some cd) (some CP_CARD_SERIAL_NO) (some m) cbData (some l) dwFlags
        = some (SCARD_S_SUCCESS, some q, some (stripBlanks cd.token.serialNumber 16)) ∧
      Mem.bytes q 0 (stripBlanks cd.token.serialNumber 16)
        = cd.token.serialNumber.take (stripBlanks cd.token.serialNumber 16) ∧
      (∀ j, stripBlanks cd.token.serialNumber 16 ≤ j → q j = m j) ∧
      stripBlanks cd.token.serialNumber 16 ≤ 16 ∧
      (∀ k, stripBlanks cd.token.serialNumber 16 ≤ k → k < 16 →
        cd.token.serialNumber.getD k 0 = 0x20) ∧
      (∀ n, n ≤ 16 → (∀ k, n ≤ k → k < 16 → cd.token.serialNumber.getD k 0 = 0x20) →
        stripBlanks cd.token.serialNumber 16 ≤ n) := by
  have hle := stripBlanks_le cd.token.serialNumber 16
  have hlen : (cd.token.serialNumber.take (stripBlanks cd.token.serialNumber 16)).length
      = stripBlanks cd.token.serialNumber 16 := by
    rw [List.length_take]; omega
  refine ⟨storeBytes m 0 (cd.token.serialNumber.take (stripBlanks cd.token.serialNumber 16)),
    ?_, ?_, ?_, hle, stripBlanks_tail _ 16, stripBlanks_least _ 16⟩
  · rw [CardGetProperty_serial]
    apply CardGetProperty_branch_large _ _ _ _ hcb
    simp only [memcpy]
    rw [if_neg (by omega)]
    rfl
  · have h := storeBytes_bytes m 0
      (cd.token.serialNumber.take (stripBlanks cd.token.serialNumber 16))
    rwa [hlen] at h
  · intro j hj
    exact storeBytes_other _ _ _ _ (Or.inr (by rw [hlen]; omega))

/-- C17: an unknown property name. For a name outside the catalogue,
`CardGetProperty` called with non-null arguments returns
`SCARD_E_INVALID_PARAMETER` and leaves the destination buffer and the length
output as they were, whatever `cbData`, the flags and the token; so does
`CardGetContainerProperty` for a name other than the container-info and the
PIN-identifier names. -/
theorem unknown_property_rejected (cd : CARD_DATA) (prop : List Nat) (m : Mem) (buf : PropBuf)
    (bContainerIndex cbData l dwFlags : Nat) :
    (prop ∉ propertyCatalogue →
      CardGetProperty (some cd) (some prop) (some m) cbData (some l) dwFlags
        = some (SCARD_E_INVALID_PARAMETER, some m, some l)) ∧
    (prop ≠ CCP_CONTAINER_INFO → prop ≠ CCP_PIN_IDENTIFIER →
      CardGetContainerProperty (some cd) bContainerIndex (some prop) (some buf) cbData (some l)
          dwFlags
        = some (SCARD_E_INVALID_PARAMETER, some buf, some l)) := by
  constructor
  · intro h
    simp only [propertyCatalogue, List.mem_cons, List.mem_singleton, List.not_mem_nil, or_false,
      not_or] at h
    obtain ⟨h1, h2, h3, h4, h5, h6, h7, h8, h9, h10, h11, h12, h13⟩ := h
    simp only [CardGetProperty, if_neg (Ne.symm h1), if_neg (Ne.symm h2), if_neg (Ne.symm h3),
      if_neg (Ne.symm h4), if_neg (Ne.symm h5), if_neg (Ne.symm h6), if_neg (Ne.symm h7),
      if_neg (Ne.symm h8), if_neg (Ne.symm h9), if_neg (Ne.symm h10), if_neg (Ne.symm h11),
      if_neg (Ne.symm h12), if_neg (Ne.symm h13)]
  · intro h1 h2
    simp only [CardGetContainerProperty, if_neg (Ne.symm h1), if_neg (Ne.symm h2)]

theorem CardGetProperty_total (cd : CARD_DATA) (prop : List Nat) (m : Mem)
    (cbData l dwFlags : Nat) (hprop : prop ∈ propertyCatalogue)
    (hS : cd.token.serialNumber.length = 16)
    (hN : cd.token.tokenPrivObjList.length < 2 ^ 31) :
    ∃ fill : Mem → Option (Status × Mem), (∀ x, fill x ≠ none) ∧
      CardGetProperty (some cd) (some prop) (some m) cbData (some l) dwFlags
        = CardGetProperty_branch m cbData (propertySize cd.token.serialNumber prop) fill := by
  have hcnt := getNumberOfContainers_eq cd hN
  have hstrip := stripBlanks_eq_dropWhile cd.token.serialNumber 16 (by omega)
  have hle := stripBlanks_le cd.token.serialNumber 16
  simp only [propertyCatalogue, List.mem_cons, List.mem_singleton, List.not_mem_nil,
    or_false] at hprop
  rcases hprop with h | h | h | h | h | h | h | h | h | h | h | h | h <;> subst h
  · refine ⟨_, ?_, by simp +decide only [CardGetProperty, propertySize, if_false, if_true]; rfl⟩
    intro x
    simp only [CardQueryFreeSpace, hcnt]
    split
    · simp
    · split <;> simp
  · refine ⟨_, ?_, by simp +decide only [CardGetProperty, propertySize, if_false, if_true]; rfl⟩
    intro x
    simp
  · refine ⟨_, ?_, by simp +decide only [CardGetProperty, propertySize, if_false, if_true]; rfl⟩
    intro x
    simp
  · refine ⟨_, ?_, by simp +decide only [CardGetProperty, propertySize, if_false, if_true]; rfl⟩
    intro x
    simp
  · refine ⟨_, ?_, by simp +decide only [CardGetProperty, propertySize, if_false, if_true]; rfl⟩
    intro x
    simp
  · refine ⟨_, ?_, by simp +decide only [CardGetProperty, propertySize, if_false, if_true]; rfl⟩
    intro x
    simp
  · refine ⟨_, ?_, by simp +decide only [CardGetProperty, propertySize, if_false, if_true]; rfl⟩
    intro x
    simp [memcpy, hS]
  · refine ⟨_, ?_, by
      simp +decide only [CardGetProperty, propertySize, if_false, if_true]
      rw [← hstrip]⟩
    intro x
    have hnot : ¬ cd.token.serialNumber.length < stripBlanks cd.token.serialNumber 16 := by omega
    simp [memcpy, hnot]
  · refine ⟨_, ?_, by simp +decide only [CardGetProperty, propertySize, if_false, if_true]; rfl⟩
    intro x
    simp
  · refine ⟨_, ?_, by simp +decide only [CardGetProperty, propertySize, if_false, if_true]; rfl⟩
    intro x
    simp
  · refine ⟨_, ?_, by simp +decide only [CardGetProperty, propertySize, if_false, if_true]; rfl⟩
    intro x
    simp
  · refine ⟨_, ?_, by simp +decide only [CardGetProperty, propertySize, if_false, if_true]; rfl⟩
    intro x
    simp
  · refine ⟨_, ?_, by simp +decide only [CardGetProperty, propertySize, if_false, if_true]; rfl⟩
    intro x
    simp

/-- C18: an undersized destination. For every catalogue property `P`, with
non-null arguments: when `cbData` is below the required size of `P`,
`CardGetProperty` returns `SCARD_E_INSUFFICIENT_BUFFER`, sets the length output
to the required size and leaves the destination buffer as it was; when
`cbData` is at least the required size, the call returns with the length
output set to that same size. -/
theorem CardGetProperty_required_size (cd : CARD_DATA) (prop : List Nat) (m : Mem)
    (cbData l dwFlags : Nat) (hprop : prop ∈ propertyCatalogue)
    (hS : cd.token.serialNumber.length = 16)
    (hN : cd.token.tokenPrivObjList.length < 2 ^ 31) :
    (cbData < propertySize cd.token.serialNumber prop →
      CardGetProperty (some cd) (some prop) (some m) cbData (some l) dwFlags
        = some (SCARD_E_INSUFFICIENT_BUFFER, some m,
            some (propertySize cd.token.serialNumber prop))) ∧
    (propertySize cd.token.serialNumber prop ≤ cbData →
      ∃ st q, CardGetProperty (some cd) (some prop) (some m) cbData (some l) dwFlags
        = some (st, some q, some (propertySize cd.token.serialNumber prop))) := by
  obtain ⟨fill, htotal, heq⟩ := CardGetProperty_total cd prop m cbData l dwFlags hprop hS hN
  rw [heq]
  constructor
  · intro h
    exact CardGetProperty_branch_small m cbData _ fill h
  · intro h
    obtain ⟨⟨st, q⟩, hq⟩ := Option.ne_none_iff_exists'.mp (htotal m)
    exact ⟨st, q, CardGetProperty_branch_large m cbData _ fill h st q hq⟩

/-! ## Virtual file system: files and directories -/

theorem readCertificate_outputs (cd : CARD_DATA) (i : Int) (out : FileOut) :
    readCertificate cd i out =
      match readCertificate cd i { ppbData := none, pcbData := 0 } with
      | none => none
      | some (st, o) => if st = SCARD_S_SUCCESS then some (st, o) else some (st, out) := by
  unfold readCertificate
  cases h1 : getKeyForIndex cd i with
  | none => simp
  | some o =>
    cases h2 : cd.token.tokenPrivObjList[o]? with
    | none => simp only [h2]
    | some key =>
      cases h3 : findAttribute key CKA_ID with
      | none => simp only [h2, h3]; simp
      | some attr =>
        cases h4 : findMatchingTokenObjectById cd.token CKO_CERTIFICATE attr.pValue with
        | none => simp only [h2, h3, h4]; simp
        | some cert =>
          cases h5 : findAttribute cert CKA_VALUE with
          | none => simp only [h2, h3, h4, h5]; simp
          | some value =>
            cases h6 : cd.pfnCspAlloc value.pValue.length with
            | none => simp only [h2, h3, h4, h5, h6]
            | some buf => simp only [h2, h3, h4, h5, h6]; simp

theorem encodeCMapFile_status (cd : CARD_DATA) (cont : List CONTAINER_MAP_RECORD) (n : Int)
    (st : Status) (recs : List CONTAINER_MAP_RECORD)
    (h : encodeCMapFile cd cont n = some (st, recs)) : st = SCARD_S_SUCCESS := by
  unfold encodeCMapFile at h
  cases hl : encodeCMapFile_loop cd n.toNat 0 none cont with
  | none => rw [hl] at h; simp at h
  | some c =>
    rw [hl] at h
    simp only [Option.map_some', Option.some.injEq, Prod.mk.injEq] at h
    exact h.1.symm

theorem CardReadFile_root (cd : CARD_DATA) (name : List Nat) (pb : Option FileData) (cb : Nat)
    (hc : checkFileName name = SCARD_S_SUCCESS) :
    CardReadFile (some cd) none (some name) 0 (some pb) (some cb) =
      if name = szCARD_IDENTIFIER_FILE then
        (if cd.token.serialNumber.length < 16 then none
         else
          match cd.pfnCspAlloc (cd.token.serialNumber.take 16).length with
          | none => none
          | some buf =>
            some (SCARD_S_SUCCESS,
              some (some (FileData.bytes (storeBytes buf 0 (cd.token.serialNumber.take 16)))),
              some (cd.token.serialNumber.take 16).length))
      else if name = szCACHE_FILE then
        (match cd.pfnCspAlloc (List.replicate sizeof_CARD_CACHE_FILE_FORMAT 0).length with
         | none => none
         | some buf =>
           some (SCARD_S_SUCCESS,
             some (some (FileData.bytes
               (storeBytes buf 0 (List.replicate sizeof_CARD_CACHE_FILE_FORMAT 0)))),
             some (List.replicate sizeof_CARD_CACHE_FILE_FORMAT 0).length))
      else if name = wide "cardapps" then
        (match cd.pfnCspAlloc 8 with
         | none => none
         | some buf =>
           some (SCARD_S_SUCCESS,
             some (some (FileData.bytes (storeBytes buf 0 [109, 115, 99, 112, 0, 0, 0, 0]))),
             some 8))
      else some (SCARD_E_FILE_NOT_FOUND, some pb, some cb) := by
  have hne : name ≠ [] := by
    intro h
    rw [h] at hc
    exact absurd hc (by decide)
  simp only [CardReadFile, hne, hc, if_false, ne_eq, not_true_eq_false, wide, List.length_cons,
    List.length_nil]

theorem CardReadFile_mscp (cd : CARD_DATA) (name : List Nat) (pb : Option FileData) (cb : Nat)
    (hc : checkFileName name = SCARD_S_SUCCESS) :
    CardReadFile (some cd) (some szBASE_CSP_DIR) (some name) 0 (some pb) (some cb) =
      if name = szCONTAINER_MAP_FILE then
        (match getNumberOfContainers cd with
         | none => none
         | some containers =>
           match encodeCMapFile cd
              (match cd.pfnCspAlloc ((containers * sizeof_CONTAINER_MAP_RECORD) % 2 ^ 32) with
               | none => []
               | some buf => recordsOf buf
                  ((containers * sizeof_CONTAINER_MAP_RECORD) % 2 ^ 32
                    / sizeof_CONTAINER_MAP_RECORD)) containers with
           | none => none
           | some (dwret, recs) =>
             some (dwret,
               some ((cd.pfnCspAlloc ((containers * sizeof_CONTAINER_MAP_RECORD) % 2 ^ 32)).map
                 (fun _ => FileData.records recs)),
               some ((containers * sizeof_CONTAINER_MAP_RECORD) % 2 ^ 32)))
      else if name.take 3 = szUSER_KEYEXCHANGE_CERT_PREFIX then
        (match readCertificate cd (atoi (name.drop 3)) { ppbData := pb, pcbData := cb } with
         | none => none
         | some (dwret, o) => some (dwret, some o.ppbData, some o.pcbData))
      else some (SCARD_E_FILE_NOT_FOUND, some pb, some cb) := by
  have hne : name ≠ [] := by
    intro h
    rw [h] at hc
    exact absurd hc (by decide)
  have hdir : checkFileName szBASE_CSP_DIR = SCARD_S_SUCCESS := by decide
  simp only [CardReadFile, hne, hc, hdir, if_false, ne_eq, not_true_eq_false]

theorem CardReadFile_invalid (pCardData : Option CARD_DATA) (dir name : Option (List Nat))
    (dwFlags : Nat) (pb : Option FileData) (cb : Nat) (st : Status)
    (hst : st ≠ SCARD_S_SUCCESS)
    (h : ∀ pb2 cb2, CardReadFile pCardData dir name dwFlags (some pb2) (some cb2)
      = some (st, some pb2, some cb2)) :
    CardReadFile pCardData dir name dwFlags (some pb) (some cb) =
      match CardReadFile pCardData dir name dwFlags (some none) (some 0) with
      | none => none
      | some (st, d, n) =>
        if st = SCARD_S_SUCCESS then some (st, d, n) else some (st, some pb, some cb) := by
  rw [h pb cb, h none 0]
  simp [hst]

theorem checkFileName_nonempty (name : List Nat) (h : checkFileName name = SCARD_S_SUCCESS) :
    name ≠ [] := by
  intro hn
  rw [hn] at h
  exact absurd h (by decide)

theorem CardReadFile_null_context (dir name : Option (List Nat)) (dwFlags : Nat)
    (pb : Option FileData) (cb : Nat) :
    CardReadFile none dir name dwFlags (some pb) (some cb)
      = some (SCARD_E_INVALID_PARAMETER, some pb, some cb) := by
  simp [CardReadFile]

theorem CardReadFile_null_name (cd : CARD_DATA) (dir : Option (List Nat)) (dwFlags : Nat)
    (pb : Option FileData) (cb : Nat) :
    CardReadFile (some cd) dir none dwFlags (some pb) (some cb)
      = some (SCARD_E_INVALID_PARAMETER, some pb, some cb) := by
  simp [CardReadFile]

theorem CardReadFile_empty_name (cd : CARD_DATA) (dir : Option (List Nat)) (dwFlags : Nat)
    (pb : Option FileData) (cb : Nat) :
    CardReadFile (some cd) dir (some []) dwFlags (some pb) (some cb)
      = some (SCARD_E_INVALID_PARAMETER, some pb, some cb) := by
  simp [CardReadFile]

theorem CardReadFile_bad_dir (cd : CARD_DATA) (d name : List Nat) (dwFlags : Nat)
    (pb : Option FileData) (cb : Nat) (hn : name ≠ [])
    (hd : checkFileName d ≠ SCARD_S_SUCCESS) :
    CardReadFile (some cd) (some d) (some name) dwFlags (some pb) (some cb)
      = some (checkFileName d, some pb, some cb) := by
  simp only [CardReadFile, hn, if_false, ne_eq, hd, not_false_eq_true, if_true]

theorem CardReadFile_unknown_dir (cd : CARD_DATA) (d name : List Nat) (dwFlags : Nat)
    (pb : Option FileData) (cb : Nat) (hn : name ≠ [])
    (hd : checkFileName d = SCARD_S_SUCCESS) (hm : d ≠ szBASE_CSP_DIR) :
    CardReadFile (some cd) (some d) (some name) dwFlags (some pb) (some cb)
      = some (SCARD_E_DIR_NOT_FOUND, some pb, some cb) := by
  simp +decide only [CardReadFile, hn, if_false, ne_eq, hd, hm, not_false_eq_true, if_true,
    not_true_eq_false]

theorem CardReadFile_bad_name (cd : CARD_DATA) (dir : Option (List Nat)) (name : List Nat)
    (dwFlags : Nat) (pb : Option FileData) (cb : Nat) (hn : name ≠ [])
    (hdir : dir = none ∨ dir = some szBASE_CSP_DIR)
    (hc : checkFileName name ≠ SCARD_S_SUCCESS) :
    CardReadFile (some cd) dir (some name) dwFlags (some pb) (some cb)
      = some (checkFileName name, some pb, some cb) := by
  have hd : checkFileName szBASE_CSP_DIR = SCARD_S_SUCCESS := by decide
  rcases hdir with h | h <;> subst h <;>
    simp only [CardReadFile, hn, if_false, ne_eq, hd, hc, not_false_eq_true, if_true,
      not_true_eq_false]

theorem CardReadFile_bad_flags (cd : CARD_DATA) (dir : Option (List Nat)) (name : List Nat)
    (dwFlags : Nat) (pb : Option FileData) (cb : Nat)
    (hdir : dir = none ∨ dir = some szBASE_CSP_DIR)
    (hc : checkFileName name = SCARD_S_SUCCESS) (hf : dwFlags ≠ 0) :
    CardReadFile (some cd) dir (some name) dwFlags (some pb) (some cb)
      = some (SCARD_E_INVALID_PARAMETER, some pb, some cb) := by
  have hd : checkFileName szBASE_CSP_DIR = SCARD_S_SUCCESS := by decide
  have hn := checkFileName_nonempty name hc
  rcases hdir with h | h <;> subst h <;>
    simp only [CardReadFile, hn, if_false, ne_eq, hd, hc, hf, not_false_eq_true, if_true,
      not_true_eq_false]

theorem checkFileName_loop_cases (s : List Nat) :
    (checkFileName_loop s = SCARD_S_SUCCESS ∧ ∀ c ∈ s, isprint c = true) ∨
    (checkFileName_loop s = SCARD_E_INVALID_PARAMETER ∧ ∃ c ∈ s, isprint c = false) := by
  induction s with
  | nil => left; exact ⟨rfl, by simp⟩
  | cons c r ih =>
    by_cases hc : isprint c = true
    · simp only [checkFileName_loop, hc, Bool.not_true, Bool.false_eq_true, if_false]
      rcases ih with ⟨h1, h2⟩ | ⟨h1, x, hx, hx2⟩
      · left
        exact ⟨h1, by
          intro y hy
          rcases List.mem_cons.mp hy with rfl | hy
          · exact hc
          · exact h2 y hy⟩
      · right
        exact ⟨h1, x, List.mem_cons_of_mem _ hx, hx2⟩
    · have hc2 : isprint c = false := by simpa using hc
      right
      simp only [checkFileName_loop, hc2, Bool.not_false, if_true]
      exact ⟨trivial, c, List.mem_cons_self _ _, hc2⟩

theorem checkFileName_spec (s : List Nat) :
    (checkFileName s = SCARD_S_SUCCESS ↔
      (1 ≤ s.length ∧ s.length ≤ 8 ∧ ∀ c ∈ s, isprint c = true)) ∧
    (checkFileName s ≠ SCARD_S_SUCCESS → checkFileName s = SCARD_E_INVALID_PARAMETER) := by
  unfold checkFileName
  by_cases hlen : s.length < 1 ∨ s.length > 8
  · rw [if_pos hlen]
    refine ⟨⟨fun h => absurd h (by decide), fun h => by omega⟩, fun _ => rfl⟩
  · rw [if_neg hlen]
    rcases checkFileName_loop_cases s with ⟨h1, h2⟩ | ⟨h1, x, hx, hx2⟩
    · rw [h1]
      exact ⟨⟨fun _ => ⟨by omega, by omega, h2⟩, fun _ => rfl⟩, fun h => absurd rfl h⟩
    · rw [h1]
      refine ⟨⟨fun h => absurd h (by decide), fun h => ?_⟩, fun _ => rfl⟩
      have := h.2.2 x hx
      rw [hx2] at this
      exact absurd this (by decide)

theorem CardReadFile_outputs (pCardData : Option CARD_DATA) (dir name : Option (List Nat))
    (dwFlags : Nat) (pb : Option FileData) (cb : Nat) :
    CardReadFile pCardData dir name dwFlags (some pb) (some cb) =
      match CardReadFile pCardData dir name dwFlags (some none) (some 0) with
      | none => none
      | some (st, d, n) =>
        if st = SCARD_S_SUCCESS then some (st, d, n) else some (st, some pb, some cb) := by
  cases pCardData with
  | none =>
    exact CardReadFile_invalid _ _ _ _ _ _ _ (by decide)
      (fun pb2 cb2 => CardReadFile_null_context dir name dwFlags pb2 cb2)
  | some cd =>
    cases name with
    | none =>
      exact CardReadFile_invalid _ _ _ _ _ _ _ (by decide)
        (fun pb2 cb2 => CardReadFile_null_name cd dir dwFlags pb2 cb2)
    | some name =>
      by_cases hn : name = []
      · subst hn
        exact CardReadFile_invalid _ _ _ _ _ _ _ (by decide)
          (fun pb2 cb2 => CardReadFile_empty_name cd dir dwFlags pb2 cb2)
      · by_cases hdir : dir = none ∨ dir = some szBASE_CSP_DIR
        · by_cases hc : checkFileName name = SCARD_S_SUCCESS
          · by_cases hf : dwFlags = 0
            · subst hf
              rcases hdir with h | h
              · subst h
                rw [CardReadFile_root cd name pb cb hc, CardReadFile_root cd name none 0 hc]
                split_ifs
                · rfl
                · split <;> simp
                · split <;> simp
                · split <;> simp
                · simp
              · subst h
                rw [CardReadFile_mscp cd name pb cb hc, CardReadFile_mscp cd name none 0 hc]
                split_ifs
                · cases hN : getNumberOfContainers cd with
                  | none => rfl
                  | some containers =>
                    simp only []
                    split
                    · rfl
                    · next dwret recs hE =>
                      have := encodeCMapFile_status _ _ _ _ _ hE
                      subst this
                      simp
                · rw [readCertificate_outputs cd _ { ppbData := pb, pcbData := cb },
                    readCertificate_outputs cd _ { ppbData := none, pcbData := 0 }]
                  cases readCertificate cd (atoi (name.drop 3)) { ppbData := none, pcbData := 0 } with
                  | none => rfl
                  | some r =>
                    obtain ⟨st, o⟩ := r
                    by_cases hst : st = SCARD_S_SUCCESS <;> simp [hst]
                · simp
            · exact CardReadFile_invalid _ _ _ _ _ _ _ (by decide)
                (fun pb2 cb2 => CardReadFile_bad_flags cd dir name dwFlags pb2 cb2 hdir hc hf)
          · exact CardReadFile_invalid _ _ _ _ _ _ _ hc
              (fun pb2 cb2 => CardReadFile_bad_name cd dir name dwFlags pb2 cb2 hn hdir hc)
        · cases dir with
          | none => exact absurd (Or.inl rfl) hdir
          | some d =>
            have hm : d ≠ szBASE_CSP_DIR := fun h => hdir (Or.inr (by rw [h]))
            by_cases hd : checkFileName d = SCARD_S_SUCCESS
            · exact CardReadFile_invalid _ _ _ _ _ _ _ (by decide)
                (fun pb2 cb2 => CardReadFile_unknown_dir cd d name dwFlags pb2 cb2 hn hd hm)
            · exact CardReadFile_invalid _ _ _ _ _ _ _ hd
                (fun pb2 cb2 => CardReadFile_bad_dir cd d name dwFlags pb2 cb2 hn hd)

/-- C15 (name validation and lookup, as the code orders them): `checkFileName`
returns Success exactly for names of 1 to 8 printable characters and
InvalidParameter for every other name. In `CardReadFile` with non-null
context and outputs and an invalid file name, the result is InvalidParameter
when the directory argument is null, is "mscp", is itself malformed, or the
file name is empty; when the directory is a well-formed name other than
"mscp" and the file name is not empty, the directory check of line 388 comes
first and the result is DirectoryNotFound. The outputs are not written in
either case. -/
theorem checkFileName_before_lookup :
    (∀ s : List Nat,
      (checkFileName s = SCARD_S_SUCCESS ↔
        (1 ≤ s.length ∧ s.length ≤ 8 ∧ ∀ c ∈ s, isprint c = true)) ∧
      (¬ (1 ≤ s.length ∧ s.length ≤ 8 ∧ ∀ c ∈ s, isprint c = true) →
        checkFileName s = SCARD_E_INVALID_PARAMETER)) ∧
    (∀ (cd : CARD_DATA) (dir : Option (List Nat)) (name : List Nat) (dwFlags : Nat)
        (pb : Option FileData) (cb : Nat),
      ¬ (1 ≤ name.length ∧ name.length ≤ 8 ∧ ∀ c ∈ name, isprint c = true) →
      (dir = none ∨ dir = some szBASE_CSP_DIR ∨ name = [] ∨
        ∃ d, dir = some d ∧
          ¬ (1 ≤ d.length ∧ d.length ≤ 8 ∧ ∀ c ∈ d, isprint c = true)) →
      CardReadFile (some cd) dir (some name) dwFlags (some pb) (some cb)
        = some (SCARD_E_INVALID_PARAMETER, some pb, some cb)) ∧
    (∀ (cd : CARD_DATA) (d name : List Nat) (dwFlags : Nat) (pb : Option FileData) (cb : Nat),
      ¬ (1 ≤ name.length ∧ name.length ≤ 8 ∧ ∀ c ∈ name, isprint c = true) →
      name ≠ [] →
      (1 ≤ d.length ∧ d.length ≤ 8 ∧ ∀ c ∈ d, isprint c = true) → d ≠ szBASE_CSP_DIR →
      CardReadFile (some cd) (some d) (some name) dwFlags (some pb) (some cb)
        = some (SCARD_E_DIR_NOT_FOUND, some pb, some cb)) := by
  have hinv : ∀ s : List Nat,
      ¬ (1 ≤ s.length ∧ s.length ≤ 8 ∧ ∀ c ∈ s, isprint c = true) →
        checkFileName s ≠ SCARD_S_SUCCESS ∧ checkFileName s = SCARD_E_INVALID_PARAMETER := by
    intro s hs
    have hne : checkFileName s ≠ SCARD_S_SUCCESS := fun h => hs ((checkFileName_spec s).1.mp h)
    exact ⟨hne, (checkFileName_spec s).2 hne⟩
  refine ⟨fun s => ⟨(checkFileName_spec s).1, fun hs => (hinv s hs).2⟩, ?_, ?_⟩
  · intro cd dir name dwFlags pb cb hname hdir
    by_cases hn : name = []
    · subst hn
      exact CardReadFile_empty_name cd dir dwFlags pb cb
    · rcases hdir with h | h | h | ⟨d, h, hd⟩
      · rw [CardReadFile_bad_name cd dir name dwFlags pb cb hn (Or.inl h) (hinv name hname).1,
          (hinv name hname).2]
      · rw [CardReadFile_bad_name cd dir name dwFlags pb cb hn (Or.inr h) (hinv name hname).1,
          (hinv name hname).2]
      · exact absurd h hn
      · subst h
        rw [CardReadFile_bad_dir cd d name dwFlags pb cb hn (hinv d hd).1, (hinv d hd).2]
  · intro cd d name dwFlags pb cb _ hn hd hm
    exact CardReadFile_unknown_dir cd d name dwFlags pb cb hn ((checkFileName_spec d).1.mpr hd) hm

/-- Counterexample to C15 as stated: with the well-formed directory name
"abc" and the 11-character file name "toolongname", `CardReadFile` returns
DirectoryNotFound, not InvalidParameter. -/
theorem CardReadFile_directory_checked_first :
    checkFileName (wide "toolongname") = SCARD_E_INVALID_PARAMETER ∧
    CardReadFile (some zeroHost) (some (wide "abc")) (some (wide "toolongname")) 0
        (some none) (some 0)
      = some (SCARD_E_DIR_NOT_FOUND, some none, some 0) := by
  refine ⟨by decide, ?_⟩
  exact CardReadFile_unknown_dir zeroHost _ _ 0 none 0 (by decide) (by decide) (by decide)

theorem CardEnumFiles_unknown_dir (behind : Mem) (cd : CARD_DATA) (d : List Nat) (dwFlags : Nat)
    (pm : Option Mem) (pc : Nat)
    (hd : checkFileName d = SCARD_S_SUCCESS) (hm : d ≠ szBASE_CSP_DIR) :
    CardEnumFiles behind (some cd) (some d) (some pm) (some pc) dwFlags
      = some (SCARD_E_DIR_NOT_FOUND, some pm, some pc) := by
  simp +decide only [CardEnumFiles, ne_eq, hd, hm, not_false_eq_true, if_true, if_false,
    not_true_eq_false]

theorem CardEnumFiles_root (behind : Mem) (cd : CARD_DATA) (pm : Option Mem) (pc : Nat)
    (buf : Mem) (halloc : cd.pfnCspAlloc 24 = some buf) :
    CardEnumFiles behind (some cd) none (some pm) (some pc) 0
      = some (SCARD_S_SUCCESS, some (some (storeBytes buf 0 rootFiles)), some 24) := by
  have hl : rootFiles.length = 24 := by decide
  simp only [CardEnumFiles, ne_eq, not_true_eq_false, if_false, hl, halloc]

/-- C16 (only two directories): for a directory name `d` of 1 to 8 printable
characters that is not exactly "mscp", `CardReadFile` with a well-formed file
name and `CardEnumFiles` return DirectoryNotFound for every flags value and
every token state, and hand back the caller's output variables unchanged. A
null directory selects the root: a well-formed name is reported as
FileNotFound exactly when it is none of `cardid`, `cardcf`, `cardapps`, and
the listing is the three root names. The name "mscp" selects the
subdirectory: the three root names are FileNotFound there, as is every
well-formed name that is neither `cmapfile` nor starts with `kxc`, and the
listing is `cmapfile` followed by the certificate names. -/
theorem only_two_directories (behind : Mem) (cd : CARD_DATA) (d : List Nat)
    (hd : 1 ≤ d.length ∧ d.length ≤ 8 ∧ ∀ c ∈ d, isprint c = true)
    (hm : d ≠ szBASE_CSP_DIR) :
    (∀ (name : List Nat) (dwFlags : Nat) (pb : Option FileData) (cb : Nat),
      (1 ≤ name.length ∧ name.length ≤ 8 ∧ ∀ c ∈ name, isprint c = true) →
      CardReadFile (some cd) (some d) (some name) dwFlags (some pb) (some cb)
        = some (SCARD_E_DIR_NOT_FOUND, some pb, some cb)) ∧
    (∀ (dwFlags : Nat) (pm : Option Mem) (pc : Nat),
      CardEnumFiles behind (some cd) (some d) (some pm) (some pc) dwFlags
        = some (SCARD_E_DIR_NOT_FOUND, some pm, some pc)) ∧
    (∀ (name : List Nat) (pb : Option FileData) (cb : Nat),
      (1 ≤ name.length ∧ name.length ≤ 8 ∧ ∀ c ∈ name, isprint c = true) →
      (CardReadFile (some cd) none (some name) 0 (some pb) (some cb)
          = some (SCARD_E_FILE_NOT_FOUND, some pb, some cb) ↔
        name ∉ [szCARD_IDENTIFIER_FILE, szCACHE_FILE, wide "cardapps"])) ∧
    (∀ (pm : Option Mem) (pc : Nat) (buf : Mem), cd.pfnCspAlloc 24 = some buf →
      CardEnumFiles behind (some cd) none (some pm) (some pc) 0
        = some (SCARD_S_SUCCESS, some (some (storeBytes buf 0 rootFiles)), some 24) ∧
      parseMultiSz (Mem.bytes (storeBytes buf 0 rootFiles) 0 24) []
        = [szCARD_IDENTIFIER_FILE, szCACHE_FILE, wide "cardapps"]) ∧
    (∀ (name : List Nat) (pb : Option FileData) (cb : Nat),
      (1 ≤ name.length ∧ name.length ≤ 8 ∧ ∀ c ∈ name, isprint c = true) →
      name ≠ szCONTAINER_MAP_FILE → name.take 3 ≠ szUSER_KEYEXCHANGE_CERT_PREFIX →
      CardReadFile (some cd) (some szBASE_CSP_DIR) (some name) 0 (some pb) (some cb)
        = some (SCARD_E_FILE_NOT_FOUND, some pb, some cb)) ∧
    (∀ (pm : Option Mem) (pc : Nat) (buf : Mem),
      cd.token.tokenPrivObjList.length ≤ 100 →
      cd.pfnCspAlloc (10 + 6 * cd.token.tokenPrivObjList.length) = some buf →
      ∃ m, CardEnumFiles behind (some cd) (some szBASE_CSP_DIR) (some pm) (some pc) 0
          = some (SCARD_S_SUCCESS, some (some m),
              some (10 + 6 * cd.token.tokenPrivObjList.length)) ∧
        parseMultiSz (Mem.bytes m 0 (10 + 6 * cd.token.tokenPrivObjList.length)) []
          = szCONTAINER_MAP_FILE :: (List.range cd.token.tokenPrivObjList.length).map kxcName) := by
  have hdc := (checkFileName_spec d).1.mpr hd
  refine ⟨?_, ?_, ?_, ?_, ?_, ?_⟩
  · intro name dwFlags pb cb hname
    have hc := (checkFileName_spec name).1.mpr hname
    exact CardReadFile_unknown_dir cd d name dwFlags pb cb (checkFileName_nonempty name hc) hdc hm
  · intro dwFlags pm pc
    exact CardEnumFiles_unknown_dir behind cd d dwFlags pm pc hdc hm
  · intro name pb cb hname
    have hc := (checkFileName_spec name).1.mpr hname
    rw [CardReadFile_root cd name pb cb hc]
    simp only [List.mem_cons, List.mem_singleton, List.not_mem_nil, or_false, not_or]
    split_ifs with h1 h2 h3 h4
    · simp [h1]
    · simp only [h1, not_true_eq_false, false_and, iff_false]
      split <;> simp
    · simp only [h3, not_true_eq_false, false_and, and_false, iff_false]
      split <;> simp
    · simp only [h4, not_true_eq_false, and_false, iff_false]
      split <;> simp
    · simp [h1, h3, h4]
  · intro pm pc buf halloc
    refine ⟨CardEnumFiles_root behind cd pm pc buf halloc, ?_⟩
    have h := storeBytes_bytes buf 0 rootFiles
    rw [show rootFiles.length = 24 by decide] at h
    rw [h]
    decide
  · intro name pb cb hname h1 h2
    have hc := (checkFileName_spec name).1.mpr hname
    rw [CardReadFile_mscp cd name pb cb hc, if_neg h1, if_neg h2]
  · intro pm pc buf hN halloc
    obtain ⟨m, h1, h2⟩ := CardEnumFiles_mscp behind cd pm pc buf hN halloc
    refine ⟨m, h1, ?_⟩
    rw [h2]
    apply parseMultiSz_words
    intro w hw
    rcases List.mem_cons.mp hw with rfl | hw
    · exact ⟨by decide, by decide⟩
    · obtain ⟨i, _, rfl⟩ := List.mem_map.mp hw
      exact kxcName_wellformed i

set_option maxRecDepth 100000 in
theorem kxcName_parsed : ∀ i, i < 100 →
    checkFileName (kxcName i) = SCARD_S_SUCCESS ∧
    (kxcName i).take 3 = szUSER_KEYEXCHANGE_CERT_PREFIX ∧
    kxcName i ≠ szCONTAINER_MAP_FILE ∧
    atoi ((kxcName i).drop 3) = (i : Int) := by
  decide

theorem readCertificate_unmatched (cd : CARD_DATA) (N : Nat) (key : p11Object_t)
    (attr : p11Attribute_t) (pb : Option FileData) (cb : Nat) (h100 : N < 100)
    (hkey : cd.token.tokenPrivObjList[N]? = some key)
    (hid : findAttribute key CKA_ID = some attr)
    (hcert : findMatchingTokenObjectById cd.token CKO_CERTIFICATE attr.pValue = none) :
    CardReadFile (some cd) (some szBASE_CSP_DIR) (some (kxcName N)) 0 (some pb) (some cb)
      = some (SCARD_E_UNEXPECTED, some pb, some cb) := by
  obtain ⟨h1, h2, h3, h4⟩ := kxcName_parsed N h100
  have hN : N < cd.token.tokenPrivObjList.length := by
    by_contra hge
    rw [List.getElem?_eq_none (by omega)] at hkey
    exact Option.noConfusion hkey
  rw [CardReadFile_mscp cd (kxcName N) pb cb h1, if_neg h3, if_pos h2, h4]
  simp only [readCertificate, getKeyForIndex_eq cd N hN, hkey, hid, hcert]

/-- C11 (root files, on a host whose allocator returns a buffer): for every
context with a 16-byte serial number and every state of the token's object
lists, with a null directory and flags 0, `CardReadFile` for `cardid` returns
Success with a 16-byte buffer holding the first 16 bytes of the serial
number, provided the allocator returns a buffer for 16 bytes; and
`CardReadFile` for `cardapps` returns Success with the 8 bytes
`m`, `s`, `c`, `p`, 0, 0, 0, 0, provided the allocator returns a buffer for 8
bytes. Nothing else of the token enters either result. -/
theorem CardReadFile_root_files (cd : CARD_DATA) (pb : Option FileData) (cb : Nat) :
    (∀ buf : Mem, 16 ≤ cd.token.serialNumber.length → cd.pfnCspAlloc 16 = some buf →
      CardReadFile (some cd) none (some szCARD_IDENTIFIER_FILE) 0 (some pb) (some cb)
        = some (SCARD_S_SUCCESS,
            some (some (FileData.bytes (storeBytes buf 0 (cd.token.serialNumber.take 16)))),
            some 16) ∧
      Mem.bytes (storeBytes buf 0 (cd.token.serialNumber.take 16)) 0 16
        = cd.token.serialNumber.take 16) ∧
    (∀ buf : Mem, cd.pfnCspAlloc 8 = some buf →
      CardReadFile (some cd) none (some (wide "cardapps")) 0 (some pb) (some cb)
        = some (SCARD_S_SUCCESS,
            some (some (FileData.bytes (storeBytes buf 0 [109, 115, 99, 112, 0, 0, 0, 0]))),
            some 8) ∧
      Mem.bytes (storeBytes buf 0 [109, 115, 99, 112, 0, 0, 0, 0]) 0 8
        = [109, 115, 99, 112, 0, 0, 0, 0]) := by
  constructor
  · intro buf hS halloc
    have hlen : (cd.token.serialNumber.take 16).length = 16 := by
      rw [List.length_take]; omega
    constructor
    · rw [CardReadFile_root cd szCARD_IDENTIFIER_FILE pb cb (by decide)]
      simp only [if_true, hlen, halloc, if_neg (Nat.not_lt.mpr hS)]
    · have h := storeBytes_bytes buf 0 (cd.token.serialNumber.take 16)
      rwa [hlen] at h
  · intro buf halloc
    constructor
    · rw [CardReadFile_root cd (wide "cardapps") pb cb (by decide),
        if_neg (by decide), if_neg (by decide), if_pos rfl]
      simp only [halloc]
    · exact storeBytes_bytes buf 0 [109, 115, 99, 112, 0, 0, 0, 0]

/-- Counterexample to C11 as stated: on a host whose allocator returns null,
with non-null context and outputs, null directory and flags 0, the call for
`cardapps` copies into the null buffer and returns no status. -/
theorem CardReadFile_cardapps_null_allocator :
    nullHost.pfnCspAlloc 8 = none ∧
    CardReadFile (some nullHost) none (some (wide "cardapps")) 0 (some none) (some 0) = none := by
  refine ⟨rfl, ?_⟩
  rw [CardReadFile_root nullHost (wide "cardapps") none 0 (by decide),
    if_neg (by decide), if_neg (by decide), if_pos rfl]
  rfl

/-- C12 (missing certificate, with the status the code returns): for a
container index `N < 100` whose private key `key` exists and has the
identifier attribute `attr`, when no certificate object of the token has the
same identifier, `CardReadFile` on `"mscp"`/`kxcNN` fails with
`SCARD_E_UNEXPECTED` and leaves the data pointer and the length output as
they were. -/
theorem CardReadFile_missing_certificate (cd : CARD_DATA) (N : Nat) (key : p11Object_t)
    (attr : p11Attribute_t) (pb : Option FileData) (cb : Nat) (h100 : N < 100)
    (hkey : cd.token.tokenPrivObjList[N]? = some key)
    (hid : findAttribute key CKA_ID = some attr)
    (hcert : ∀ o ∈ cd.token.tokenObjList, o.objClass = CKO_CERTIFICATE →
      ∀ a, findAttribute o CKA_ID = some a → a.pValue ≠ attr.pValue) :
    N < cd.token.tokenPrivObjList.length ∧
    CardReadFile (some cd) (some szBASE_CSP_DIR) (some (kxcName N)) 0 (some pb) (some cb)
      = some (SCARD_E_UNEXPECTED, some pb, some cb) := by
  have hN : N < cd.token.tokenPrivObjList.length := by
    by_contra hge
    rw [List.getElem?_eq_none (by omega)] at hkey
    exact Option.noConfusion hkey
  refine ⟨hN, readCertificate_unmatched cd N key attr pb cb h100 hkey hid ?_⟩
  unfold findMatchingTokenObjectById
  rw [List.find?_eq_none]
  intro o ho
  by_cases hc : o.objClass = CKO_CERTIFICATE
  · cases ha : findAttribute o CKA_ID with
    | none => simp
    | some a => simp [hcert o ho hc a ha]
  · simp [hc]

/-- Counterexample to C12 as stated: the sample token has two private keys
with identifiers and no certificate; reading `kxc00` fails with
`SCARD_E_UNEXPECTED`, which is not `SCARD_E_FILE_NOT_FOUND`. -/
theorem missing_certificate_is_unexpected :
    sampleHost.token.tokenObjList = [] ∧
    CardReadFile (some sampleHost) (some szBASE_CSP_DIR) (some (wide "kxc00")) 0
        (some none) (some 0)
      = some (SCARD_E_UNEXPECTED, some none, some 0) ∧
    SCARD_E_UNEXPECTED ≠ SCARD_E_FILE_NOT_FOUND :=
  ⟨rfl, readCertificate_unmatched sampleHost 0 (privateKey [1, 2, 3, 4] 2048)
    { attrType := CKA_ID, pValue := [1, 2, 3, 4] } none 0 (by decide) rfl rfl rfl, by decide⟩

/-- C13 (enumerated certificate names address their container, for at most
100 containers): on a token with `n <= 100` private keys and a host whose
allocator returns a buffer for the listing, `CardEnumFiles` for `"mscp"`
returns Success, and for every `i < n` the entry after `cmapfile` and `i`
further names is `kxc` followed by the two decimal digits of `i`; the index
`atoi` parses from that name is `i`, `getKeyForIndex` selects the `i`-th
private key with it, and when a certificate with that key's identifier
exists, has a value attribute and the allocator returns a buffer for it,
`CardReadFile` for `"mscp"` and that name returns Success with exactly the
certificate's value bytes and their length. -/
theorem enumerated_names_address_containers (behind : Mem) (cd : CARD_DATA)
    (pm : Option Mem) (pc : Nat) (buf : Mem)
    (hN : cd.token.tokenPrivObjList.length ≤ 100)
    (halloc : cd.pfnCspAlloc (10 + 6 * cd.token.tokenPrivObjList.length) = some buf) :
    ∃ m, CardEnumFiles behind (some cd) (some szBASE_CSP_DIR) (some pm) (some pc) 0
        = some (SCARD_S_SUCCESS, some (some m), some (10 + 6 * cd.token.tokenPrivObjList.length)) ∧
      ∀ i, i < cd.token.tokenPrivObjList.length →
        (parseMultiSz (Mem.bytes m 0 (10 + 6 * cd.token.tokenPrivObjList.length)) [])[i + 1]?
          = some (kxcName i) ∧
        kxcName i = szUSER_KEYEXCHANGE_CERT_PREFIX ++ [48 + i / 10, 48 + i % 10] ∧
        i / 10 < 10 ∧
        atoi ((kxcName i).drop 3) = (i : Int) ∧
        getKeyForIndex cd (atoi ((kxcName i).drop 3)) = some i ∧
        ∀ (key : p11Object_t) (attr : p11Attribute_t) (cert : p11Object_t)
          (value : p11Attribute_t) (cbuf : Mem) (pb : Option FileData) (cb : Nat),
          cd.token.tokenPrivObjList[i]? = some key →
          findAttribute key CKA_ID = some attr →
          findMatchingTokenObjectById cd.token CKO_CERTIFICATE attr.pValue = some cert →
          findAttribute cert CKA_VALUE = some value →
          cd.pfnCspAlloc value.pValue.length = some cbuf →
          CardReadFile (some cd) (some szBASE_CSP_DIR) (some (kxcName i)) 0 (some pb) (some cb)
            = some (SCARD_S_SUCCESS,
                some (some (FileData.bytes (storeBytes cbuf 0 value.pValue))),
                some value.pValue.length) ∧
          Mem.bytes (storeBytes cbuf 0 value.pValue) 0 value.pValue.length = value.pValue := by
  obtain ⟨m, h1, h2⟩ := CardEnumFiles_mscp behind cd pm pc buf hN halloc
  refine ⟨m, h1, ?_⟩
  intro i hi
  have hlist : parseMultiSz (Mem.bytes m 0 (10 + 6 * cd.token.tokenPrivObjList.length)) []
      = szCONTAINER_MAP_FILE :: (List.range cd.token.tokenPrivObjList.length).map kxcName := by
    rw [h2]
    apply parseMultiSz_words
    intro w hw
    rcases List.mem_cons.mp hw with rfl | hw
    · exact ⟨by decide, by decide⟩
    · obtain ⟨j, _, rfl⟩ := List.mem_map.mp hw
      exact kxcName_wellformed j
  have hi100 : i < 100 := by omega
  obtain ⟨k1, k2, k3, k4⟩ := kxcName_parsed i hi100
  refine ⟨?_, rfl, by omega, k4, ?_, ?_⟩
  · rw [hlist]
    simp [hi]
  · rw [k4]
    exact getKeyForIndex_eq cd i hi
  · intro key attr cert value cbuf pb cb hk ha hc hv hal
    refine ⟨?_, storeBytes_bytes cbuf 0 value.pValue⟩
    rw [CardReadFile_mscp cd (kxcName i) pb cb k1, if_neg k3, if_pos k2, k4]
    simp only [readCertificate, getKeyForIndex_eq cd i hi, hk, ha, hc, hv, hal]

/-- Counterexample to C13 as stated: on a token with 101 private keys the
name of container 100 needs three digits, the call of `sprintf_s` for it
fails, and `CardEnumFiles` for `"mscp"` returns no listing, so there is no
entry for `i = 100`. -/
theorem CardEnumFiles_no_entry_for_container_100 :
    (hostWith sampleSerial (List.replicate 101 (privateKey [7] 256))).token.tokenPrivObjList.length
      = 101 ∧
    (fmt_02i 100).length = 3 ∧
    (sprintf_s_kxc (fun _ => 0) 609 6 100).isNone = true ∧
    (CardEnumFiles (fun _ => 0xcc)
      (some (hostWith sampleSerial (List.replicate 101 (privateKey [7] 256))))
      (some szBASE_CSP_DIR) (some none) (some 0) 0).isNone = true := by
  decide

/-- C14 (GetFileInfo agrees with ReadFile): for every context, directory
name, file name and file-info structure whose version is at most
`CARD_FILE_INFO_CURRENT_VERSION`, `CardGetFileInfo` has a status exactly when
`CardReadFile` with flags 0 has one on the same token state, whatever the
caller's output variables hold, and the two statuses are equal; and when
`CardReadFile` returns Success and reports the length `n`, `CardGetFileInfo`
returns Success with `cbFileSize = n`. -/
theorem CardGetFileInfo_agrees_with_CardReadFile (pCardData : Option CARD_DATA)
    (dir name : Option (List Nat)) (info : CARD_FILE_INFO) (pb : Option FileData) (cb : Nat)
    (hver : info.dwVersion ≤ CARD_FILE_INFO_CURRENT_VERSION) :
    (CardGetFileInfo pCardData dir name (some info)).map Prod.fst
      = (CardReadFile pCardData dir name 0 (some pb) (some cb)).map Prod.fst ∧
    (∀ (d : Option (Option FileData)) (n : Nat),
      CardReadFile pCardData dir name 0 (some pb) (some cb) = some (SCARD_S_SUCCESS, d, some n) →
      ∃ info2, CardGetFileInfo pCardData dir name (some info) = some (SCARD_S_SUCCESS, some info2) ∧
        info2.cbFileSize = n) := by
  have hv : ¬ info.dwVersion > CARD_FILE_INFO_CURRENT_VERSION := by omega
  rw [CardReadFile_outputs pCardData dir name 0 pb cb]
  unfold CardGetFileInfo
  simp only [hv, if_false]
  cases hR : CardReadFile pCardData dir name 0 (some none) (some 0) with
  | none => simp
  | some r =>
    obtain ⟨st, d0, n0⟩ := r
    by_cases hst : st = SCARD_S_SUCCESS
    · subst hst
      simp only [ne_eq, not_true_eq_false, if_false, if_true, Option.map_some', true_and]
      intro d n h
      simp only [Option.some.injEq, Prod.mk.injEq, true_and] at h
      refine ⟨_, rfl, ?_⟩
      simp [h.2]
    · simp [hst]

/-! ## Context acquisition -/

theorem foldl_storeEntry (ws : List (Field × Entry)) : ∀ (t : Field → Entry) (f : Field),
    ws.foldl storeEntry t f
      = ((ws.reverse.find? (fun s => decide (s.1 = f))).map Prod.snd).getD (t f) := by
  induction ws with
  | nil => intro t f; rfl
  | cons w ws ih =>
    intro t f
    rw [List.foldl_cons, ih, List.reverse_cons, List.find?_append]
    cases h : ws.reverse.find? (fun s => decide (s.1 = f)) with
    | some x => simp
    | none =>
      by_cases hf : f = w.1
      · simp [storeEntry, hf]
      · have hf2 : ¬ w.1 = f := fun e => hf e.symm
        simp [storeEntry, hf, hf2]

theorem foldl_storeEntry_frame (ws : List (Field × Entry)) (t : Field → Entry) (f : Field)
    (h : f ∉ ws.map Prod.fst) : ws.foldl storeEntry t f = t f := by
  rw [foldl_storeEntry]
  have hnone : ws.reverse.find? (fun s => decide (s.1 = f)) = none := by
    rw [List.find?_eq_none]
    intro x hx
    have hx2 : x ∈ ws := List.mem_reverse.mp hx
    have : x.1 ≠ f := by
      intro e
      exact h (List.mem_map.mpr ⟨x, hx2, e⟩)
    simpa using this
  rw [hnone]
  rfl

theorem CardAcquireContext_passed (fw : TokenFramework) (d : CARD_DATA_FIELDS) (atr name : List Nat)
    (alloc : Nat → Option Nat) (re fr : Nat)
    (hver : 4 ≤ d.dwVersion) (hatr : d.pbAtr = some atr) (hcb : 4 ≤ d.cbAtr)
    (hname : d.pwszCardName = some name) (halloc : d.pfnCspAlloc = some alloc)
    (hre : d.pfnCspReAlloc = some re) (hfree : d.pfnCspFree = some fr) (hcard : d.hScard ≠ 0) :
    CardAcquireContext fw (some d) 0 =
      match alloc fw.sizeof_p11Slot_t with
      | none =>
        { status := SCARD_E_NO_MEMORY,
          pCardData := some { d with dwVersion := min d.dwVersion 7,
                                     table := (tableStores (min d.dwVersion 7)).foldl storeEntry
                                       d.table,
                                     pvVendorSpecific := none },
          calls := [HostCall.pfnCspAlloc fw.sizeof_p11Slot_t] }
      | some p =>
        if fw.newToken (initSlot fw d) atr d.cbAtr ≠ CKR_OK then
          { status := SCARD_E_UNEXPECTED,
            pCardData := some { d with dwVersion := min d.dwVersion 7,
                                       table := (tableStores (min d.dwVersion 7)).foldl storeEntry
                                         d.table,
                                       pvVendorSpecific := none },
            calls := [HostCall.pfnCspAlloc fw.sizeof_p11Slot_t,
                      HostCall.newToken (initSlot fw d)
                        atr d.cbAtr,
                      HostCall.pfnCspFree p] }
        else
          { status := SCARD_S_SUCCESS,
            pCardData := some { d with dwVersion := min d.dwVersion 7,
                                       table := (tableStores (min d.dwVersion 7)).foldl storeEntry
                                         d.table,
                                       pvVendorSpecific := some p },
            calls := [HostCall.pfnCspAlloc fw.sizeof_p11Slot_t,
                      HostCall.newToken (initSlot fw d)
                        atr d.cbAtr] } := by
  have hv : (if d.dwVersion > MAXIMUM_SUPPORTED_VERSION then MAXIMUM_SUPPORTED_VERSION
      else d.dwVersion) = min d.dwVersion 7 := by
    unfold MAXIMUM_SUPPORTED_VERSION
    split <;> omega
  have h1 : ¬ d.dwVersion < MINIMUM_SUPPORTED_VERSION := by
    unfold MINIMUM_SUPPORTED_VERSION; omega
  have h2 : ¬ d.cbAtr < 4 := by omega
  simp only [CardAcquireContext, ne_eq, not_true_eq_false, if_false, h1, hatr, h2, hname,
    Option.isNone_some, Bool.false_eq_true, halloc, hre, hfree, hcard, hv]

/-- C21 (validation of `CardAcquireContext`): whenever one of the failure
conditions holds (descriptor null; flags not 0; requested version below 4;
card-identity bytes null or shorter than 4; card name null; one of the three
allocator callbacks null; card handle 0), the call returns the status of the
first condition that holds, in this order, hands the descriptor back with
every member as it was, and makes no call to the allocator, to `newToken` or
to the free callback. -/
theorem CardAcquireContext_validation (fw : TokenFramework)
    (pCardData : Option CARD_DATA_FIELDS) (dwFlags : Nat)
    (h : ∃ c ∈ acquireFailures pCardData dwFlags, c.1 = true) :
    ∃ st, ((acquireFailures pCardData dwFlags).find? (fun c => c.1)).map Prod.snd = some st ∧
      CardAcquireContext fw pCardData dwFlags
        = { status := st, pCardData := pCardData, calls := [] } := by
  cases pCardData with
  | none => exact ⟨SCARD_E_INVALID_PARAMETER, rfl, rfl⟩
  | some d =>
    by_cases h1 : dwFlags = 0
    swap
    · exact ⟨SCARD_E_INVALID_PARAMETER, by simp [acquireFailures, h1],
        by simp [CardAcquireContext, h1]⟩
    by_cases h2 : d.dwVersion < 4
    · exact ⟨ERROR_REVISION_MISMATCH, by simp [acquireFailures, h1, h2],
        by simp [CardAcquireContext, h1, h2, MINIMUM_SUPPORTED_VERSION]⟩
    cases h3 : d.pbAtr with
    | none =>
      exact ⟨SCARD_E_INVALID_PARAMETER, by simp [acquireFailures, h1, h2, h3],
        by simp [CardAcquireContext, h1, h2, h3, MINIMUM_SUPPORTED_VERSION]⟩
    | some atr =>
      by_cases h4 : d.cbAtr < 4
      · exact ⟨SCARD_E_INVALID_PARAMETER, by simp [acquireFailures, h1, h2, h3, h4],
          by simp [CardAcquireContext, h1, h2, h3, h4, MINIMUM_SUPPORTED_VERSION]⟩
      cases h5 : d.pwszCardName with
      | none =>
        exact ⟨SCARD_E_INVALID_PARAMETER, by simp [acquireFailures, h1, h2, h3, h4, h5],
          by simp [CardAcquireContext, h1, h2, h3, h4, h5, MINIMUM_SUPPORTED_VERSION]⟩
      | some name =>
        cases h6 : d.pfnCspAlloc with
        | none =>
          exact ⟨SCARD_E_INVALID_PARAMETER, by simp [acquireFailures, h1, h2, h3, h4, h5, h6],
            by simp [CardAcquireContext, h1, h2, h3, h4, h5, h6, MINIMUM_SUPPORTED_VERSION]⟩
        | some alloc =>
          cases h7 : d.pfnCspReAlloc with
          | none =>
            exact ⟨SCARD_E_INVALID_PARAMETER,
              by simp [acquireFailures, h1, h2, h3, h4, h5, h6, h7],
              by simp [CardAcquireContext, h1, h2, h3, h4, h5, h6, h7,
                MINIMUM_SUPPORTED_VERSION]⟩
          | some re =>
            cases h8 : d.pfnCspFree with
            | none =>
              exact ⟨SCARD_E_INVALID_PARAMETER,
                by simp [acquireFailures, h1, h2, h3, h4, h5, h6, h7, h8],
                by simp [CardAcquireContext, h1, h2, h3, h4, h5, h6, h7, h8,
                  MINIMUM_SUPPORTED_VERSION]⟩
            | some fr =>
              by_cases h9 : d.hScard = 0
              · exact ⟨SCARD_E_INVALID_HANDLE,
                  by simp [acquireFailures, h1, h2, h3, h4, h5, h6, h7, h8, h9],
                  by simp [CardAcquireContext, h1, h2, h3, h4, h5, h6, h7, h8, h9,
                    MINIMUM_SUPPORTED_VERSION]⟩
              · exfalso
                obtain ⟨c, hc, hc1⟩ := h
                simp [acquireFailures, h1, h2, h3, h4, h5, h6, h7, h8, h9] at hc
                rcases hc with rfl | rfl | rfl | rfl | rfl | rfl | rfl <;> simp at hc1

theorem CardAcquireContext_descriptor (fw : TokenFramework) (d : CARD_DATA_FIELDS)
    (atr name : List Nat) (alloc : Nat → Option Nat) (re fr : Nat)
    (hver : 4 ≤ d.dwVersion) (hatr : d.pbAtr = some atr) (hcb : 4 ≤ d.cbAtr)
    (hname : d.pwszCardName = some name) (halloc : d.pfnCspAlloc = some alloc)
    (hre : d.pfnCspReAlloc = some re) (hfree : d.pfnCspFree = some fr) (hcard : d.hScard ≠ 0) :
    ∃ d2, (CardAcquireContext fw (some d) 0).pCardData = some d2 ∧
      d2.dwVersion = min d.dwVersion 7 ∧
      d2.table = (tableStores (min d.dwVersion 7)).foldl storeEntry d.table := by
  rw [CardAcquireContext_passed fw d atr name alloc re fr hver hatr hcb hname halloc hre hfree
    hcard]
  cases alloc fw.sizeof_p11Slot_t with
  | none => exact ⟨_, rfl, rfl, rfl⟩
  | some p =>
    by_cases hrc : fw.newToken (initSlot fw d) atr d.cbAtr = CKR_OK
    · simp only []
      rw [if_neg (not_not.mpr hrc)]
      exact ⟨_, rfl, rfl, rfl⟩
    · simp only []
      rw [if_pos hrc]
      exact ⟨_, rfl, rfl, rfl⟩

theorem table_value (ws : List (Field × Entry)) (t : Field → Entry) (f : Field) (e : Entry)
    (h : (ws.reverse.find? (fun s => decide (s.1 = f))).map Prod.snd = some e) :
    ws.foldl storeEntry t f = e := by
  rw [foldl_storeEntry, h]
  rfl

theorem negotiated_version (r : Nat) (h : 4 ≤ r) :
    min r 7 = 4 ∨ min r 7 = 5 ∨ min r 7 = 6 ∨ min r 7 = 7 := by
  omega

/-- C22 (version negotiation and no partial context): for a descriptor that
passes the checks with requested version `r >= 4`, `CardAcquireContext`
leaves the version member equal to `min r 7`, which lies between 4 and 7.
When the allocation of the context fails it returns `SCARD_E_NO_MEMORY` with
a null vendor-specific pointer and no further call; when `newToken` does not
return `CKR_OK` it returns `SCARD_E_UNEXPECTED` with a null vendor-specific
pointer, having handed the allocated block to the free callback exactly once;
when `newToken` succeeds it returns Success with the block as the
vendor-specific pointer and nothing freed. -/
theorem CardAcquireContext_negotiation (fw : TokenFramework) (d : CARD_DATA_FIELDS)
    (atr name : List Nat) (alloc : Nat → Option Nat) (re fr : Nat)
    (hver : 4 ≤ d.dwVersion) (hatr : d.pbAtr = some atr) (hcb : 4 ≤ d.cbAtr)
    (hname : d.pwszCardName = some name) (halloc : d.pfnCspAlloc = some alloc)
    (hre : d.pfnCspReAlloc = some re) (hfree : d.pfnCspFree = some fr) (hcard : d.hScard ≠ 0) :
    ∃ d2, (CardAcquireContext fw (some d) 0).pCardData = some d2 ∧
      d2.dwVersion = min d.dwVersion 7 ∧ 4 ≤ d2.dwVersion ∧ d2.dwVersion ≤ 7 ∧
      (alloc fw.sizeof_p11Slot_t = none →
        (CardAcquireContext fw (some d) 0).status = SCARD_E_NO_MEMORY ∧
        d2.pvVendorSpecific = none ∧
        (CardAcquireContext fw (some d) 0).calls = [HostCall.pfnCspAlloc fw.sizeof_p11Slot_t]) ∧
      (∀ p, alloc fw.sizeof_p11Slot_t = some p →
        fw.newToken (initSlot fw d) atr d.cbAtr ≠ CKR_OK →
        (CardAcquireContext fw (some d) 0).status = SCARD_E_UNEXPECTED ∧
        d2.pvVendorSpecific = none ∧
        (CardAcquireContext fw (some d) 0).calls
          = [HostCall.pfnCspAlloc fw.sizeof_p11Slot_t,
             HostCall.newToken (initSlot fw d)
               atr d.cbAtr,
             HostCall.pfnCspFree p] ∧
        (CardAcquireContext fw (some d) 0).calls.count (HostCall.pfnCspFree p) = 1 ∧
        (∀ q, HostCall.pfnCspFree q ∈ (CardAcquireContext fw (some d) 0).calls → q = p)) ∧
      (∀ p, alloc fw.sizeof_p11Slot_t = some p →
        fw.newToken (initSlot fw d) atr d.cbAtr = CKR_OK →
        (CardAcquireContext fw (some d) 0).status = SCARD_S_SUCCESS ∧
        d2.pvVendorSpecific = some p ∧
        (∀ q, HostCall.pfnCspFree q ∉ (CardAcquireContext fw (some d) 0).calls)) := by
  rw [CardAcquireContext_passed fw d atr name alloc re fr hver hatr hcb hname halloc hre hfree
    hcard]
  cases hA : alloc fw.sizeof_p11Slot_t with
  | none =>
    refine ⟨_, rfl, rfl, ?_, ?_, ?_, ?_, ?_⟩
    · show 4 ≤ min d.dwVersion 7
      omega
    · show min d.dwVersion 7 ≤ 7
      omega
    · intro _
      exact ⟨rfl, rfl, rfl⟩
    · intro p hp
      exact Option.noConfusion hp
    · intro p hp
      exact Option.noConfusion hp
  | some p0 =>
    by_cases hrc : fw.newToken (initSlot fw d) atr d.cbAtr = CKR_OK
    · simp only []
      rw [if_neg (not_not.mpr hrc)]
      refine ⟨_, rfl, rfl, ?_, ?_, ?_, ?_, ?_⟩
      · show 4 ≤ min d.dwVersion 7
        omega
      · show min d.dwVersion 7 ≤ 7
        omega
      · intro h
        exact Option.noConfusion h
      · intro p _ h
        exact absurd hrc h
      · intro p hp _
        have hpp : p0 = p := Option.some.inj hp
        subst hpp
        refine ⟨rfl, rfl, ?_⟩
        intro q hq
        have hq2 : HostCall.pfnCspFree q ∈ [HostCall.pfnCspAlloc fw.sizeof_p11Slot_t,
            HostCall.newToken (initSlot fw d) atr d.cbAtr] := hq
        simp at hq2
    · simp only []
      rw [if_pos hrc]
      refine ⟨_, rfl, rfl, ?_, ?_, ?_, ?_, ?_⟩
      · show 4 ≤ min d.dwVersion 7
        omega
      · show min d.dwVersion 7 ≤ 7
        omega
      · intro h
        exact Option.noConfusion h
      · intro p hp _
        have hpp : p0 = p := Option.some.inj hp
        subst hpp
        refine ⟨rfl, rfl, rfl, ?_, ?_⟩
        · show [HostCall.pfnCspAlloc fw.sizeof_p11Slot_t,
            HostCall.newToken (initSlot fw d) atr d.cbAtr,
            HostCall.pfnCspFree p0].count (HostCall.pfnCspFree p0) = 1
          simp [List.count_cons]
        · intro q hq
          have hq2 : HostCall.pfnCspFree q ∈ [HostCall.pfnCspAlloc fw.sizeof_p11Slot_t,
              HostCall.newToken (initSlot fw d) atr d.cbAtr, HostCall.pfnCspFree p0] := hq
          simpa using hq2
      · intro p _ h
        exact absurd h hrc

set_option maxRecDepth 100000 in
theorem tableStores_gate : ∀ v ∈ [4, 5, 6, 7],
    (∀ f ∈ version5Fields, (f ∈ (tableStores v).map Prod.fst ↔ 5 ≤ v)) ∧
    (∀ f ∈ version6Fields, (f ∈ (tableStores v).map Prod.fst ↔ 6 ≤ v)) ∧
    (∀ f ∈ version7Fields, (f ∈ (tableStores v).map Prod.fst ↔ 7 ≤ v)) := by
  decide

set_option maxRecDepth 100000 in
theorem tableStores_values : ∀ v ∈ [4, 5, 6, 7],
    (∀ f ∈ unimplementedBase,
      ((tableStores v).reverse.find? (fun s => decide (s.1 = f))).map Prod.snd
        = some Entry.UnsupportedFeature) ∧
    ((tableStores v).reverse.find? (fun s => decide (s.1 = Field.pfnCardConstructDHAgreement))).map
        Prod.snd = some Entry.null ∧
    (5 ≤ v → ∀ f ∈ version5Fields,
      ((tableStores v).reverse.find? (fun s => decide (s.1 = f))).map Prod.snd
        = some Entry.null) ∧
    (6 ≤ v → ∀ f ∈ unimplementedSix,
      ((tableStores v).reverse.find? (fun s => decide (s.1 = f))).map Prod.snd
        = some Entry.UnsupportedFeature) ∧
    (6 ≤ v →
      ((tableStores v).reverse.find? (fun s => decide (s.1 = Field.pfnCardGetContainerProperty))).map
          Prod.snd = some Entry.CardGetContainerProperty ∧
      ((tableStores v).reverse.find? (fun s => decide (s.1 = Field.pfnCardGetProperty))).map
          Prod.snd = some Entry.CardGetProperty) ∧
    (7 ≤ v → ∀ f ∈ version7Fields,
      ((tableStores v).reverse.find? (fun s => decide (s.1 = f))).map Prod.snd
        = some Entry.UnsupportedFeature) := by
  decide

theorem negotiated_version_mem (r : Nat) (h : 4 ≤ r) : min r 7 ∈ [4, 5, 6, 7] := by
  rcases negotiated_version r h with e | e | e | e <;> rw [e] <;> decide

set_option maxRecDepth 100000 in
theorem tableStores_gated_values : ∀ v ∈ [4, 5, 6, 7],
    (5 ≤ v → ∀ f ∈ version5Fields,
      ((tableStores v).reverse.find? (fun s => decide (s.1 = f))).map Prod.snd
        = some Entry.null) ∧
    (6 ≤ v → ∀ f ∈ version6Fields,
      ((tableStores v).reverse.find? (fun s => decide (s.1 = f))).map Prod.snd
        = some (if f = Field.pfnCardGetContainerProperty then Entry.CardGetContainerProperty
            else if f = Field.pfnCardGetProperty then Entry.CardGetProperty
            else Entry.UnsupportedFeature)) ∧
    (7 ≤ v → ∀ f ∈ version7Fields,
      ((tableStores v).reverse.find? (fun s => decide (s.1 = f))).map Prod.snd
        = some Entry.UnsupportedFeature) := by
  decide

theorem changed_iff (v N : Nat) (before after installed : Entry) (a : Nat)
    (hin : N ≤ v → after = installed) (hout : v < N → after = before)
    (hprior : before = Entry.other a) (hne : installed ≠ Entry.other a) :
    after ≠ before ↔ N ≤ v := by
  constructor
  · intro h
    by_contra hlt
    exact h (hout (by omega))
  · intro h
    rw [hin h, hprior]
    exact hne

/-- C23 (version-gated table): for a descriptor that passes the checks, with
`v = min r 7` the negotiated version. An entry introduced with version 5 holds
null after the call when `v >= 5`; one introduced with version 6 holds the
function the source installs when `v >= 6` (`CardGetContainerProperty`,
`CardGetProperty`, and the stub `UnsupportedFeature` for the six others); one
introduced with version 7 holds the stub when `v >= 7`; whatever the entry held
before. For a lower `v` the entry holds exactly the value it had before the
call. So an entry that held a foreign pointer before the call differs after
it exactly when `v` reaches its version, and it is among the members the
call assigns exactly then. -/
theorem CardAcquireContext_version_gated (fw : TokenFramework) (d : CARD_DATA_FIELDS)
    (atr name : List Nat) (alloc : Nat → Option Nat) (re fr : Nat)
    (hver : 4 ≤ d.dwVersion) (hatr : d.pbAtr = some atr) (hcb : 4 ≤ d.cbAtr)
    (hname : d.pwszCardName = some name) (halloc : d.pfnCspAlloc = some alloc)
    (hre : d.pfnCspReAlloc = some re) (hfree : d.pfnCspFree = some fr) (hcard : d.hScard ≠ 0) :
    ∃ d2, (CardAcquireContext fw (some d) 0).pCardData = some d2 ∧
      d2.dwVersion = min d.dwVersion 7 ∧
      d2.table = (tableStores d2.dwVersion).foldl storeEntry d.table ∧
      (∀ f ∈ version5Fields,
        (5 ≤ d2.dwVersion → d2.table f = Entry.null) ∧
        (d2.dwVersion < 5 → d2.table f = d.table f) ∧
        (∀ a, d.table f = Entry.other a → (d2.table f ≠ d.table f ↔ 5 ≤ d2.dwVersion)) ∧
        (f ∈ (tableStores d2.dwVersion).map Prod.fst ↔ 5 ≤ d2.dwVersion)) ∧
      (∀ f ∈ version6Fields,
        (6 ≤ d2.dwVersion → d2.table f =
          (if f = Field.pfnCardGetContainerProperty then Entry.CardGetContainerProperty
           else if f = Field.pfnCardGetProperty then Entry.CardGetProperty
           else Entry.UnsupportedFeature)) ∧
        (d2.dwVersion < 6 → d2.table f = d.table f) ∧
        (∀ a, d.table f = Entry.other a → (d2.table f ≠ d.table f ↔ 6 ≤ d2.dwVersion)) ∧
        (f ∈ (tableStores d2.dwVersion).map Prod.fst ↔ 6 ≤ d2.dwVersion)) ∧
      (∀ f ∈ version7Fields,
        (7 ≤ d2.dwVersion → d2.table f = Entry.UnsupportedFeature) ∧
        (d2.dwVersion < 7 → d2.table f = d.table f) ∧
        (∀ a, d.table f = Entry.other a → (d2.table f ≠ d.table f ↔ 7 ≤ d2.dwVersion)) ∧
        (f ∈ (tableStores d2.dwVersion).map Prod.fst ↔ 7 ≤ d2.dwVersion)) := by
  obtain ⟨d2, h1, h2, h3⟩ := CardAcquireContext_descriptor fw d atr name alloc re fr hver hatr hcb
    hname halloc hre hfree hcard
  have hg := tableStores_gate (min d.dwVersion 7) (negotiated_version_mem d.dwVersion hver)
  have hval := tableStores_gated_values (min d.dwVersion 7)
    (negotiated_version_mem d.dwVersion hver)
  rw [← h2] at hg hval h3
  refine ⟨d2, h1, h2, h3, ?_, ?_, ?_⟩
  · intro f hf
    have hin : 5 ≤ d2.dwVersion → d2.table f = Entry.null := fun h => by
      rw [h3]
      exact table_value _ _ _ _ (hval.1 h f hf)
    have hout : d2.dwVersion < 5 → d2.table f = d.table f := fun hlt => by
      rw [h3]
      exact foldl_storeEntry_frame _ _ _ (fun hmem => by
        have := (hg.1 f hf).mp hmem
        omega)
    exact ⟨hin, hout, fun a ha => changed_iff _ _ _ _ _ a hin hout ha (by simp), hg.1 f hf⟩
  · intro f hf
    have hin : 6 ≤ d2.dwVersion → d2.table f =
        (if f = Field.pfnCardGetContainerProperty then Entry.CardGetContainerProperty
         else if f = Field.pfnCardGetProperty then Entry.CardGetProperty
         else Entry.UnsupportedFeature) := fun h => by
      rw [h3]
      exact table_value _ _ _ _ (hval.2.1 h f hf)
    have hout : d2.dwVersion < 6 → d2.table f = d.table f := fun hlt => by
      rw [h3]
      exact foldl_storeEntry_frame _ _ _ (fun hmem => by
        have := (hg.2.1 f hf).mp hmem
        omega)
    exact ⟨hin, hout, fun a ha => changed_iff _ _ _ _ _ a hin hout ha
      (by split_ifs <;> simp), hg.2.1 f hf⟩
  · intro f hf
    have hin : 7 ≤ d2.dwVersion → d2.table f = Entry.UnsupportedFeature := fun h => by
      rw [h3]
      exact table_value _ _ _ _ (hval.2.2 h f hf)
    have hout : d2.dwVersion < 7 → d2.table f = d.table f := fun hlt => by
      rw [h3]
      exact foldl_storeEntry_frame _ _ _ (fun hmem => by
        have := (hg.2.2 f hf).mp hmem
        omega)
    exact ⟨hin, hout, fun a ha => changed_iff _ _ _ _ _ a hin hout ha (by simp), hg.2.2 f hf⟩

/-- C25 (the shared stub and the entries set to it): `UnsupportedFeature`
returns InvalidParameter for a null context and UnsupportedFeature otherwise.
After `CardAcquireContext` on a descriptor that passes the checks, with
negotiated version `v`: the entries for container create and delete,
challenge, unblock, change authenticator and directory and file create, write
and delete are the stub; for `v >= 6` so are the Ex authentication calls and
the two set-property calls; for `v >= 7` so are all version-7 entries. The
entry for constructing a DH agreement is null, and for `v >= 5` so are the
entries for key derivation and for destroying and getting a DH agreement. -/
theorem unimplemented_entries (fw : TokenFramework) (d : CARD_DATA_FIELDS)
    (atr name : List Nat) (alloc : Nat → Option Nat) (re fr : Nat)
    (hver : 4 ≤ d.dwVersion) (hatr : d.pbAtr = some atr) (hcb : 4 ≤ d.cbAtr)
    (hname : d.pwszCardName = some name) (halloc : d.pfnCspAlloc = some alloc)
    (hre : d.pfnCspReAlloc = some re) (hfree : d.pfnCspFree = some fr) (hcard : d.hScard ≠ 0) :
    UnsupportedFeature none = SCARD_E_INVALID_PARAMETER ∧
    (∀ cd : CARD_DATA, UnsupportedFeature (some cd) = SCARD_E_UNSUPPORTED_FEATURE) ∧
    ∃ d2, (CardAcquireContext fw (some d) 0).pCardData = some d2 ∧
      d2.dwVersion = min d.dwVersion 7 ∧
      (∀ f ∈ unimplementedBase, d2.table f = Entry.UnsupportedFeature) ∧
      (6 ≤ d2.dwVersion → ∀ f ∈ unimplementedSix, d2.table f = Entry.UnsupportedFeature) ∧
      (7 ≤ d2.dwVersion → ∀ f ∈ version7Fields, d2.table f = Entry.UnsupportedFeature) ∧
      d2.table Field.pfnCardConstructDHAgreement = Entry.null ∧
      (5 ≤ d2.dwVersion → ∀ f ∈ version5Fields, d2.table f = Entry.null) := by
  refine ⟨rfl, fun _ => rfl, ?_⟩
  obtain ⟨d2, h1, h2, h3⟩ := CardAcquireContext_descriptor fw d atr name alloc re fr hver hatr hcb
    hname halloc hre hfree hcard
  have hv := tableStores_values (min d.dwVersion 7) (negotiated_version_mem d.dwVersion hver)
  rw [← h2] at hv
  rw [← h2] at h3
  refine ⟨d2, h1, h2, ?_, ?_, ?_, ?_, ?_⟩
  · intro f hf
    rw [h3]
    exact table_value _ _ _ _ (hv.1 f hf)
  · intro h6 f hf
    rw [h3]
    exact table_value _ _ _ _ (hv.2.2.2.1 h6 f hf)
  · intro h7 f hf
    rw [h3]
    exact table_value _ _ _ _ (hv.2.2.2.2.2 h7 f hf)
  · rw [h3]
    exact table_value _ _ _ _ hv.2.1
  · intro h5 f hf
    rw [h3]
    exact table_value _ _ _ _ (hv.2.2.1 h5 f hf)

/-- Counterexample to C25 as stated: after a successful `CardAcquireContext`
with version 7, the entry for constructing a DH agreement and the entry for
key derivation are null, not the stub. -/
theorem DH_entries_are_null :
    (CardAcquireContext sampleFramework (some (sampleDescriptor 7)) 0).status = SCARD_S_SUCCESS ∧
    (CardAcquireContext sampleFramework (some (sampleDescriptor 7)) 0).pCardData.map
        (fun d => (d.dwVersion, d.table Field.pfnCardConstructDHAgreement,
          d.table Field.pfnCardDeriveKey))
      = some (7, Entry.null, Entry.null) ∧
    Entry.null ≠ Entry.UnsupportedFeature := by
  decide

/-! ## Validation order and outputs on failure -/

theorem encodeRSAPublicKey_failure (cd : CARD_DATA) (M : List Nat) (out o : BlobOut) (st : Status)
    (h : encodeRSAPublicKey cd M out = some (st, o)) :
    st = SCARD_S_SUCCESS ∨ (st = SCARD_E_NO_MEMORY ∧ o = out) := by
  unfold encodeRSAPublicKey at h
  cases hA : cd.pfnCspAlloc ((sizeof_BLOBHEADER + sizeof_RSAPUBKEY + M.length) % 2 ^ 32) with
  | none =>
    simp only [hA, Option.some.injEq, Prod.mk.injEq] at h
    exact Or.inr ⟨h.1.symm, h.2.symm⟩
  | some blob =>
    simp only [hA] at h
    split at h
    · exact Option.noConfusion h
    · simp only [Option.some.injEq, Prod.mk.injEq] at h
      exact Or.inl h.1.symm

theorem encodeECCPublicKey_failure (cd : CARD_DATA) (key : p11Object_t) (out o : BlobOut)
    (st : Status) (h : encodeECCPublicKey cd key out = some (st, o)) :
    st = SCARD_S_SUCCESS ∨ (st = SCARD_E_UNEXPECTED ∧ o = out) ∨
      (st = SCARD_E_NO_MEMORY ∧ o.pblob = none) := by
  have hpoint : ∀ (h2 : encodeECCPublicKey_point cd key out = some (st, o)),
      st = SCARD_S_SUCCESS ∨ (st = SCARD_E_UNEXPECTED ∧ o = out) ∨
        (st = SCARD_E_NO_MEMORY ∧ o.pblob = none) := by
    intro h2
    unfold encodeECCPublicKey_point at h2
    cases hP : findAttribute key CKA_EC_POINT with
    | none =>
      simp only [hP, Option.some.injEq, Prod.mk.injEq] at h2
      exact Or.inr (Or.inl ⟨h2.1.symm, h2.2.symm⟩)
    | some pointattr =>
      simp only [hP] at h2
      cases hA : cd.pfnCspAlloc (sizeof_BCRYPT_ECCKEY_BLOB + 64) with
      | none =>
        simp only [hA, Option.some.injEq, Prod.mk.injEq] at h2
        refine Or.inr (Or.inr ⟨h2.1.symm, ?_⟩)
        rw [← h2.2]
      | some blob =>
        simp only [hA] at h2
        split at h2
        · exact Option.noConfusion h2
        · simp only [Option.some.injEq, Prod.mk.injEq] at h2
          exact Or.inl h2.1.symm
  unfold encodeECCPublicKey at h
  cases hC : findAttribute key CKA_EC_PARAMS with
  | none =>
    simp only [hC, Option.some.injEq, Prod.mk.injEq] at h
    exact Or.inr (Or.inl ⟨h.1.symm, h.2.symm⟩)
  | some curveattr =>
    simp only [hC] at h
    cases hM : memcmp primeP256r1 curveattr.pValue primeP256r1.length with
    | none =>
      simp only [hM] at h
      exact Option.noConfusion h
    | some r =>
      simp only [hM] at h
      by_cases hr : r = 0
      · simp only [hr, ne_eq, not_true_eq_false, if_false] at h
        exact hpoint h
      · simp only [ne_eq, hr, not_false_eq_true, if_true, Option.some.injEq, Prod.mk.injEq] at h
        exact Or.inr (Or.inl ⟨h.1.symm, h.2.symm⟩)

theorem CardGetContainerInfo_cases (pCardData : Option CARD_DATA) (i dwFlags : Nat)
    (pInfo out : Option CONTAINER_INFO) (st : Status)
    (h : CardGetContainerInfo pCardData i dwFlags pInfo = some (st, out)) :
    st = SCARD_S_SUCCESS ∨
    ((st = SCARD_E_INVALID_PARAMETER ∨ st = ERROR_REVISION_MISMATCH) ∧ out = pInfo) ∨
    (st = SCARD_E_NO_KEY_CONTAINER ∧ out = pInfo ∧
      ∃ cd, pCardData = some cd ∧ getKeyForIndex cd (i : Int) = none) ∨
    ((st = SCARD_E_UNEXPECTED ∨ st = SCARD_E_NO_MEMORY) ∧
      (∃ cd o, pCardData = some cd ∧ getKeyForIndex cd (i : Int) = some o) ∧
      ∃ info2, out = some info2 ∧ info2.dwVersion = CONTAINER_INFO_CURRENT_VERSION ∧
        info2.dwReserved = 0 ∧ info2.pbSigPublicKey = none ∧ info2.cbSigPublicKey = 0 ∧
        info2.pbKeyExPublicKey = none) := by
  unfold CardGetContainerInfo at h
  cases pCardData with
  | none =>
    simp only [Option.some.injEq, Prod.mk.injEq] at h
    exact Or.inr (Or.inl ⟨Or.inl h.1.symm, h.2.symm⟩)
  | some cd =>
    cases pInfo with
    | none =>
      simp only [Option.some.injEq, Prod.mk.injEq] at h
      exact Or.inr (Or.inl ⟨Or.inl h.1.symm, h.2.symm⟩)
    | some info =>
      simp only [] at h
      by_cases hf : dwFlags = 0
      swap
      · rw [if_pos hf] at h
        simp only [Option.some.injEq, Prod.mk.injEq] at h
        exact Or.inr (Or.inl ⟨Or.inl h.1.symm, h.2.symm⟩)
      rw [if_neg (not_not.mpr hf)] at h
      by_cases hv : info.dwVersion > CONTAINER_INFO_CURRENT_VERSION
      · rw [if_pos hv] at h
        simp only [Option.some.injEq, Prod.mk.injEq] at h
        exact Or.inr (Or.inl ⟨Or.inr h.1.symm, h.2.symm⟩)
      rw [if_neg hv] at h
      cases hK : getKeyForIndex cd (i : Int) with
      | none =>
        simp only [hK, Option.some.injEq, Prod.mk.injEq] at h
        exact Or.inr (Or.inr (Or.inl ⟨h.1.symm, h.2.symm, cd, rfl, hK⟩))
      | some o =>
        simp only [hK] at h
        cases hL : cd.token.tokenPrivObjList[o]? with
        | none =>
          simp only [hL] at h
          exact Option.noConfusion h
        | some key =>
          simp only [hL] at h
          cases hI : findAttribute key CKA_ID with
          | none =>
            simp only [hI, Option.some.injEq, Prod.mk.injEq] at h
            exact Or.inr (Or.inr (Or.inr ⟨Or.inl h.1.symm, ⟨cd, o, rfl, hK⟩, _, h.2.symm, rfl,
              rfl, rfl, rfl, rfl⟩))
          | some attr =>
            simp only [hI] at h
            cases hP : findMatchingTokenObjectById cd.token CKO_PUBLIC_KEY attr.pValue with
            | none =>
              simp only [hP, Option.some.injEq, Prod.mk.injEq] at h
              exact Or.inr (Or.inr (Or.inr ⟨Or.inl h.1.symm, ⟨cd, o, rfl, hK⟩, _, h.2.symm,
                rfl, rfl, rfl, rfl, rfl⟩))
            | some pub =>
              simp only [hP] at h
              cases hM : findAttribute pub CKA_MODULUS with
              | some modulus =>
                simp only [hM] at h
                cases hE : encodeRSAPublicKey cd modulus.pValue
                    { pblob := none, pbloblen := 0 } with
                | none =>
                  simp only [hE] at h
                  exact Option.noConfusion h
                | some r =>
                  obtain ⟨st2, o2⟩ := r
                  simp only [hE, Option.some.injEq, Prod.mk.injEq] at h
                  rcases encodeRSAPublicKey_failure _ _ _ _ _ hE with hs | ⟨hs, ho⟩
                  · exact Or.inl (h.1 ▸ hs)
                  · refine Or.inr (Or.inr (Or.inr ⟨Or.inr (h.1 ▸ hs), ⟨cd, o, rfl, hK⟩, _,
                      h.2.symm, rfl, rfl, rfl, rfl, ?_⟩))
                    rw [ho]
              | none =>
                simp only [hM] at h
                cases hE : encodeECCPublicKey cd pub { pblob := none, pbloblen := 0 } with
                | none =>
                  simp only [hE] at h
                  exact Option.noConfusion h
                | some r =>
                  obtain ⟨st2, o2⟩ := r
                  simp only [hE, Option.some.injEq, Prod.mk.injEq] at h
                  rcases encodeECCPublicKey_failure _ _ _ _ _ hE with hs | ⟨hs, ho⟩ | ⟨hs, ho⟩
                  · exact Or.inl (h.1 ▸ hs)
                  · refine Or.inr (Or.inr (Or.inr ⟨Or.inl (h.1 ▸ hs), ⟨cd, o, rfl, hK⟩, _,
                      h.2.symm, rfl, rfl, rfl, rfl, ?_⟩))
                    rw [ho]
                  · exact Or.inr (Or.inr (Or.inr ⟨Or.inr (h.1 ▸ hs), ⟨cd, o, rfl, hK⟩, _,
                      h.2.symm, rfl, rfl, rfl, rfl, ho⟩))

/-- C24 (validation order, as the code has it): in `CardQueryFreeSpace`,
`CardGetContainerInfo` and `CardQueryKeySizes` the checks come in the order
context non-null, structure non-null, flags, structure version. A call with a
null context or a null structure returns InvalidParameter; with both non-null
and flags other than 0 it returns InvalidParameter whatever the version
member holds; with flags 0 (and, for `CardQueryKeySizes`, a key
specification of the enumerated set) and a version above the current one it
returns `ERROR_REVISION_MISMATCH`. The structure is handed back as it was in
all these cases. -/
theorem flags_checked_before_version (cd : CARD_DATA) (dwFlags : Nat) :
    (∀ p : Option Mem, CardQueryFreeSpace none dwFlags p = some (SCARD_E_INVALID_PARAMETER, p)) ∧
    (∀ (i : Nat) (c : Option CONTAINER_INFO),
      CardGetContainerInfo none i dwFlags c = some (SCARD_E_INVALID_PARAMETER, c)) ∧
    (∀ (spec : Nat) (p : Option Mem),
      CardQueryKeySizes none spec dwFlags p = (SCARD_E_INVALID_PARAMETER, p)) ∧
    CardQueryFreeSpace (some cd) dwFlags none = some (SCARD_E_INVALID_PARAMETER, none) ∧
    (∀ i : Nat, CardGetContainerInfo (some cd) i dwFlags none
      = some (SCARD_E_INVALID_PARAMETER, none)) ∧
    (∀ spec : Nat, CardQueryKeySizes (some cd) spec dwFlags none
      = (SCARD_E_INVALID_PARAMETER, none)) ∧
    (dwFlags ≠ 0 →
      (∀ p : Mem, CardQueryFreeSpace (some cd) dwFlags (some p)
        = some (SCARD_E_INVALID_PARAMETER, some p)) ∧
      (∀ (i : Nat) (c : CONTAINER_INFO), CardGetContainerInfo (some cd) i dwFlags (some c)
        = some (SCARD_E_INVALID_PARAMETER, some c)) ∧
      (∀ (spec : Nat) (p : Mem), CardQueryKeySizes (some cd) spec dwFlags (some p)
        = (SCARD_E_INVALID_PARAMETER, some p))) ∧
    (dwFlags = 0 →
      (∀ p : Mem, loadLE p 0 4 > CARD_FREE_SPACE_INFO_CURRENT_VERSION →
        CardQueryFreeSpace (some cd) dwFlags (some p) = some (ERROR_REVISION_MISMATCH, some p)) ∧
      (∀ (i : Nat) (c : CONTAINER_INFO), c.dwVersion > CONTAINER_INFO_CURRENT_VERSION →
        CardGetContainerInfo (some cd) i dwFlags (some c)
          = some (ERROR_REVISION_MISMATCH, some c)) ∧
      (∀ (spec : Nat) (p : Mem),
        spec ∈ [0, AT_KEYEXCHANGE, AT_SIGNATURE, AT_ECDSA_P256, AT_ECDSA_P384, AT_ECDSA_P521,
          AT_ECDHE_P256, AT_ECDHE_P384, AT_ECDHE_P521] →
        loadLE p 0 4 > CARD_KEY_SIZES_CURRENT_VERSION →
        CardQueryKeySizes (some cd) spec dwFlags (some p)
          = (ERROR_REVISION_MISMATCH, some p))) := by
  refine ⟨fun p => ?_, fun i c => ?_, fun spec p => ?_, rfl, fun _ => rfl, fun _ => rfl, ?_, ?_⟩
  · cases p <;> rfl
  · cases c <;> rfl
  · cases p <;> rfl
  · intro hf
    refine ⟨fun p => ?_, fun i c => ?_, fun spec p => ?_⟩
    · simp only [CardQueryFreeSpace, hf, ne_eq, not_false_eq_true, if_true]
    · simp only [CardGetContainerInfo, hf, ne_eq, not_false_eq_true, if_true]
    · unfold CardQueryKeySizes
      simp only []
      split
      · rfl
      · rfl
  · intro hf
    subst hf
    refine ⟨fun p hv => ?_, fun i c hv => ?_, fun spec p hs hv => ?_⟩
    · simp only [CardQueryFreeSpace, ne_eq, not_true_eq_false, if_false, hv, if_true]
    · simp only [CardGetContainerInfo, ne_eq, not_true_eq_false, if_false, hv, if_true]
    · simp only [List.mem_cons, List.mem_singleton, List.not_mem_nil, or_false] at hs
      rcases hs with h | h | h | h | h | h | h | h | h <;> subst h <;>
        simp +decide only [CardQueryKeySizes, ne_eq, not_true_eq_false, if_false, hv, if_true,
          false_and, and_false]

/-- Counterexample to C24 as stated: `CardQueryFreeSpace` with a non-null
context, a structure whose version member is `0xffffffff` and flags 1 returns
InvalidParameter, not RevisionMismatch; so do `CardQueryKeySizes` and
`CardGetContainerInfo` with a version above the current one and flags 1. -/
theorem flags_before_version_status :
    loadLE (fun _ => 0xff) 0 4 > CARD_FREE_SPACE_INFO_CURRENT_VERSION ∧
    (CardQueryFreeSpace (some zeroHost) 1 (some (fun _ => 0xff))).map Prod.fst
      = some SCARD_E_INVALID_PARAMETER ∧
    (CardQueryKeySizes (some zeroHost) AT_SIGNATURE 1 (some (fun _ => 0xff))).1
      = SCARD_E_INVALID_PARAMETER ∧
    (CardGetContainerInfo (some zeroHost) 0 1
        (some { dwVersion := 2, dwReserved := 0, cbSigPublicKey := 0, pbSigPublicKey := none,
                cbKeyExPublicKey := 0, pbKeyExPublicKey := none })).map Prod.fst
      = some SCARD_E_INVALID_PARAMETER := by
  decide

theorem getKeyForIndex_loop_none (token : p11Token_t) : ∀ (k i : Nat),
    i ≤ token.tokenPrivObjList.length → token.tokenPrivObjList.length < i + k →
    getKeyForIndex_loop token k (cursor i) = none := by
  intro k
  induction k with
  | zero => intro i h1 h2; omega
  | succ k ih =>
    intro i h1 h2
    simp only [getKeyForIndex_loop, enumerate_cursor]
    by_cases hlt : i < token.tokenPrivObjList.length
    · simp only [hlt, if_true]
      rw [cursor_succ i]
      exact ih (i + 1) (by omega) (by omega)
    · simp only [hlt, if_false]

theorem getKeyForIndex_beyond (cd : CARD_DATA) (i : Int)
    (h : i < 0 ∨ (cd.token.tokenPrivObjList.length : Int) ≤ i) :
    getKeyForIndex cd i = none := by
  unfold getKeyForIndex
  rcases h with h | h
  · have h0 : (i + 1).toNat = 0 := by omega
    rw [h0]
    rfl
  · have h1 := getKeyForIndex_loop_none cd.token (i + 1).toNat 0 (by omega) (by omega)
    simpa [cursor] using h1

/-- C26 (container index): with `L` the list of the token's private keys in
enumeration order, `getNumberOfContainers` returns `|L|` within `|L| + 1`
steps of the enumeration when `|L| < 2 ^ 31` (the counter is an `int`); for
every integer `i`, `getKeyForIndex(i)` yields the object at position `i` of
`L` when `0 <= i < |L|` and null when `i < 0` or `i >= |L|`; and
`CardGetContainerInfo` with a non-null context and structure, flags 0 and a
version not above the current one returns `SCARD_E_NO_KEY_CONTAINER`, with the
structure untouched, when its index is at least `|L|`, and never returns that
status when its index is below `|L|`. -/
theorem container_index (cd : CARD_DATA) :
    (cd.token.tokenPrivObjList.length < 2 ^ 31 →
      getNumberOfContainers cd = some cd.token.tokenPrivObjList.length ∧
      getNumberOfContainers_loop cd.token (cd.token.tokenPrivObjList.length + 1) none 0
        = some cd.token.tokenPrivObjList.length) ∧
    (∀ i : Int, 0 ≤ i → i < cd.token.tokenPrivObjList.length →
      getKeyForIndex cd i = some i.toNat ∧
      ∃ obj, cd.token.tokenPrivObjList[i.toNat]? = some obj) ∧
    (∀ i : Int, i < 0 ∨ (cd.token.tokenPrivObjList.length : Int) ≤ i →
      getKeyForIndex cd i = none) ∧
    (∀ (bContainerIndex : Nat) (info : CONTAINER_INFO), bContainerIndex < 256 →
      info.dwVersion ≤ CONTAINER_INFO_CURRENT_VERSION →
      (cd.token.tokenPrivObjList.length ≤ bContainerIndex →
        CardGetContainerInfo (some cd) bContainerIndex 0 (some info)
          = some (SCARD_E_NO_KEY_CONTAINER, some info)) ∧
      (bContainerIndex < cd.token.tokenPrivObjList.length →
        ∀ st out, CardGetContainerInfo (some cd) bContainerIndex 0 (some info) = some (st, out) →
          st ≠ SCARD_E_NO_KEY_CONTAINER)) := by
  refine ⟨?_, ?_, getKeyForIndex_beyond cd, ?_⟩
  · intro hN
    exact ⟨getNumberOfContainers_eq cd hN, getNumberOfContainers_eq cd hN⟩
  · intro i h0 hlt
    have hi : i.toNat < cd.token.tokenPrivObjList.length := by omega
    have h := getKeyForIndex_eq cd i.toNat hi
    rw [Int.toNat_of_nonneg h0] at h
    refine ⟨h, ?_⟩
    exact ⟨cd.token.tokenPrivObjList[i.toNat], List.getElem?_eq_getElem hi⟩
  · intro idx info _ hv
    have hv2 : ¬ info.dwVersion > CONTAINER_INFO_CURRENT_VERSION := Nat.not_lt.mpr hv
    constructor
    · intro hge
      have hk := getKeyForIndex_beyond cd (idx : Int) (Or.inr (by omega))
      simp only [CardGetContainerInfo, ne_eq, not_true_eq_false, if_false, hv2, hk]
    · intro hlt st out h hst
      rcases CardGetContainerInfo_cases (some cd) idx 0 (some info) out st h with
        hs | ⟨hs, _⟩ | ⟨_, _, cd2, hcd, hk⟩ | ⟨hs, _, _⟩
      · rw [hst] at hs
        exact absurd hs (by decide)
      · rw [hst] at hs
        rcases hs with hs | hs <;> exact absurd hs (by decide)
      · have hcd2 : cd = cd2 := Option.some.inj hcd
        subst hcd2
        rw [getKeyForIndex_eq cd idx hlt] at hk
        exact Option.noConfusion hk
      · rw [hst] at hs
        rcases hs with hs | hs <;> exact absurd hs (by decide)

theorem CardReadFile_kxc (cd : CARD_DATA) (name : List Nat) (pb : Option FileData) (cb : Nat)
    (hc : checkFileName name = SCARD_S_SUCCESS)
    (hk : name.take 3 = szUSER_KEYEXCHANGE_CERT_PREFIX) :
    CardReadFile (some cd) (some szBASE_CSP_DIR) (some name) 0 (some pb) (some cb) =
      match readCertificate cd (atoi (name.drop 3)) { ppbData := pb, pcbData := cb } with
      | none => none
      | some (dwret, o) => some (dwret, some o.ppbData, some o.pcbData) := by
  have hne : name ≠ szCONTAINER_MAP_FILE := by
    intro h
    rw [h] at hk
    exact absurd hk (by decide)
  rw [CardReadFile_mscp cd name pb cb hc, if_neg hne, if_pos hk]

theorem atoi_no_number (s : List Nat)
    (h : s = [] ∨ ∃ c r, s = c :: r ∧ isspace c = false ∧ c ≠ 43 ∧ c ≠ 45 ∧ ¬ (48 ≤ c ∧ c ≤ 57)) :
    atoi s = 0 := by
  rcases h with rfl | ⟨c, r, rfl, hsp, h43, h45, hd⟩
  · rfl
  · unfold atoi
    rw [List.dropWhile_cons_of_neg (by simp [hsp])]
    split
    · rename_i r2 heq
      exact absurd (List.cons.inj heq).1 h45
    · rename_i r2 heq
      exact absurd (List.cons.inj heq).1 h43
    · simp only [atoi_digits, hd, if_false]

/-- C30 (certificate file-name parsing, with the reading `atoi` gives): in
directory `"mscp"`, for every name of 1 to 8 printable characters that
starts with `kxc`, `CardReadFile` with flags 0 returns what `readCertificate`
returns for the container index `atoi` parses from the characters after
`kxc`. A name whose remaining characters are empty, or start with a character
that is neither a digit, a sign nor white space, parses to 0 and behaves
exactly like `kxc00`; a name that parses to a negative index yields
FileNotFound with the outputs untouched; and every well-formed name that is
neither `cmapfile` nor starts with `kxc` yields FileNotFound with the outputs
untouched. -/
theorem certificate_name_parsing (cd : CARD_DATA) (name : List Nat) (pb : Option FileData)
    (cb : Nat) (hname : 1 ≤ name.length ∧ name.length ≤ 8 ∧ ∀ c ∈ name, isprint c = true) :
    (name.take 3 = szUSER_KEYEXCHANGE_CERT_PREFIX →
      name ≠ szCONTAINER_MAP_FILE ∧
      (CardReadFile (some cd) (some szBASE_CSP_DIR) (some name) 0 (some pb) (some cb) =
        match readCertificate cd (atoi (name.drop 3)) { ppbData := pb, pcbData := cb } with
        | none => none
        | some (dwret, o) => some (dwret, some o.ppbData, some o.pcbData)) ∧
      ((name.drop 3 = [] ∨ ∃ c r, name.drop 3 = c :: r ∧ isspace c = false ∧ c ≠ 43 ∧ c ≠ 45 ∧
          ¬ (48 ≤ c ∧ c ≤ 57)) →
        atoi (name.drop 3) = 0 ∧
        CardReadFile (some cd) (some szBASE_CSP_DIR) (some name) 0 (some pb) (some cb)
          = CardReadFile (some cd) (some szBASE_CSP_DIR) (some (wide "kxc00")) 0 (some pb)
              (some cb)) ∧
      (atoi (name.drop 3) < 0 →
        CardReadFile (some cd) (some szBASE_CSP_DIR) (some name) 0 (some pb) (some cb)
          = some (SCARD_E_FILE_NOT_FOUND, some pb, some cb))) ∧
    (name ≠ szCONTAINER_MAP_FILE → name.take 3 ≠ szUSER_KEYEXCHANGE_CERT_PREFIX →
      CardReadFile (some cd) (some szBASE_CSP_DIR) (some name) 0 (some pb) (some cb)
        = some (SCARD_E_FILE_NOT_FOUND, some pb, some cb)) := by
  have hc := (checkFileName_spec name).1.mpr hname
  constructor
  · intro hk
    have hne : name ≠ szCONTAINER_MAP_FILE := by
      intro h
      rw [h] at hk
      exact absurd hk (by decide)
    refine ⟨hne, CardReadFile_kxc cd name pb cb hc hk, ?_, ?_⟩
    · intro hs
      have h0 := atoi_no_number (name.drop 3) hs
      refine ⟨h0, ?_⟩
      rw [CardReadFile_kxc cd name pb cb hc hk,
        CardReadFile_kxc cd (wide "kxc00") pb cb (by decide) (by decide), h0]
      rfl
    · intro hneg
      rw [CardReadFile_kxc cd name pb cb hc hk]
      simp only [readCertificate, getKeyForIndex_beyond cd _ (Or.inl hneg)]
  · intro h1 h2
    rw [CardReadFile_mscp cd name pb cb hc, if_neg h1, if_neg h2]

/-- Counterexample to C30 as stated: the characters after `kxc` in `kxc+1`
do not start with a digit, yet `atoi` reads them as 1; on a token with a
certificate for container 0 only, `kxc00` is read with Success while `kxc+1`
fails with `SCARD_E_UNEXPECTED`. -/
theorem signed_suffix_is_parsed :
    (wide "kxc+1").drop 3 = [43, 49] ∧
    atoi ((wide "kxc+1").drop 3) = 1 ∧
    (CardReadFile (some certHost) (some szBASE_CSP_DIR) (some (wide "kxc00")) 0 (some none)
        (some 0)).map Prod.fst = some SCARD_S_SUCCESS ∧
    (CardReadFile (some certHost) (some szBASE_CSP_DIR) (some (wide "kxc+1")) 0 (some none)
        (some 0)).map Prod.fst = some SCARD_E_UNEXPECTED := by
  decide

/-! ## GUID collisions -/

theorem list_eq_of_getD (n : Nat) (l1 l2 : List Nat) (h1 : l1.length = n) (h2 : l2.length = n)
    (h : ∀ k, k < n → l1.getD k 0 = l2.getD k 0) : l1 = l2 := by
  apply List.ext_getElem (by rw [h1, h2])
  intro k hk1 hk2
  have := h k (by omega)
  rwa [List.getD_eq_getElem _ _ hk1, List.getD_eq_getElem _ _ hk2] at this

theorem rightAlign_length (a : List Nat) (ha : a.length < 16) : (rightAlign a).length = 16 := by
  simp [rightAlign]
  omega

theorem rightAlign_getD (a : List Nat) (k : Nat) :
    (rightAlign a).getD k 0 = if k < 16 - a.length then 0 else a.getD (k - (16 - a.length)) 0 := by
  unfold rightAlign
  by_cases hk : k < 16 - a.length
  · rw [if_pos hk, List.getD_eq_getElem?_getD, List.getElem?_append_left (by simpa using hk)]
    simp [hk]
  · rw [if_neg hk, List.getD_eq_getElem?_getD, List.getElem?_append_right (by simpa using hk)]
    simp [List.getD_eq_getElem?_getD]

theorem encodeGUID_id_getD (S a : List Nat) (hS : S.length = 16) (ha : a.length < 16) (k : Nat)
    (hk : k < 16) :
    (encodeGUID_id S a).getD k 0 = S.getD k 0 ^^^ (rightAlign a).getD k 0 := by
  have hT : S.take 16 = S := List.take_of_length_le (by omega)
  simp only [encodeGUID_id, ha, if_true, hT]
  rw [rightAlign_getD]
  by_cases hlt : k < 16 - a.length
  · rw [if_pos hlt, xorLoop_below _ _ _ _ hlt]
    simp
  · rw [if_neg hlt]
    have hkk : k = 16 - a.length + (k - (16 - a.length)) := by omega
    have h := xorLoop_at a S (16 - a.length) (k - (16 - a.length)) (by omega) (by omega)
    rw [← hkk] at h
    exact h

theorem encodeGUID_id_length (S a : List Nat) (hS : S.length = 16) (ha : a.length < 16) :
    (encodeGUID_id S a).length = 16 := by
  have hT : S.take 16 = S := List.take_of_length_le (by omega)
  simp only [encodeGUID_id, ha, if_true, hT]
  rw [xorLoop_length, hS]

theorem encodeGUID_id_eq_iff (S a b : List Nat) (hS : S.length = 16) (ha : a.length < 16)
    (hb : b.length < 16) :
    encodeGUID_id S a = encodeGUID_id S b ↔ rightAlign a = rightAlign b := by
  constructor
  · intro h
    apply list_eq_of_getD 16 _ _ (rightAlign_length a ha) (rightAlign_length b hb)
    intro k hk
    have h1 := encodeGUID_id_getD S a hS ha k hk
    have h2 := encodeGUID_id_getD S b hS hb k hk
    rw [h, h2] at h1
    exact (Nat.xor_right_injective h1).symm
  · intro h
    apply list_eq_of_getD 16 _ _ (encodeGUID_id_length S a hS ha) (encodeGUID_id_length S b hS hb)
    intro k hk
    rw [encodeGUID_id_getD S a hS ha k hk, encodeGUID_id_getD S b hS hb k hk, h]

theorem bcddigit_injective (x y : Nat) (h : bcddigit x = bcddigit y) : x = y := by
  unfold bcddigit at h
  split at h <;> split at h <;> omega

theorem byte_of_digits (a b : Nat) (h1 : bcddigit (a >>> 4) = bcddigit (b >>> 4))
    (h2 : bcddigit (a &&& 15) = bcddigit (b &&& 15)) : a = b := by
  have e1 := bcddigit_injective _ _ h1
  have e2 := bcddigit_injective _ _ h2
  have ha : a >>> 4 = a / 16 := by simp [Nat.shiftRight_eq_div_pow]
  have hb : b >>> 4 = b / 16 := by simp [Nat.shiftRight_eq_div_pow]
  have ha2 : a &&& 15 = a % 16 := Nat.and_pow_two_sub_one_eq_mod a 4
  have hb2 : b &&& 15 = b % 16 := Nat.and_pow_two_sub_one_eq_mod b 4
  rw [ha, hb] at e1
  rw [ha2, hb2] at e2
  omega

theorem GUIDchars_injective (g1 g2 : List Nat) (buf1 buf2 : Mem) (h1 : g1.length = 16)
    (h2 : g2.length = 16) (h : GUIDchars g1 buf1 = GUIDchars g2 buf2) : g1 = g2 := by
  obtain ⟨a0, a1, a2, a3, a4, a5, a6, a7, a8, a9, a10, a11, a12, a13, a14, a15, rfl⟩ :=
    length_sixteen g1 h1
  obtain ⟨b0, b1, b2, b3, b4, b5, b6, b7, b8, b9, b10, b11, b12, b13, b14, b15, rfl⟩ :=
    length_sixteen g2 h2
  rw [GUIDchars_eq, GUIDchars_eq] at h
  simp only [List.cons.injEq, and_true, true_and] at h
  obtain ⟨x0, y0, x1, y1, x2, y2, x3, y3, x4, y4, x5, y5, x6, y6, x7, y7, x8, y8, x9, y9, x10,
    y10, x11, y11, x12, y12, x13, y13, x14, y14, x15, y15⟩ := h
  rw [byte_of_digits _ _ x0 y0, byte_of_digits _ _ x1 y1, byte_of_digits _ _ x2 y2,
    byte_of_digits _ _ x3 y3, byte_of_digits _ _ x4 y4, byte_of_digits _ _ x5 y5,
    byte_of_digits _ _ x6 y6, byte_of_digits _ _ x7 y7, byte_of_digits _ _ x8 y8,
    byte_of_digits _ _ x9 y9, byte_of_digits _ _ x10 y10, byte_of_digits _ _ x11 y11,
    byte_of_digits _ _ x12 y12, byte_of_digits _ _ x13 y13, byte_of_digits _ _ x14 y14,
    byte_of_digits _ _ x15 y15]

theorem GUIDchars_buffer (g : List Nat) (buf1 buf2 : Mem) (h : g.length = 16) :
    GUIDchars g buf1 = GUIDchars g buf2 := by
  obtain ⟨a0, a1, a2, a3, a4, a5, a6, a7, a8, a9, a10, a11, a12, a13, a14, a15, rfl⟩ :=
    length_sixteen g h
  rw [GUIDchars_eq, GUIDchars_eq]

theorem rightAlign_zeros (k : Nat) (a : List Nat) (h : k + a.length < 16) :
    rightAlign (List.replicate k 0 ++ a) = rightAlign a := by
  unfold rightAlign
  rw [← List.append_assoc, List.length_append, List.length_replicate]
  congr 1
  rw [show 16 - a.length = (16 - (k + a.length)) + k by omega, List.replicate_add]

/-- C29 (GUID collisions): for a 16-byte serial `S` and two identifiers `a`,
`b` shorter than 16 bytes, the 16 bytes `encodeGUID` formats are the same for
`a` and `b` exactly when `a` and `b` are equal after right-aligning each into
16 bytes with leading zero bytes; the same holds for the 36-character GUID
string, whatever the scratch buffer held, and for the wide string that
`encodeGUID` stores into a record. Hence two different identifiers of the same
length get different GUID strings, and an identifier and the same identifier
with zero bytes in front get the same GUID string. -/
theorem GUID_collisions (S a b : List Nat) (hS : S.length = 16) (ha : a.length < 16)
    (hb : b.length < 16) :
    (encodeGUID_id S a = encodeGUID_id S b ↔ rightAlign a = rightAlign b) ∧
    (∀ buf1 buf2 : Mem,
      GUIDchars (encodeGUID_id S a) buf1 = GUIDchars (encodeGUID_id S b) buf2
        ↔ rightAlign a = rightAlign b) ∧
    (∀ (cd : CARD_DATA) (obj1 obj2 : p11Object_t) (attr1 attr2 : p11Attribute_t)
        (cont : CONTAINER_MAP_RECORD),
      cd.token.serialNumber = S →
      findAttribute obj1 CKA_ID = some attr1 → attr1.pValue = a →
      findAttribute obj2 CKA_ID = some attr2 → attr2.pValue = b →
      ((encodeGUID cd obj1 cont).map (fun c => c.wszGuid)
          = (encodeGUID cd obj2 cont).map (fun c => c.wszGuid)
        ↔ rightAlign a = rightAlign b)) ∧
    (a.length = b.length → a ≠ b → ∀ buf1 buf2 : Mem,
      GUIDchars (encodeGUID_id S a) buf1 ≠ GUIDchars (encodeGUID_id S b) buf2) ∧
    (∀ k, b = List.replicate k 0 ++ a → ∀ buf1 buf2 : Mem,
      GUIDchars (encodeGUID_id S a) buf1 = GUIDchars (encodeGUID_id S b) buf2) := by
  have hid := encodeGUID_id_eq_iff S a b hS ha hb
  have hla := encodeGUID_id_length S a hS ha
  have hlb := encodeGUID_id_length S b hS hb
  have hchars : ∀ buf1 buf2 : Mem,
      GUIDchars (encodeGUID_id S a) buf1 = GUIDchars (encodeGUID_id S b) buf2
        ↔ rightAlign a = rightAlign b := by
    intro buf1 buf2
    constructor
    · intro h
      exact hid.mp (GUIDchars_injective _ _ buf1 buf2 hla hlb h)
    · intro h
      rw [hid.mpr h]
      exact GUIDchars_buffer _ buf1 buf2 hlb
  refine ⟨hid, hchars, ?_, ?_, ?_⟩
  · intro cd obj1 obj2 attr1 attr2 cont hser h1 e1 h2 e2
    rw [encodeGUID_eq cd obj1 cont attr1 h1, encodeGUID_eq cd obj2 cont attr2 h2, hser, e1, e2]
    simp only [Option.map_some', Option.some.injEq, List.append_assoc]
    rw [List.append_left_inj]
    exact hchars _ _
  · intro hlen hne buf1 buf2 h
    have hr := (hchars buf1 buf2).mp h
    unfold rightAlign at hr
    exact hne (List.append_inj_right hr (by simp [hlen]))
  · intro k hk buf1 buf2
    apply (hchars buf1 buf2).mpr
    rw [hk]
    have hlen : k + a.length < 16 := by
      rw [hk] at hb
      simpa using hb
    exact (rightAlign_zeros k a hlen).symm

/-! ## Property results and the prior contents of the destination -/

theorem storeLE_agree (w : Nat) : ∀ (m1 m2 : Mem) (a v j : Nat),
    (¬ (a ≤ j ∧ j < a + w) → m1 j = m2 j) → storeLE m1 a w v j = storeLE m2 a w v j := by
  induction w with
  | zero =>
    intro m1 m2 a v j h
    exact h (by omega)
  | succ w ih =>
    intro m1 m2 a v j h
    simp only [storeLE, store]
    by_cases hj : j = a
    · simp only [hj, if_true]
    · simp only [hj, if_false]
      exact ih _ _ _ _ _ (fun h2 => h (by omega))

theorem storeBytes_agree (m1 m2 : Mem) (off : Nat) (l : List Nat) (j : Nat)
    (h : off ≤ j ∧ j < off + l.length) : storeBytes m1 off l j = storeBytes m2 off l j := by
  simp [storeBytes, h]

theorem CardGetProperty_fill (cd : CARD_DATA) (prop : List Nat) (cbData l dwFlags : Nat)
    (hprop : prop ∈ propertyCatalogue) (hS : cd.token.serialNumber.length = 16)
    (hN : cd.token.tokenPrivObjList.length < 2 ^ 31) :
    ∃ fill : Mem → Option (Status × Mem),
      (∀ m, CardGetProperty (some cd) (some prop) (some m) cbData (some l) dwFlags
        = CardGetProperty_branch m cbData (propertySize cd.token.serialNumber prop) fill) ∧
      ∀ m1 m2 : Mem,
        (prop ∈ [CP_CARD_FREE_SPACE, CP_CARD_CAPABILITIES, CP_CARD_KEYSIZES, CP_CARD_PIN_INFO] →
          loadLE m1 0 4 = loadLE m2 0 4) →
        ∃ st q1 q2, fill m1 = some (st, q1) ∧ fill m2 = some (st, q2) ∧
          (st = SCARD_S_SUCCESS → ∀ j, j < propertySize cd.token.serialNumber prop →
            (prop = CP_CARD_PIN_INFO → j < 32) → q1 j = q2 j) := by
  have hcnt := getNumberOfContainers_eq cd hN
  have hstrip := stripBlanks_eq_dropWhile cd.token.serialNumber 16 (by omega)
  have hle := stripBlanks_le cd.token.serialNumber 16
  simp only [propertyCatalogue, List.mem_cons, List.mem_singleton, List.not_mem_nil,
    or_false] at hprop
  rcases hprop with h | h | h | h | h | h | h | h | h | h | h | h | h <;> subst h
  · refine ⟨_, fun m => by
      simp +decide only [CardGetProperty, propertySize, if_false, if_true]; rfl, ?_⟩
    intro m1 m2 hver
    have hv := hver (by simp)
    by_cases hf : dwFlags = 0
    swap
    · exact ⟨SCARD_E_INVALID_PARAMETER, m1, m2, by simp [CardQueryFreeSpace, hf],
        by simp [CardQueryFreeSpace, hf], fun h => absurd h (by decide)⟩
    by_cases hgt : loadLE m1 0 4 > CARD_FREE_SPACE_INFO_CURRENT_VERSION
    · have hgt2 := hgt
      rw [hv] at hgt2
      exact ⟨ERROR_REVISION_MISMATCH, m1, m2, by simp [CardQueryFreeSpace, hf, hgt],
        by simp [CardQueryFreeSpace, hf, hgt2], fun h => absurd h (by decide)⟩
    · have hgt2 := hgt
      rw [hv] at hgt2
      refine ⟨SCARD_S_SUCCESS, _, _, by simp only [CardQueryFreeSpace, hf, hgt, hcnt]; rfl,
        by simp only [CardQueryFreeSpace, hf, hgt2, hcnt]; rfl, fun _ j hj _ => ?_⟩
      simp +decide only [propertySize, sizeof_CARD_FREE_SPACE_INFO, if_true] at hj
      apply storeLE_agree; intro _
      apply storeLE_agree; intro _
      apply storeLE_agree; intro _
      apply storeLE_agree; intro _
      omega
  · refine ⟨_, fun m => by
      simp +decide only [CardGetProperty, propertySize, if_false, if_true]; rfl, ?_⟩
    intro m1 m2 hver
    have hv := hver (by simp)
    by_cases hgt : loadLE m1 0 4 > CARD_CAPABILITIES_CURRENT_VERSION
    · have hgt2 := hgt
      rw [hv] at hgt2
      exact ⟨ERROR_REVISION_MISMATCH, m1, m2, by simp [CardQueryCapabilities, hgt],
        by simp [CardQueryCapabilities, hgt2], fun h => absurd h (by decide)⟩
    · have hgt2 := hgt
      rw [hv] at hgt2
      refine ⟨SCARD_S_SUCCESS, _, _, by simp only [CardQueryCapabilities, hgt]; rfl,
        by simp only [CardQueryCapabilities, hgt2]; rfl, fun _ j hj _ => ?_⟩
      simp +decide only [propertySize, sizeof_CARD_CAPABILITIES, if_true, if_false] at hj
      apply storeLE_agree; intro _
      apply storeLE_agree; intro _
      apply storeLE_agree; intro _
      omega
  · refine ⟨_, fun m => by
      simp +decide only [CardGetProperty, propertySize, if_false, if_true]; rfl, ?_⟩
    intro m1 m2 hver
    have hv := hver (by simp)
    have fin : ∀ (st : Status) (q1 q2 : Mem),
        CardQueryKeySizes (some cd) dwFlags 0 (some m1) = (st, some q1) →
        CardQueryKeySizes (some cd) dwFlags 0 (some m2) = (st, some q2) →
        (st = SCARD_S_SUCCESS → ∀ j, j < 20 → q1 j = q2 j) →
        ∃ st q1 q2,
          some ((CardQueryKeySizes (some cd) dwFlags 0 (some m1)).1,
            (CardQueryKeySizes (some cd) dwFlags 0 (some m1)).2.getD m1) = some (st, q1) ∧
          some ((CardQueryKeySizes (some cd) dwFlags 0 (some m2)).1,
            (CardQueryKeySizes (some cd) dwFlags 0 (some m2)).2.getD m2) = some (st, q2) ∧
          (st = SCARD_S_SUCCESS → ∀ j, j < propertySize cd.token.serialNumber CP_CARD_KEYSIZES →
            (CP_CARD_KEYSIZES = CP_CARD_PIN_INFO → j < 32) → q1 j = q2 j) := by
      intro st q1 q2 e1 e2 hq
      refine ⟨st, q1, q2, by rw [e1]; rfl, by rw [e2]; rfl, fun hs j hj _ => ?_⟩
      simp +decide only [propertySize, sizeof_CARD_KEY_SIZES, if_true, if_false] at hj
      exact hq hs j hj
    by_cases hspec : dwFlags ≠ 0 ∧ dwFlags ≠ AT_SIGNATURE ∧ dwFlags ≠ AT_KEYEXCHANGE ∧
        dwFlags ≠ AT_ECDHE_P256 ∧ dwFlags ≠ AT_ECDHE_P384 ∧ dwFlags ≠ AT_ECDHE_P521 ∧
        dwFlags ≠ AT_ECDSA_P256 ∧ dwFlags ≠ AT_ECDSA_P384 ∧ dwFlags ≠ AT_ECDSA_P521
    · exact fin SCARD_E_INVALID_PARAMETER m1 m2
        (by unfold CardQueryKeySizes; exact if_pos hspec)
        (by unfold CardQueryKeySizes; exact if_pos hspec) (fun h => absurd h (by decide))
    by_cases hgt : loadLE m1 0 4 > CARD_KEY_SIZES_CURRENT_VERSION
    · have hgt2 := hgt
      rw [hv] at hgt2
      exact fin ERROR_REVISION_MISMATCH m1 m2
        (by
          unfold CardQueryKeySizes
          simp only []
          rw [if_neg hspec, if_neg (by simp), if_pos hgt])
        (by
          unfold CardQueryKeySizes
          simp only []
          rw [if_neg hspec, if_neg (by simp), if_pos hgt2])
        (fun h => absurd h (by decide))
    have hle1 : loadLE m1 0 4 ≤ CARD_KEY_SIZES_CURRENT_VERSION := Nat.le_of_not_lt hgt
    have hle2 : loadLE m2 0 4 ≤ CARD_KEY_SIZES_CURRENT_VERSION := by rw [← hv]; exact hle1
    by_cases hrsa : dwFlags = 0 ∨ dwFlags = AT_KEYEXCHANGE ∨ dwFlags = AT_SIGNATURE
    · refine fin SCARD_S_SUCCESS _ _ (CardQueryKeySizes_rsa cd m1 dwFlags hle1 hrsa)
        (CardQueryKeySizes_rsa cd m2 dwFlags hle2 hrsa) (fun _ j hj => ?_)
      apply storeLE_agree; intro _
      apply storeLE_agree; intro _
      apply storeLE_agree; intro _
      apply storeLE_agree; intro _
      apply storeLE_agree; intro _
      omega
    by_cases hec : dwFlags = AT_ECDSA_P256 ∨ dwFlags = AT_ECDHE_P256
    · refine fin SCARD_S_SUCCESS _ _ (CardQueryKeySizes_p256 cd m1 dwFlags hle1 hec)
        (CardQueryKeySizes_p256 cd m2 dwFlags hle2 hec) (fun _ j hj => ?_)
      apply storeLE_agree; intro _
      apply storeLE_agree; intro _
      apply storeLE_agree; intro _
      apply storeLE_agree; intro _
      apply storeLE_agree; intro _
      omega
    · have hother : dwFlags = AT_ECDSA_P384 ∨ dwFlags = AT_ECDSA_P521 ∨
          dwFlags = AT_ECDHE_P384 ∨ dwFlags = AT_ECDHE_P521 := by
        simp only [AT_SIGNATURE, AT_KEYEXCHANGE, AT_ECDHE_P256, AT_ECDHE_P384, AT_ECDHE_P521,
          AT_ECDSA_P256, AT_ECDSA_P384, AT_ECDSA_P521] at hspec hrsa hec ⊢
        omega
      exact fin SCARD_E_UNSUPPORTED_FEATURE _ _
        (CardQueryKeySizes_other_curves cd m1 dwFlags hle1 hother)
        (CardQueryKeySizes_other_curves cd m2 dwFlags hle2 hother)
        (fun h => absurd h (by decide))
  · refine ⟨_, fun m => by
      simp +decide only [CardGetProperty, propertySize, if_false, if_true]; rfl, ?_⟩
    intro m1 m2 _
    refine ⟨SCARD_S_SUCCESS, _, _, rfl, rfl, fun _ j hj _ => ?_⟩
    simp +decide only [propertySize, sizeof_BOOL, sizeof_DWORD, sizeof_PIN_SET, if_false,
      if_true] at hj
    exact storeLE_agree 4 _ _ _ _ _ (fun h => absurd ⟨Nat.zero_le j, by omega⟩ h)
  · refine ⟨_, fun m => by
      simp +decide only [CardGetProperty, propertySize, if_false, if_true]; rfl, ?_⟩
    intro m1 m2 _
    refine ⟨SCARD_S_SUCCESS, _, _, rfl, rfl, fun _ j hj _ => ?_⟩
    simp +decide only [propertySize, sizeof_BOOL, sizeof_DWORD, sizeof_PIN_SET, if_false,
      if_true] at hj
    exact storeLE_agree 4 _ _ _ _ _ (fun h => absurd ⟨Nat.zero_le j, by omega⟩ h)
  · refine ⟨_, fun m => by
      simp +decide only [CardGetProperty, propertySize, if_false, if_true]; rfl, ?_⟩
    intro m1 m2 _
    refine ⟨SCARD_S_SUCCESS, _, _, rfl, rfl, fun _ j hj _ => ?_⟩
    simp +decide only [propertySize, sizeof_BOOL, sizeof_DWORD, sizeof_PIN_SET, if_false,
      if_true] at hj
    exact storeLE_agree 4 _ _ _ _ _ (fun h => absurd ⟨Nat.zero_le j, by omega⟩ h)
  · refine ⟨_, fun m => by
      simp +decide only [CardGetProperty, propertySize, if_false, if_true]; rfl, ?_⟩
    intro m1 m2 _
    refine ⟨SCARD_S_SUCCESS, storeBytes m1 0 (cd.token.serialNumber.take 16),
      storeBytes m2 0 (cd.token.serialNumber.take 16), by simp [memcpy, hS],
      by simp [memcpy, hS], fun _ j hj _ => ?_⟩
    simp +decide only [propertySize, if_false, if_true] at hj
    exact storeBytes_agree _ _ _ _ _ ⟨Nat.zero_le j, by simp [hS]; omega⟩
  · refine ⟨_, fun m => by
      simp +decide only [CardGetProperty, propertySize, if_false, if_true]
      rw [← hstrip], ?_⟩
    intro m1 m2 _
    have hnot : ¬ cd.token.serialNumber.length < stripBlanks cd.token.serialNumber 16 := by omega
    refine ⟨SCARD_S_SUCCESS,
      storeBytes m1 0 (cd.token.serialNumber.take (stripBlanks cd.token.serialNumber 16)),
      storeBytes m2 0 (cd.token.serialNumber.take (stripBlanks cd.token.serialNumber 16)),
      by simp [memcpy, hnot], by simp [memcpy, hnot], fun _ j hj _ => ?_⟩
    simp +decide only [propertySize, if_false, if_true] at hj
    rw [← hstrip] at hj
    exact storeBytes_agree _ _ _ _ _ ⟨Nat.zero_le j, by simp; omega⟩
  · refine ⟨_, fun m => by
      simp +decide only [CardGetProperty, propertySize, if_false, if_true]; rfl, ?_⟩
    intro m1 m2 hver
    have hv := hver (by simp)
    by_cases hgt : loadLE m1 0 4 > PIN_INFO_CURRENT_VERSION
    · have hgt2 := hgt
      rw [hv] at hgt2
      exact ⟨ERROR_REVISION_MISMATCH, m1, m2, by simp [CardQueryPINInfo, hgt],
        by simp [CardQueryPINInfo, hgt2], fun h => absurd h (by decide)⟩
    have hgt2 := hgt
    rw [hv] at hgt2
    by_cases hrole : dwFlags = ROLE_USER
    · refine ⟨SCARD_S_SUCCESS, _, _, by simp only [CardQueryPINInfo, hgt, hrole]; rfl,
        by simp only [CardQueryPINInfo, hgt2, hrole]; rfl, fun _ j hj h32 => ?_⟩
      have hj32 := h32 rfl
      apply storeLE_agree; intro _
      apply storeLE_agree; intro _
      apply storeLE_agree; intro _
      apply storeLE_agree; intro _
      apply storeLE_agree; intro _
      apply storeLE_agree; intro _
      apply storeLE_agree; intro _
      apply storeLE_agree; intro _
      omega
    · exact ⟨SCARD_E_INVALID_PARAMETER, _, _, by simp only [CardQueryPINInfo, hgt, hrole]; rfl,
        by simp only [CardQueryPINInfo, hgt2, hrole]; rfl, fun h => absurd h (by decide)⟩
  · refine ⟨_, fun m => by
      simp +decide only [CardGetProperty, propertySize, if_false, if_true]; rfl, ?_⟩
    intro m1 m2 _
    refine ⟨SCARD_S_SUCCESS, _, _, rfl, rfl, fun _ j hj _ => ?_⟩
    simp +decide only [propertySize, sizeof_BOOL, sizeof_DWORD, sizeof_PIN_SET, if_false,
      if_true] at hj
    exact storeLE_agree 4 _ _ _ _ _ (fun h => absurd ⟨Nat.zero_le j, by omega⟩ h)
  · refine ⟨_, fun m => by
      simp +decide only [CardGetProperty, propertySize, if_false, if_true]; rfl, ?_⟩
    intro m1 m2 _
    refine ⟨SCARD_S_SUCCESS, _, _, rfl, rfl, fun _ j hj _ => ?_⟩
    simp +decide only [propertySize, sizeof_BOOL, sizeof_DWORD, sizeof_PIN_SET, if_false,
      if_true] at hj
    exact storeLE_agree 4 _ _ _ _ _ (fun h => absurd ⟨Nat.zero_le j, by omega⟩ h)
  · refine ⟨_, fun m => by
      simp +decide only [CardGetProperty, propertySize, if_false, if_true]; rfl, ?_⟩
    intro m1 m2 _
    refine ⟨SCARD_S_SUCCESS, _, _, rfl, rfl, fun _ j hj _ => ?_⟩
    simp +decide only [propertySize, sizeof_BOOL, sizeof_DWORD, sizeof_PIN_SET, if_false,
      if_true] at hj
    exact storeLE_agree 4 _ _ _ _ _ (fun h => absurd ⟨Nat.zero_le j, by omega⟩ h)
  · refine ⟨_, fun m => by
      simp +decide only [CardGetProperty, propertySize, if_false, if_true]; rfl, ?_⟩
    intro m1 m2 _
    refine ⟨SCARD_S_SUCCESS, _, _, rfl, rfl, fun _ j hj _ => ?_⟩
    simp +decide only [propertySize, sizeof_BOOL, sizeof_DWORD, sizeof_PIN_SET, if_false,
      if_true] at hj
    exact storeLE_agree 4 _ _ _ _ _ (fun h => absurd ⟨Nat.zero_le j, by omega⟩ h)

/-- C28 (property results and the prior contents of the destination, as the
code has it): for a catalogue property and `cbData` at least its required
size, take two destination buffers; for the free-space, capabilities,
key-sizes and PIN-info properties let them hold the same value in their first
four bytes (the version member these calls read). Then `CardGetProperty`
returns for both, with the same status and the same length, and when the
status is Success the bytes below the required size are the same in both
buffers, except the last four bytes of the PIN info (its `dwFlags` member),
which the call does not write. With flags 0, at least 16 bytes and a version
member not above the current one, the free-space property succeeds with bytes
available 0, containers available 0 and max containers equal to the number of
containers. -/
theorem CardGetProperty_prior_contents (cd : CARD_DATA) (prop : List Nat)
    (cbData l dwFlags : Nat) (m1 m2 : Mem) (hprop : prop ∈ propertyCatalogue)
    (hS : cd.token.serialNumber.length = 16)
    (hN : cd.token.tokenPrivObjList.length < 2 ^ 31)
    (hcb : propertySize cd.token.serialNumber prop ≤ cbData) :
    ((prop ∈ [CP_CARD_FREE_SPACE, CP_CARD_CAPABILITIES, CP_CARD_KEYSIZES, CP_CARD_PIN_INFO] →
        loadLE m1 0 4 = loadLE m2 0 4) →
      ∃ st q1 q2,
        CardGetProperty (some cd) (some prop) (some m1) cbData (some l) dwFlags
          = some (st, some q1, some (propertySize cd.token.serialNumber prop)) ∧
        CardGetProperty (some cd) (some prop) (some m2) cbData (some l) dwFlags
          = some (st, some q2, some (propertySize cd.token.serialNumber prop)) ∧
        (st = SCARD_S_SUCCESS → ∀ j, j < propertySize cd.token.serialNumber prop →
          (prop = CP_CARD_PIN_INFO → j < 32) → q1 j = q2 j)) ∧
    (∀ (m : Mem) (cb : Nat), sizeof_CARD_FREE_SPACE_INFO ≤ cb →
      loadLE m 0 4 ≤ CARD_FREE_SPACE_INFO_CURRENT_VERSION →
      ∃ q, CardGetProperty (some cd) (some CP_CARD_FREE_SPACE) (some m) cb (some l) 0
          = some (SCARD_S_SUCCESS, some q, some sizeof_CARD_FREE_SPACE_INFO) ∧
        loadLE q 0 4 = CARD_FREE_SPACE_INFO_CURRENT_VERSION ∧
        loadLE q 4 4 = 0 ∧ loadLE q 8 4 = 0 ∧
        loadLE q 12 4 = cd.token.tokenPrivObjList.length) := by
  constructor
  · intro hver
    obtain ⟨fill, heq, hind⟩ := CardGetProperty_fill cd prop cbData l dwFlags hprop hS hN
    obtain ⟨st, q1, q2, e1, e2, hq⟩ := hind m1 m2 hver
    exact ⟨st, q1, q2,
      by rw [heq m1]; exact CardGetProperty_branch_large m1 cbData _ fill hcb st q1 e1,
      by rw [heq m2]; exact CardGetProperty_branch_large m2 cbData _ fill hcb st q2 e2, hq⟩
  · intro m cb hcb2 hv
    have hcnt := getNumberOfContainers_eq cd hN
    have hv2 : ¬ loadLE m 0 4 > CARD_FREE_SPACE_INFO_CURRENT_VERSION := Nat.not_lt.mpr hv
    refine ⟨storeLE (storeLE (storeLE (storeLE m 0 4 CARD_FREE_SPACE_INFO_CURRENT_VERSION)
      4 4 0) 8 4 0) 12 4 cd.token.tokenPrivObjList.length, ?_, ?_, ?_, ?_, ?_⟩
    · simp +decide only [CardGetProperty, if_true]
      rw [CardGetProperty_branch_large m cb _ _ hcb2 SCARD_S_SUCCESS _
        (by simp only [CardQueryFreeSpace, ne_eq, not_true_eq_false, if_false, hv2, hcnt]; rfl)]
      rfl
    · simp [loadLE, storeLE, store, CARD_FREE_SPACE_INFO_CURRENT_VERSION]
    · simp [loadLE, storeLE, store]
    · simp [loadLE, storeLE, store]
    · simp [loadLE, storeLE, store]
      omega

/-- Counterexample to C28 as stated: for the free-space property with flags
0 and 16 bytes, a buffer of zero bytes gives Success and a buffer of `0xff`
bytes gives `ERROR_REVISION_MISMATCH`; and for the PIN-info property two
buffers that differ in byte 32 only still differ there after a successful
call. -/
theorem CardGetProperty_reads_version :
    (CardGetProperty (some zeroHost) (some CP_CARD_FREE_SPACE) (some (fun _ => 0)) 16
        (some 0) 0).map Prod.fst = some SCARD_S_SUCCESS ∧
    (CardGetProperty (some zeroHost) (some CP_CARD_FREE_SPACE) (some (fun _ => 0xff)) 16
        (some 0) 0).map Prod.fst = some ERROR_REVISION_MISMATCH ∧
    (CardGetProperty (some zeroHost) (some CP_CARD_PIN_INFO) (some (fun _ => 0)) 36
        (some 0) ROLE_USER).map (fun r => (r.1, r.2.1.map (fun q => q 32)))
      = some (SCARD_S_SUCCESS, some 0) ∧
    (CardGetProperty (some zeroHost) (some CP_CARD_PIN_INFO)
        (some (fun i => if i = 32 then 7 else 0)) 36
        (some 0) ROLE_USER).map (fun r => (r.1, r.2.1.map (fun q => q 32)))
      = some (SCARD_S_SUCCESS, some 7) := by
  decide

/-! ## Instances of the theorems at the sample inputs -/

theorem sampleHost_ids : ∀ o ∈ sampleHost.token.tokenPrivObjList, findAttribute o CKA_ID ≠ none := by
  simp [sampleHost, hostWith, privateKey, findAttribute]

theorem encodeGUID_id_spec_witness :
    sampleSerial.length = 16 ∧
    (encodeGUID_id sampleSerial [1, 2, 3, 4]).length = 16 ∧
    (∀ k, k < 16 - [1, 2, 3, 4].length →
      (encodeGUID_id sampleSerial [1, 2, 3, 4]).getD k 0 = sampleSerial.getD k 0) ∧
    (∀ j, j < [1, 2, 3, 4].length →
      (encodeGUID_id sampleSerial [1, 2, 3, 4]).getD (16 - [1, 2, 3, 4].length + j) 0
        = sampleSerial.getD (16 - [1, 2, 3, 4].length + j) 0 ^^^ [1, 2, 3, 4].getD j 0) :=
  ⟨by decide, (encodeGUID_id_spec sampleSerial [1, 2, 3, 4] (by decide)).2.2 (by decide)⟩

theorem GUIDtoString_format_witness :
    sampleSerial.length = 16 ∧ (∀ b ∈ sampleSerial, b < 256) ∧
    GUIDtoString sampleSerial (fun _ => 0) 36 = 0 ∧
    (GUIDchars sampleSerial (fun _ => 0)).filter (fun c => c ≠ 45) = hexEncode sampleSerial ∧
    hexDecode ((GUIDchars sampleSerial (fun _ => 0)).filter (fun c => c ≠ 45)) = sampleSerial :=
  have h := GUIDtoString_format sampleSerial (fun _ => 0) (by decide) (by decide)
  ⟨by decide, by decide, h.2.1, h.2.2.2.2.2.2.2.2.1, h.2.2.2.2.2.2.2.2.2.1⟩

theorem encodeRSAPublicKey_roundtrip_witness :
    [0xc3, 0x5a, 0x01].length < 2 ^ 31 ∧
    zeroHost.pfnCspAlloc (20 + [0xc3, 0x5a, 0x01].length) = some (fun _ => 0) ∧
    ∃ blob, encodeRSAPublicKey zeroHost [0xc3, 0x5a, 0x01] { pblob := none, pbloblen := 0 }
        = some (SCARD_S_SUCCESS, { pblob := some blob, pbloblen := 20 + [0xc3, 0x5a, 0x01].length }) ∧
      ((Mem.bytes blob 0 (20 + [0xc3, 0x5a, 0x01].length)).drop 20).reverse = [0xc3, 0x5a, 0x01] :=
  ⟨by decide, rfl, encodeRSAPublicKey_roundtrip zeroHost [0xc3, 0x5a, 0x01]
    { pblob := none, pbloblen := 0 } (fun _ => 0) (by decide) rfl⟩

theorem encodeRSAPublicKey_header_spec_witness :
    nullHost.pfnCspAlloc ((sizeof_BLOBHEADER + sizeof_RSAPUBKEY + [0xc3, 0x5a, 0x01].length) % 2 ^ 32)
      = none ∧
    encodeRSAPublicKey nullHost [0xc3, 0x5a, 0x01] { pblob := none, pbloblen := 7 }
      = some (SCARD_E_NO_MEMORY, { pblob := none, pbloblen := 7 }) ∧
    [0xc3, 0x5a, 0x01].length < 2 ^ 32 - 20 ∧
    zeroHost.pfnCspAlloc (sizeof_BLOBHEADER + sizeof_RSAPUBKEY + [0xc3, 0x5a, 0x01].length)
      = some (fun _ => 0) ∧
    ∃ blob, encodeRSAPublicKey zeroHost [0xc3, 0x5a, 0x01] { pblob := none, pbloblen := 7 }
        = some (SCARD_S_SUCCESS,
            { pblob := some blob,
              pbloblen := sizeof_BLOBHEADER + sizeof_RSAPUBKEY + [0xc3, 0x5a, 0x01].length }) ∧
      loadLE blob 0 1 = PUBLICKEYBLOB ∧
      loadLE blob 1 1 = CUR_BLOB_VERSION ∧
      loadLE blob 2 2 = 0 ∧
      loadLE blob 4 4 = CALG_RSA_KEYX ∧
      loadLE blob sizeof_BLOBHEADER 4 = 0x31415352 ∧
      loadLE blob (sizeof_BLOBHEADER + 4) 4 = (8 * [0xc3, 0x5a, 0x01].length) % 2 ^ 32 ∧
      ([0xc3, 0x5a, 0x01].length < 2 ^ 29 →
        loadLE blob (sizeof_BLOBHEADER + 4) 4 = 8 * [0xc3, 0x5a, 0x01].length) ∧
      loadLE blob (sizeof_BLOBHEADER + 8) 4 = 65537 :=
  ⟨rfl, (encodeRSAPublicKey_header_spec nullHost [0xc3, 0x5a, 0x01]
      { pblob := none, pbloblen := 7 }).1 rfl,
    by decide, rfl,
    (encodeRSAPublicKey_header_spec zeroHost [0xc3, 0x5a, 0x01]
      { pblob := none, pbloblen := 7 }).2 (fun _ => 0) (by decide) rfl⟩

theorem encodeECCPublicKey_p256_blob_witness :
    findAttribute sampleECKey CKA_EC_PARAMS
      = some { attrType := CKA_EC_PARAMS, pValue := primeP256r1 } ∧
    findAttribute sampleECKey CKA_EC_POINT
      = some { attrType := CKA_EC_POINT, pValue := 0x04 :: 0x41 :: 0x04 :: List.replicate 64 7 } ∧
    (0x04 :: 0x41 :: 0x04 :: List.replicate 64 7).length = 67 ∧
    zeroHost.pfnCspAlloc (sizeof_BCRYPT_ECCKEY_BLOB + 64) = some (fun _ => 0) ∧
    ∃ blob, encodeECCPublicKey zeroHost sampleECKey { pblob := none, pbloblen := 0 }
        = some (SCARD_S_SUCCESS, { pblob := some blob, pbloblen := sizeof_BCRYPT_ECCKEY_BLOB + 64 }) ∧
      loadLE blob 0 4 = BCRYPT_ECDH_PUBLIC_P256_MAGIC ∧ loadLE blob 4 4 = 32 ∧
      Mem.bytes blob sizeof_BCRYPT_ECCKEY_BLOB 64
        = (0x04 :: 0x41 :: 0x04 :: List.replicate 64 7).drop 3 :=
  ⟨rfl, rfl, rfl, rfl,
    (encodeECCPublicKey_p256_blob zeroHost sampleECKey { pblob := none, pbloblen := 0 }
      { attrType := CKA_EC_PARAMS, pValue := primeP256r1 }
      { attrType := CKA_EC_POINT, pValue := 0x04 :: 0x41 :: 0x04 :: List.replicate 64 7 }
      rfl rfl rfl rfl).1 (fun _ => 0) rfl⟩

theorem encodeECCPublicKey_curve_check_witness :
    findAttribute (ecPublicKey [0x06, 0x05, 0x2b, 0x81, 0x04, 0x00, 0x22] [])
        CKA_EC_PARAMS
      = some { attrType := CKA_EC_PARAMS, pValue := [0x06, 0x05, 0x2b, 0x81, 0x04, 0x00, 0x22] } ∧
    (∃ k, k < 10 ∧ k < [0x06, 0x05, 0x2b, 0x81, 0x04, 0x00, 0x22].length ∧
      [0x06, 0x05, 0x2b, 0x81, 0x04, 0x00, 0x22].getD k 0 ≠ primeP256r1.getD k 0) ∧
    encodeECCPublicKey zeroHost (ecPublicKey [0x06, 0x05, 0x2b, 0x81, 0x04, 0x00, 0x22] [])
        { pblob := none, pbloblen := 9 }
      = some (SCARD_E_UNEXPECTED, { pblob := none, pbloblen := 9 }) :=
  ⟨rfl, ⟨1, by decide, by decide, by decide⟩,
    (encodeECCPublicKey_curve_check zeroHost
      (ecPublicKey [0x06, 0x05, 0x2b, 0x81, 0x04, 0x00, 0x22] [])
      { pblob := none, pbloblen := 9 }
      { attrType := CKA_EC_PARAMS, pValue := [0x06, 0x05, 0x2b, 0x81, 0x04, 0x00, 0x22] } rfl).1
      ⟨1, by decide, by decide, by decide⟩⟩

theorem encodeECCPublicKey_point_layout_witness :
    findAttribute (ecPublicKey (primeP256r1 ++ [0]) (List.replicate 70 9)) CKA_EC_PARAMS
      = some { attrType := CKA_EC_PARAMS, pValue := primeP256r1 ++ [0] } ∧
    (primeP256r1 ++ [0]).take 10 = primeP256r1 ∧
    findAttribute (ecPublicKey (primeP256r1 ++ [0]) (List.replicate 70 9)) CKA_EC_POINT
      = some { attrType := CKA_EC_POINT, pValue := List.replicate 70 9 } ∧
    67 ≤ (List.replicate 70 9).length ∧
    nullHost.pfnCspAlloc (sizeof_BCRYPT_ECCKEY_BLOB + 64) = none ∧
    encodeECCPublicKey nullHost (ecPublicKey (primeP256r1 ++ [0]) (List.replicate 70 9))
        { pblob := none, pbloblen := 0 }
      = some (SCARD_E_NO_MEMORY, { pblob := none, pbloblen := sizeof_BCRYPT_ECCKEY_BLOB + 64 }) :=
  ⟨rfl, rfl, rfl, by decide, rfl,
    ((encodeECCPublicKey_point_layout nullHost
      (ecPublicKey (primeP256r1 ++ [0]) (List.replicate 70 9)) { pblob := none, pbloblen := 0 }
      { attrType := CKA_EC_PARAMS, pValue := primeP256r1 ++ [0] } rfl rfl).2
      { attrType := CKA_EC_POINT, pValue := List.replicate 70 9 } rfl (by decide)).1 rfl⟩

theorem container_count_consistency_witness :
    sampleHost.token.tokenPrivObjList.length ≤ 100 ∧
    (∀ o ∈ sampleHost.token.tokenPrivObjList, findAttribute o CKA_ID ≠ none) ∧
    (∀ size, sampleHost.pfnCspAlloc size ≠ none) ∧
    getNumberOfContainers sampleHost = some sampleHost.token.tokenPrivObjList.length ∧
    (∃ m, CardEnumFiles (fun _ => 0xcc) (some sampleHost) (some szBASE_CSP_DIR) (some none)
        (some 0) 0
        = some (SCARD_S_SUCCESS, some (some m),
            some (10 + 6 * sampleHost.token.tokenPrivObjList.length)) ∧
      parseMultiSz (Mem.bytes m 0 (10 + 6 * sampleHost.token.tokenPrivObjList.length)) []
        = szCONTAINER_MAP_FILE :: (List.range sampleHost.token.tokenPrivObjList.length).map kxcName ∧
      ((List.range sampleHost.token.tokenPrivObjList.length).map kxcName).length
        = sampleHost.token.tokenPrivObjList.length) ∧
    (∃ recs, CardReadFile (some sampleHost) (some szBASE_CSP_DIR) (some szCONTAINER_MAP_FILE) 0
        (some none) (some 0)
        = some (SCARD_S_SUCCESS, some (some (FileData.records recs)),
            some (sampleHost.token.tokenPrivObjList.length * sizeof_CONTAINER_MAP_RECORD)) ∧
      recs.length = sampleHost.token.tokenPrivObjList.length) :=
  ⟨by decide, sampleHost_ids, fun _ h => Option.noConfusion h,
    container_count_consistency (fun _ => 0xcc) sampleHost none 0 none 0 (by decide)
      sampleHost_ids (fun _ h => Option.noConfusion h)⟩

theorem encodeCMapFile_flags_witness :
    1 ≤ sampleHost.token.tokenPrivObjList.length ∧
    (recordsOf (fun _ => 0xcc) 2).length = sampleHost.token.tokenPrivObjList.length ∧
    (∀ o ∈ sampleHost.token.tokenPrivObjList, findAttribute o CKA_ID ≠ none) ∧
    ∃ recs, encodeCMapFile sampleHost (recordsOf (fun _ => 0xcc) 2)
        (sampleHost.token.tokenPrivObjList.length : Int) = some (SCARD_S_SUCCESS, recs) ∧
      recs.length = sampleHost.token.tokenPrivObjList.length ∧
      (∃ r0, recs[0]? = some r0 ∧
        r0.bFlags = CONTAINER_MAP_VALID_CONTAINER ||| CONTAINER_MAP_DEFAULT_CONTAINER ∧
        r0.bFlags.testBit 0 = true ∧ r0.bFlags.testBit 1 = true) ∧
      (∀ i, 1 ≤ i → i < sampleHost.token.tokenPrivObjList.length →
        ∃ r, recs[i]? = some r ∧ r.bFlags = CONTAINER_MAP_VALID_CONTAINER ∧
          r.bFlags.testBit 0 = true ∧ r.bFlags.testBit 1 = false) :=
  ⟨by decide, by decide, sampleHost_ids,
    encodeCMapFile_flags sampleHost (recordsOf (fun _ => 0xcc) 2) (by decide) (by decide)
      sampleHost_ids⟩

theorem encodeCMapFile_record_content_witness :
    (recordsOf (fun _ => 0xcc) 2).length = sampleHost.token.tokenPrivObjList.length ∧
    (∀ o ∈ sampleHost.token.tokenPrivObjList, findAttribute o CKA_ID ≠ none) ∧
    ∃ recs, encodeCMapFile sampleHost (recordsOf (fun _ => 0xcc) 2)
        (sampleHost.token.tokenPrivObjList.length : Int) = some (SCARD_S_SUCCESS, recs) ∧
      ∀ i, i < sampleHost.token.tokenPrivObjList.length → ∃ obj attr old r g,
        getKeyForIndex sampleHost (i : Int) = some i ∧
        sampleHost.token.tokenPrivObjList[i]? = some obj ∧
        findAttribute obj CKA_ID = some attr ∧
        (recordsOf (fun _ => 0xcc) 2)[i]? = some old ∧ recs[i]? = some r ∧
        encodeGUID sampleHost obj old = some g ∧ r.wszGuid = g.wszGuid ∧
        r.wszGuid.take 37 =
          GUIDchars (encodeGUID_id sampleHost.token.serialNumber attr.pValue) (fun _ => 0) ++ [0] ∧
        r.wSigKeySizeBits = 0 ∧
        r.wKeyExchangeKeySizeBits = (obj.keysize % 2 ^ 16).toNat ∧
        (0 ≤ obj.keysize → obj.keysize < 2 ^ 16 →
          (r.wKeyExchangeKeySizeBits : Int) = obj.keysize) :=
  ⟨by decide, sampleHost_ids,
    encodeCMapFile_record_content sampleHost (recordsOf (fun _ => 0xcc) 2) (by decide)
      sampleHost_ids⟩

theorem CardQueryKeySizes_catalogue_witness :
    loadLE (fun _ => 0) 0 4 ≤ CARD_KEY_SIZES_CURRENT_VERSION ∧
    (AT_ECDHE_P256 = AT_ECDSA_P256 ∨ AT_ECDHE_P256 = AT_ECDHE_P256) ∧
    ∃ q, CardQueryKeySizes (some zeroHost) AT_ECDHE_P256 0 (some (fun _ => 0))
        = (SCARD_S_SUCCESS, some q) ∧
      loadLE q 0 4 = CARD_KEY_SIZES_CURRENT_VERSION ∧ loadLE q 4 4 = 256 ∧
      loadLE q 8 4 = 256 ∧ loadLE q 12 4 = 256 ∧ loadLE q 16 4 = 0 :=
  ⟨by decide, Or.inr rfl,
    (CardQueryKeySizes_catalogue zeroHost (fun _ => 0) AT_ECDHE_P256 (by decide)).2.1 (Or.inr rfl)⟩

theorem CardGetProperty_serial_number_witness :
    (hostWith ([0x44, 0x45, 0x20, 0x31] ++ List.replicate 12 0x20) []).token.serialNumber.length
      = 16 ∧
    stripBlanks (hostWith ([0x44, 0x45, 0x20, 0x31] ++ List.replicate 12 0x20) []).token.serialNumber
      16 ≤ 16 ∧
    stripBlanks ([0x44, 0x45, 0x20, 0x31] ++ List.replicate 12 0x20) 16 = 4 ∧
    ∃ q, CardGetProperty (some (hostWith ([0x44, 0x45, 0x20, 0x31] ++ List.replicate 12 0x20) []))
        (some CP_CARD_SERIAL_NO) (some (fun _ => 0xcc)) 16 (some 0) 0
        = some (SCARD_S_SUCCESS, some q, some 4) ∧
      Mem.bytes q 0 4 = [0x44, 0x45, 0x20, 0x31] :=
  have h := CardGetProperty_serial_number
    (hostWith ([0x44, 0x45, 0x20, 0x31] ++ List.replicate 12 0x20) []) (fun _ => 0xcc) 16 0 0
    (by decide) (by decide)
  ⟨by decide, by decide, by decide, h.choose, h.choose_spec.1, h.choose_spec.2.1⟩

theorem CardReadFile_root_files_witness :
    16 ≤ certHost.token.serialNumber.length ∧
    certHost.pfnCspAlloc 16 = some (fun _ => 0) ∧
    certHost.pfnCspAlloc 8 = some (fun _ => 0) ∧
    (CardReadFile (some certHost) none (some szCARD_IDENTIFIER_FILE) 0 (some none) (some 0)
        = some (SCARD_S_SUCCESS,
            some (some (FileData.bytes
              (storeBytes (fun _ => 0) 0 (certHost.token.serialNumber.take 16)))),
            some 16) ∧
      Mem.bytes (storeBytes (fun _ => 0) 0 (certHost.token.serialNumber.take 16)) 0 16
        = certHost.token.serialNumber.take 16) ∧
    (CardReadFile (some certHost) none (some (wide "cardapps")) 0 (some none) (some 0)
        = some (SCARD_S_SUCCESS,
            some (some (FileData.bytes
              (storeBytes (fun _ => 0) 0 [109, 115, 99, 112, 0, 0, 0, 0]))),
            some 8) ∧
      Mem.bytes (storeBytes (fun _ => 0) 0 [109, 115, 99, 112, 0, 0, 0, 0]) 0 8
        = [109, 115, 99, 112, 0, 0, 0, 0]) :=
  ⟨by decide, rfl, rfl,
    (CardReadFile_root_files certHost none 0).1 (fun _ => 0) (by decide) rfl,
    (CardReadFile_root_files certHost none 0).2 (fun _ => 0) rfl⟩

theorem CardReadFile_missing_certificate_witness :
    certHost.token.tokenPrivObjList[1]? = some (privateKey [9] 256) ∧
    findAttribute (privateKey [9] 256) CKA_ID = some { attrType := CKA_ID, pValue := [9] } ∧
    1 < certHost.token.tokenPrivObjList.length ∧
    CardReadFile (some certHost) (some szBASE_CSP_DIR) (some (kxcName 1)) 0 (some none) (some 0)
      = some (SCARD_E_UNEXPECTED, some none, some 0) :=
  ⟨rfl, rfl,
    CardReadFile_missing_certificate certHost 1 (privateKey [9] 256)
      { attrType := CKA_ID, pValue := [9] } none 0 (by decide) rfl rfl
      (by
        intro o ho _ a ha
        have ho2 : o = certificate [1, 2, 3, 4] [0x30, 0x03, 0x02, 0x01, 0x05] := by
          simpa [certHost] using ho
        subst ho2
        have ha2 : a = { attrType := CKA_ID, pValue := [1, 2, 3, 4] } :=
          (Option.some.inj ha).symm
        subst ha2
        decide)⟩

theorem enumerated_names_address_containers_witness :
    certHost.token.tokenPrivObjList.length ≤ 100 ∧
    certHost.pfnCspAlloc (10 + 6 * certHost.token.tokenPrivObjList.length) = some (fun _ => 0) ∧
    atoi ((kxcName 0).drop 3) = 0 ∧
    getKeyForIndex certHost (atoi ((kxcName 0).drop 3)) = some 0 ∧
    CardReadFile (some certHost) (some szBASE_CSP_DIR) (some (kxcName 0)) 0 (some none) (some 0)
      = some (SCARD_S_SUCCESS,
          some (some (FileData.bytes (storeBytes (fun _ => 0) 0 [0x30, 0x03, 0x02, 0x01, 0x05]))),
          some 5) := by
  obtain ⟨_, _, h⟩ := enumerated_names_address_containers (fun _ => 0xcc) certHost none 0
    (fun _ => 0) (by decide) rfl
  obtain ⟨_, _, _, h4, h5, h6⟩ := h 0 (by decide)
  exact ⟨by decide, rfl, h4, h5,
    (h6 (privateKey [1, 2, 3, 4] 2048) { attrType := CKA_ID, pValue := [1, 2, 3, 4] }
      (certificate [1, 2, 3, 4] [0x30, 0x03, 0x02, 0x01, 0x05])
      { attrType := CKA_VALUE, pValue := [0x30, 0x03, 0x02, 0x01, 0x05] } (fun _ => 0) none 0
      rfl rfl rfl rfl rfl).1⟩

theorem CardGetFileInfo_agrees_with_CardReadFile_witness :
    (0 : Nat) ≤ CARD_FILE_INFO_CURRENT_VERSION ∧
    (CardGetFileInfo (some certHost) none (some szCARD_IDENTIFIER_FILE)
        (some { dwVersion := 0, cbFileSize := 77, AccessCondition := 0 })).map Prod.fst
      = (CardReadFile (some certHost) none (some szCARD_IDENTIFIER_FILE) 0 (some none)
          (some 99)).map Prod.fst ∧
    ∃ info2, CardGetFileInfo (some certHost) none (some szCARD_IDENTIFIER_FILE)
        (some { dwVersion := 0, cbFileSize := 77, AccessCondition := 0 })
        = some (SCARD_S_SUCCESS, some info2) ∧
      info2.cbFileSize = 16 :=
  have h := CardGetFileInfo_agrees_with_CardReadFile (some certHost) none
    (some szCARD_IDENTIFIER_FILE) { dwVersion := 0, cbFileSize := 77, AccessCondition := 0 }
    none 99 (by decide)
  ⟨by decide, h.1, h.2 _ 16 rfl⟩

theorem checkFileName_before_lookup_witness :
    checkFileName (wide "cardid") = SCARD_S_SUCCESS ∧
    checkFileName (wide "ninechars") = SCARD_E_INVALID_PARAMETER ∧
    CardReadFile (some zeroHost) (some szBASE_CSP_DIR) (some [0x6b, 0x07]) 0 (some none) (some 0)
      = some (SCARD_E_INVALID_PARAMETER, some none, some 0) ∧
    CardReadFile (some zeroHost) (some (wide "other")) (some [0x6b, 0x07]) 0 (some none) (some 0)
      = some (SCARD_E_DIR_NOT_FOUND, some none, some 0) :=
  ⟨(checkFileName_before_lookup.1 (wide "cardid")).1.mpr (by decide),
    (checkFileName_before_lookup.1 (wide "ninechars")).2 (by decide),
    checkFileName_before_lookup.2.1 zeroHost (some szBASE_CSP_DIR) [0x6b, 0x07] 0 none 0
      (by decide) (Or.inr (Or.inl rfl)),
    checkFileName_before_lookup.2.2 zeroHost (wide "other") [0x6b, 0x07] 0 none 0
      (by decide) (by decide) (by decide) (by decide)⟩

theorem only_two_directories_witness :
    (1 ≤ (wide "MSCP").length ∧ (wide "MSCP").length ≤ 8 ∧
      ∀ c ∈ wide "MSCP", isprint c = true) ∧
    wide "MSCP" ≠ szBASE_CSP_DIR ∧
    CardReadFile (some sampleHost) (some (wide "MSCP")) (some szCONTAINER_MAP_FILE) 0
        (some none) (some 0)
      = some (SCARD_E_DIR_NOT_FOUND, some none, some 0) ∧
    CardEnumFiles (fun _ => 0) (some sampleHost) (some (wide "MSCP")) (some none) (some 0) 0
      = some (SCARD_E_DIR_NOT_FOUND, some none, some 0) ∧
    CardReadFile (some sampleHost) none (some szCONTAINER_MAP_FILE) 0 (some none) (some 0)
      = some (SCARD_E_FILE_NOT_FOUND, some none, some 0) ∧
    CardReadFile (some sampleHost) (some szBASE_CSP_DIR) (some szCARD_IDENTIFIER_FILE) 0
        (some none) (some 0)
      = some (SCARD_E_FILE_NOT_FOUND, some none, some 0) :=
  have h := only_two_directories (fun _ => 0) sampleHost (wide "MSCP") (by decide) (by decide)
  ⟨by decide, by decide, h.1 szCONTAINER_MAP_FILE 0 none 0 (by decide), h.2.1 0 none 0,
    (h.2.2.1 szCONTAINER_MAP_FILE none 0 (by decide)).mpr (by decide),
    h.2.2.2.2.1 szCARD_IDENTIFIER_FILE none 0 (by decide) (by decide) (by decide)⟩

theorem unknown_property_rejected_witness :
    wide "Nonsense" ∉ propertyCatalogue ∧
    wide "Nonsense" ≠ CCP_CONTAINER_INFO ∧ wide "Nonsense" ≠ CCP_PIN_IDENTIFIER ∧
    CardGetProperty (some sampleHost) (some (wide "Nonsense")) (some (fun _ => 0xcc)) 64
        (some 7) 0
      = some (SCARD_E_INVALID_PARAMETER, some (fun _ => 0xcc), some 7) ∧
    CardGetContainerProperty (some sampleHost) 0 (some (wide "Nonsense"))
        (some (PropBuf.raw (fun _ => 0xcc))) 64 (some 7) 0
      = some (SCARD_E_INVALID_PARAMETER, some (PropBuf.raw (fun _ => 0xcc)), some 7) :=
  ⟨by decide, by decide, by decide,
    (unknown_property_rejected sampleHost (wide "Nonsense") (fun _ => 0xcc)
      (PropBuf.raw (fun _ => 0xcc)) 0 64 7 0).1 (by decide),
    (unknown_property_rejected sampleHost (wide "Nonsense") (fun _ => 0xcc)
      (PropBuf.raw (fun _ => 0xcc)) 0 64 7 0).2 (by decide) (by decide)⟩

theorem CardGetProperty_required_size_witness :
    CP_CARD_GUID ∈ propertyCatalogue ∧
    sampleHost.token.serialNumber.length = 16 ∧
    sampleHost.token.tokenPrivObjList.length < 2 ^ 31 ∧
    propertySize sampleHost.token.serialNumber CP_CARD_GUID = 16 ∧
    CardGetProperty (some sampleHost) (some CP_CARD_GUID) (some (fun _ => 0xcc)) 15 (some 0) 0
      = some (SCARD_E_INSUFFICIENT_BUFFER, some (fun _ => 0xcc),
          some (propertySize sampleHost.token.serialNumber CP_CARD_GUID)) ∧
    ∃ st q, CardGetProperty (some sampleHost) (some CP_CARD_GUID) (some (fun _ => 0xcc)) 16
        (some 0) 0
      = some (st, some q, some (propertySize sampleHost.token.serialNumber CP_CARD_GUID)) :=
  ⟨by decide, by decide, by decide, by decide,
    (CardGetProperty_required_size sampleHost CP_CARD_GUID (fun _ => 0xcc) 15 0 0
      (by decide) (by decide) (by decide)).1 (by decide),
    (CardGetProperty_required_size sampleHost CP_CARD_GUID (fun _ => 0xcc) 16 0 0
      (by decide) (by decide) (by decide)).2 (by decide)⟩

theorem CardAcquireContext_validation_witness :
    (∃ c ∈ acquireFailures (some (sampleDescriptor 3)) 5, c.1 = true) ∧
    ((acquireFailures (some (sampleDescriptor 3)) 5).find? (fun c => c.1)).map Prod.snd
      = some SCARD_E_INVALID_PARAMETER ∧
    ((acquireFailures (some (sampleDescriptor 3)) 0).find? (fun c => c.1)).map Prod.snd
      = some ERROR_REVISION_MISMATCH ∧
    (∃ st, ((acquireFailures (some (sampleDescriptor 3)) 5).find? (fun c => c.1)).map Prod.snd
        = some st ∧
      CardAcquireContext sampleFramework (some (sampleDescriptor 3)) 5
        = { status := st, pCardData := some (sampleDescriptor 3), calls := [] }) ∧
    (∃ st, ((acquireFailures (some (sampleDescriptor 3)) 0).find? (fun c => c.1)).map Prod.snd
        = some st ∧
      CardAcquireContext sampleFramework (some (sampleDescriptor 3)) 0
        = { status := st, pCardData := some (sampleDescriptor 3), calls := [] }) :=
  ⟨⟨(true, SCARD_E_INVALID_PARAMETER), by decide, rfl⟩, by decide, by decide,
    CardAcquireContext_validation sampleFramework (some (sampleDescriptor 3)) 5
      ⟨(true, SCARD_E_INVALID_PARAMETER), by decide, rfl⟩,
    CardAcquireContext_validation sampleFramework (some (sampleDescriptor 3)) 0
      ⟨(true, ERROR_REVISION_MISMATCH), by decide, rfl⟩⟩

theorem CardAcquireContext_negotiation_witness :
    (CardAcquireContext failingFramework (some (sampleDescriptor 9)) 0).status
      = SCARD_E_UNEXPECTED ∧
    (CardAcquireContext failingFramework (some (sampleDescriptor 9)) 0).calls.count
      (HostCall.pfnCspFree 4096) = 1 ∧
    ∃ d2, (CardAcquireContext failingFramework (some (sampleDescriptor 9)) 0).pCardData = some d2 ∧
      d2.dwVersion = 7 ∧ d2.pvVendorSpecific = none := by
  obtain ⟨d2, h1, h2, _, _, _, h3, _⟩ := CardAcquireContext_negotiation failingFramework
    (sampleDescriptor 9) [0x3b, 0xfe, 0x18, 0x00] (wide "SmartCard-HSM") (fun _ => some 4096) 1 2
    (by decide) rfl (by decide) rfl rfl rfl rfl (by decide)
  obtain ⟨s1, s2, _, s4, _⟩ := h3 4096 rfl (by decide)
  exact ⟨s1, s4, d2, h1, h2, s2⟩

theorem CardAcquireContext_version_gated_witness :
    ∃ d2, (CardAcquireContext sampleFramework (some (sampleDescriptor 6)) 0).pCardData = some d2 ∧
      d2.dwVersion = 6 ∧
      (sampleDescriptor 6).table Field.pfnCardGetProperty = Entry.other 99 ∧
      d2.table Field.pfnCardDeriveKey = Entry.null ∧
      d2.table Field.pfnCardGetProperty = Entry.CardGetProperty ∧
      d2.table Field.pfnCardGetContainerProperty = Entry.CardGetContainerProperty ∧
      d2.table Field.pfnCardSetProperty = Entry.UnsupportedFeature ∧
      d2.table Field.pfnCardGetProperty ≠ (sampleDescriptor 6).table Field.pfnCardGetProperty ∧
      d2.table Field.pfnCardCreateContainerEx = Entry.other 99 ∧
      Field.pfnCardGetProperty ∈ (tableStores d2.dwVersion).map Prod.fst ∧
      Field.pfnCardCreateContainerEx ∉ (tableStores d2.dwVersion).map Prod.fst := by
  obtain ⟨d2, h1, h2, _, h5, h6, h7⟩ := CardAcquireContext_version_gated sampleFramework
    (sampleDescriptor 6) [0x3b, 0xfe, 0x18, 0x00] (wide "SmartCard-HSM") (fun _ => some 4096) 1 2
    (by decide) rfl (by decide) rfl rfl rfl rfl (by decide)
  have hv : d2.dwVersion = 6 := h2
  refine ⟨d2, h1, hv, rfl, (h5 Field.pfnCardDeriveKey (by decide)).1 (by omega),
    (h6 Field.pfnCardGetProperty (by decide)).1 (by omega),
    (h6 Field.pfnCardGetContainerProperty (by decide)).1 (by omega),
    (h6 Field.pfnCardSetProperty (by decide)).1 (by omega),
    ((h6 Field.pfnCardGetProperty (by decide)).2.2.1 99 rfl).mpr (by omega),
    (h7 Field.pfnCardCreateContainerEx (by decide)).2.1 (by omega),
    (h6 Field.pfnCardGetProperty (by decide)).2.2.2.mpr (by omega), ?_⟩
  intro hmem
  have := (h7 Field.pfnCardCreateContainerEx (by decide)).2.2.2.mp hmem
  omega

theorem unimplemented_entries_witness :
    UnsupportedFeature (some zeroHost) = SCARD_E_UNSUPPORTED_FEATURE ∧
    ∃ d2, (CardAcquireContext sampleFramework (some (sampleDescriptor 6)) 0).pCardData = some d2 ∧
      d2.dwVersion = 6 ∧
      d2.table Field.pfnCardDeleteContainer = Entry.UnsupportedFeature ∧
      d2.table Field.pfnCardSetProperty = Entry.UnsupportedFeature ∧
      d2.table Field.pfnCardConstructDHAgreement = Entry.null ∧
      d2.table Field.pfnCardDeriveKey = Entry.null := by
  obtain ⟨_, h0, d2, h1, h2, h3, h4, _, h6, h7⟩ := unimplemented_entries sampleFramework
    (sampleDescriptor 6) [0x3b, 0xfe, 0x18, 0x00] (wide "SmartCard-HSM") (fun _ => some 4096) 1 2
    (by decide) rfl (by decide) rfl rfl rfl rfl (by decide)
  have hv : d2.dwVersion = 6 := h2
  exact ⟨h0 zeroHost, d2, h1, hv, h3 _ (by decide), h4 (by omega) _ (by decide), h6,
    h7 (by omega) _ (by decide)⟩

theorem flags_checked_before_version_witness :
    (1 : Nat) ≠ 0 ∧
    loadLE (fun _ => 0xff) 0 4 > CARD_FREE_SPACE_INFO_CURRENT_VERSION ∧
    CardQueryFreeSpace (some zeroHost) 1 (some (fun _ => 0xff))
      = some (SCARD_E_INVALID_PARAMETER, some (fun _ => 0xff)) ∧
    CardQueryKeySizes (some zeroHost) AT_SIGNATURE 1 (some (fun _ => 0xff))
      = (SCARD_E_INVALID_PARAMETER, some (fun _ => 0xff)) ∧
    CardQueryFreeSpace (some zeroHost) 0 (some (fun _ => 0xff))
      = some (ERROR_REVISION_MISMATCH, some (fun _ => 0xff)) :=
  ⟨by decide, by decide,
    ((flags_checked_before_version zeroHost 1).2.2.2.2.2.2.1 (by decide)).1 (fun _ => 0xff),
    ((flags_checked_before_version zeroHost 1).2.2.2.2.2.2.1 (by decide)).2.2 AT_SIGNATURE
      (fun _ => 0xff),
    ((flags_checked_before_version zeroHost 0).2.2.2.2.2.2.2 rfl).1 (fun _ => 0xff) (by decide)⟩

theorem container_index_witness :
    sampleHost.token.tokenPrivObjList.length < 2 ^ 31 ∧
    getNumberOfContainers sampleHost = some 2 ∧
    getKeyForIndex sampleHost 1 = some 1 ∧
    getKeyForIndex sampleHost (-3) = none ∧
    getKeyForIndex sampleHost 2 = none ∧
    CardGetContainerInfo (some sampleHost) 2 0
        (some { dwVersion := 0, dwReserved := 9, cbSigPublicKey := 9, pbSigPublicKey := none,
                cbKeyExPublicKey := 9, pbKeyExPublicKey := none })
      = some (SCARD_E_NO_KEY_CONTAINER,
          some { dwVersion := 0, dwReserved := 9, cbSigPublicKey := 9, pbSigPublicKey := none,
                 cbKeyExPublicKey := 9, pbKeyExPublicKey := none }) :=
  ⟨by decide, ((container_index sampleHost).1 (by decide)).1,
    ((container_index sampleHost).2.1 1 (by decide) (by decide)).1,
    (container_index sampleHost).2.2.1 (-3) (Or.inl (by decide)),
    (container_index sampleHost).2.2.1 2 (Or.inr (by decide)),
    ((container_index sampleHost).2.2.2 2 _ (by decide) (by decide)).1 (by decide)⟩

theorem CardGetProperty_prior_contents_witness :
    CP_CARD_READ_ONLY ∈ propertyCatalogue ∧
    sampleHost.token.serialNumber.length = 16 ∧
    sampleHost.token.tokenPrivObjList.length < 2 ^ 31 ∧
    propertySize sampleHost.token.serialNumber CP_CARD_READ_ONLY ≤ 4 ∧
    ∃ st q1 q2,
      CardGetProperty (some sampleHost) (some CP_CARD_READ_ONLY) (some (fun _ => 0)) 4 (some 0) 0
        = some (st, some q1, some (propertySize sampleHost.token.serialNumber CP_CARD_READ_ONLY)) ∧
      CardGetProperty (some sampleHost) (some CP_CARD_READ_ONLY) (some (fun _ => 0xff)) 4
          (some 0) 0
        = some (st, some q2, some (propertySize sampleHost.token.serialNumber CP_CARD_READ_ONLY)) ∧
      (st = SCARD_S_SUCCESS →
        ∀ j, j < propertySize sampleHost.token.serialNumber CP_CARD_READ_ONLY →
          (CP_CARD_READ_ONLY = CP_CARD_PIN_INFO → j < 32) → q1 j = q2 j) :=
  ⟨by decide, by decide, by decide, by decide,
    (CardGetProperty_prior_contents sampleHost CP_CARD_READ_ONLY 4 0 0 (fun _ => 0)
      (fun _ => 0xff) (by decide) (by decide) (by decide) (by decide)).1
      (fun h => absurd h (by decide))⟩

theorem GUID_collisions_witness :
    sampleSerial.length = 16 ∧
    rightAlign [1, 2] = rightAlign [0, 1, 2] ∧
    encodeGUID_id sampleSerial [1, 2] = encodeGUID_id sampleSerial [0, 1, 2] ∧
    GUIDchars (encodeGUID_id sampleSerial [1, 2]) (fun _ => 0)
      ≠ GUIDchars (encodeGUID_id sampleSerial [2, 1]) (fun _ => 0) :=
  ⟨by decide, by decide,
    (GUID_collisions sampleSerial [1, 2] [0, 1, 2] (by decide) (by decide) (by decide)).1.mpr
      (by decide),
    (GUID_collisions sampleSerial [1, 2] [2, 1] (by decide) (by decide) (by decide)).2.2.2.1
      rfl (by decide) (fun _ => 0) (fun _ => 0)⟩

theorem certificate_name_parsing_witness :
    (1 ≤ (wide "kxcab").length ∧ (wide "kxcab").length ≤ 8 ∧
      ∀ c ∈ wide "kxcab", isprint c = true) ∧
    atoi ((wide "kxcab").drop 3) = 0 ∧
    CardReadFile (some certHost) (some szBASE_CSP_DIR) (some (wide "kxcab")) 0 (some none)
        (some 0)
      = CardReadFile (some certHost) (some szBASE_CSP_DIR) (some (wide "kxc00")) 0 (some none)
          (some 0) ∧
    CardReadFile (some certHost) (some szBASE_CSP_DIR) (some (wide "kxc-1")) 0 (some none)
        (some 0)
      = some (SCARD_E_FILE_NOT_FOUND, some none, some 0) :=
  ⟨by decide,
    (((certificate_name_parsing certHost (wide "kxcab") none 0 (by decide)).1 (by decide)).2.2.1
      (Or.inr ⟨97, [98], rfl, by decide, by decide, by decide, by decide⟩)).1,
    (((certificate_name_parsing certHost (wide "kxcab") none 0 (by decide)).1 (by decide)).2.2.1
      (Or.inr ⟨97, [98], rfl, by decide, by decide, by decide, by decide⟩)).2,
    ((certificate_name_parsing certHost (wide "kxc-1") none 0 (by decide)).1 (by decide)).2.2.2
      (by decide)⟩

end Minidriver
